import Mathlib

/-!
# Verification development for the firmware libraries

Shallow embedding of `lib/eai_audio/src/mixer.c` (the software mixer) and
theorems about it.

Conventions of the embedding
* `uint32_t` values are `Nat`s kept below `2^32`; every arithmetic operation of
  the source on them is followed by `% U32`.
* `int16_t` / `int32_t` values are `Int`s. The conversions the source performs
  are explicit: `toI32` (`(int32_t)` of a `uint32_t`), `wrap32` (result of an
  `int32_t` operation, two's complement), `toI16` (`(int16_t)` of an `int32_t`).
* C arrays are functions from the index to the element; a store is `store`.
* The mutex serialises the API calls and the body of the mixer loop, so each of
  them is one atomic step on `MixerState`.
-/

namespace Mixer

/-! ## Constants of `mixer.h` / `mixer.c` -/

def EAI_AUDIO_MIXER_MAX_SLOTS : Nat := 4

def EAI_AUDIO_MIXER_MAX_PERIOD_FRAMES : Nat := 1024

def EAI_AUDIO_MIXER_MAX_CHANNELS : Nat := 2

def EAI_AUDIO_MIXER_VOLUME_UNITY : Nat := 0x10000

def EAI_AUDIO_MIXER_VOLUME_MUTE : Nat := 0

/-- Per-slot ring capacity in samples. -/
def RING_CAP_SAMPLES : Nat :=
  2 * EAI_AUDIO_MIXER_MAX_PERIOD_FRAMES * EAI_AUDIO_MIXER_MAX_CHANNELS

/-- Mix output buffer size in samples. -/
def MIX_BUF_SAMPLES : Nat :=
  EAI_AUDIO_MIXER_MAX_PERIOD_FRAMES * EAI_AUDIO_MIXER_MAX_CHANNELS

/-- Number of values of a `uint32_t`. -/
def U32 : Nat := 4294967296

/-- Value of `EINVAL` in `errno.h` (Linux, newlib, Zephyr). -/
def EINVAL : Int := 22

/-- Value of `ENOMEM` in `errno.h`. -/
def ENOMEM : Int := 12

/-! ## Machine integer conversions -/

/-- Conversion `(int32_t)x` of a `uint32_t` value. -/
def toI32 (x : Nat) : Int :=
  if x % U32 < 2147483648 then ((x % U32 : Nat) : Int) else ((x % U32 : Nat) : Int) - 4294967296

/-- Result of an `int32_t` operation whose mathematical value is `x`
(two's complement wrap-around). -/
def wrap32 (x : Int) : Int := (x + 2147483648) % 4294967296 - 2147483648

/-- Conversion `(int16_t)x` of an `int32_t` value. -/
def toI16 (x : Int) : Int := (x + 32768) % 65536 - 32768

/-- Arithmetic right shift `x >> 16` of an `int32_t`. -/
def sar16 (x : Int) : Int := x / 65536

/-- Range of an `int16_t`. -/
def isI16 (x : Int) : Prop := -32768 ≤ x ∧ x ≤ 32767

instance (x : Int) : Decidable (isI16 x) := by
  unfold isI16; exact inferInstance

/-- Array store `a[i] = v`. -/
def store {α : Type} (a : Nat → α) (i : Nat) (v : α) : Nat → α :=
  fun k => if k = i then v else a k

/-- The call `memset(buf, 0, n * sizeof(int16_t))`. -/
def memset0 (buf : Nat → Int) (n : Nat) : Nat → Int :=
  fun k => if k < n then 0 else buf k

/-! ## Data model -/

/-- Mirror of `struct mixer_slot`. -/
structure mixer_slot where
  ring : Nat → Int
  wr : Nat
  rd : Nat
  volume : Nat
  underruns : Nat
  active : Bool

/-- Mirror of `struct eai_audio_mixer_config`; `hw_write` records whether the
callback pointer is non-NULL. -/
structure eai_audio_mixer_config where
  sample_rate : Nat
  channels : Nat
  period_frames : Nat
  hw_write : Bool

/-- The module state `mixer`, together with the local staging array `slot_buf`
of the mixer thread and the list of buffers handed to `hw_write` so far (each
entry holds the `period_frames * channels` samples of one call). -/
structure MixerState where
  config : eai_audio_mixer_config
  slots : Nat → mixer_slot
  mix_buf : Nat → Int
  slot_buf : Nat → Int
  running : Bool
  initialized : Bool
  hw_out : List (List Int)

/-- An all-zero slot. -/
def zero_slot : mixer_slot :=
  { ring := fun _ => 0, wr := 0, rd := 0, volume := 0, underruns := 0, active := false }

/-- An all-zero configuration. -/
def zero_config : eai_audio_mixer_config :=
  { sample_rate := 0, channels := 0, period_frames := 0, hw_write := false }

/-- The module state as the loader leaves it (static storage is zeroed). -/
def mixer_zero : MixerState :=
  { config := zero_config, slots := fun _ => zero_slot, mix_buf := fun _ => 0,
    slot_buf := fun _ => 0, running := false, initialized := false, hw_out := [] }

/-! ## Ring buffer helpers -/

/-- The function `ring_count`: `s->wr - s->rd` in `uint32_t`. -/
def ring_count (s : mixer_slot) : Nat := (s.wr + U32 - s.rd) % U32

/-- The function `ring_space`: `RING_CAP_SAMPLES - ring_count(s)` in `uint32_t`. -/
def ring_space (s : mixer_slot) : Nat := (RING_CAP_SAMPLES + U32 - ring_count s) % U32

/-- The function `ring_write`: the loop `for (i = 0; i < samples; i++)`. -/
def ring_write (s : mixer_slot) (data : Nat → Int) : Nat → mixer_slot
  | 0 => s
  | i + 1 =>
    let s1 := ring_write s data i
    { s1 with ring := store s1.ring (s1.wr % RING_CAP_SAMPLES) (data i),
              wr := (s1.wr + 1) % U32 }

/-- The function `ring_read`: the loop `for (i = 0; i < samples; i++)`,
returning the slot and the destination array. -/
def ring_read (s : mixer_slot) (data : Nat → Int) : Nat → mixer_slot × (Nat → Int)
  | 0 => (s, data)
  | i + 1 =>
    let r := ring_read s data i
    ({ r.1 with rd := (r.1.rd + 1) % U32 },
     store r.2 i (r.1.ring (r.1.rd % RING_CAP_SAMPLES)))

/-! ## Mixer thread -/

/-- The expression `((int32_t)slot_buf[j] * (int32_t)slot->volume) >> 16`. -/
def scaled (sample : Int) (volume : Nat) : Int :=
  sar16 (wrap32 (sample * toI32 volume))

/-- The hard clip of the accumulator to the `int16_t` range. -/
def clip (acc : Int) : Int :=
  if acc > 32767 then 32767 else if acc < -32768 then -32768 else acc

/-- The loop "mix into accumulator with volume" over `j < n`. The sum
`(int32_t)mix_buf[j] + scaled` of an `int16_t` and a value shifted right by 16
cannot leave the `int32_t` range. -/
def mix_loop (volume : Nat) (slot_buf mix_buf : Nat → Int) : Nat → (Nat → Int)
  | 0 => mix_buf
  | j + 1 =>
    let mb := mix_loop volume slot_buf mix_buf j
    let acc := mb j + scaled (slot_buf j) volume
    store mb j (toI16 (clip acc))

/-- Variables carried by the loop over the slots. -/
structure PassAcc where
  slots : Nat → mixer_slot
  slot_buf : Nat → Int
  mix_buf : Nat → Int
  any_active : Bool

/-- Body of the loop over the slots for index `i`. -/
def slot_body (period_samples : Nat) (i : Nat) (a : PassAcc) : PassAcc :=
  let slot := a.slots i
  if !slot.active then a
  else
    let avail := ring_count slot
    let r : mixer_slot × (Nat → Int) :=
      if avail < period_samples then
        let s1 := { slot with underruns := (slot.underruns + 1) % U32 }
        let b1 := memset0 a.slot_buf period_samples
        if avail > 0 then ring_read s1 b1 avail else (s1, b1)
      else ring_read slot a.slot_buf period_samples
    { slots := store a.slots i r.1,
      slot_buf := r.2,
      mix_buf := mix_loop r.1.volume r.2 a.mix_buf period_samples,
      any_active := true }

/-- The loop `for (i = 0; i < n; i++)` over the slots. -/
def slot_loop (period_samples : Nat) : Nat → PassAcc → PassAcc
  | 0, a => a
  | i + 1, a => slot_body period_samples i (slot_loop period_samples i a)

/-- The value `period_samples = period_frames * channels` of the thread. -/
def period_samples (c : eai_audio_mixer_config) : Nat :=
  (c.period_frames * c.channels) % U32

/-- The value `period_ms` of the thread (`none` when `sample_rate` is zero and
the division traps). -/
def period_ms (c : eai_audio_mixer_config) : Option Nat :=
  if c.sample_rate = 0 then none
  else
    let p := ((c.period_frames * 1000) % U32) / c.sample_rate
    some (if p = 0 then 1 else p)

/-- One pass of the loop of `mixer_thread_entry` once the semaphore wait has
returned with `running` set: zero the mix buffer, mix every active slot, hand
the result to `hw_write`. -/
def mixer_pass (st : MixerState) : MixerState :=
  let ps := period_samples st.config
  let a := slot_loop ps EAI_AUDIO_MIXER_MAX_SLOTS
    { slots := st.slots, slot_buf := st.slot_buf,
      mix_buf := memset0 st.mix_buf ps, any_active := false }
  { st with
    slots := a.slots, slot_buf := a.slot_buf, mix_buf := a.mix_buf,
    hw_out :=
      if a.any_active && st.config.hw_write then
        st.hw_out ++ [(List.range ps).map a.mix_buf]
      else st.hw_out }

/-! ## Public API -/

/-- Outcomes of the OSAL calls made by `eai_audio_mixer_init`
(`true` = `EAI_OSAL_OK`). -/
structure OsalResults where
  mutex_create : Bool
  sem_create : Bool
  thread_create : Bool

/-- The function `eai_audio_mixer_init`; `config = none` is the NULL pointer. -/
def eai_audio_mixer_init (config : Option eai_audio_mixer_config) (osal : OsalResults)
    (st : MixerState) : Int × MixerState :=
  match config with
  | none => (-1, st)
  | some c =>
    if !c.hw_write then (-1, st)
    else if c.period_frames = 0 ∨ c.period_frames > EAI_AUDIO_MIXER_MAX_PERIOD_FRAMES then (-1, st)
    else if c.channels = 0 ∨ c.channels > EAI_AUDIO_MIXER_MAX_CHANNELS then (-1, st)
    else if st.initialized then (-1, st)
    else
      let st1 : MixerState :=
        { config := c,
          slots := fun _ => { zero_slot with volume := EAI_AUDIO_MIXER_VOLUME_UNITY },
          mix_buf := fun _ => 0,
          slot_buf := st.slot_buf,
          running := false, initialized := false,
          hw_out := st.hw_out }
      if !osal.mutex_create then (-1, st1)
      else if !osal.sem_create then (-1, st1)
      else if !osal.thread_create then (-1, st1)
      else (0, { st1 with running := true, initialized := true })

/-- The function `eai_audio_mixer_deinit`. -/
def eai_audio_mixer_deinit (st : MixerState) : Int × MixerState :=
  if !st.initialized then (-1, st)
  else (0, { st with running := false, initialized := false })

/-- The search loop of `eai_audio_mixer_slot_open` over the indices
`i, i+1, ...` with `n` indices left. -/
def slot_open_loop (slots : Nat → mixer_slot) : Nat → Nat → Option Nat
  | _, 0 => none
  | i, n + 1 => if !(slots i).active then some i else slot_open_loop slots (i + 1) n

/-- The function `eai_audio_mixer_slot_open`; `slot_ptr` tells whether the out
pointer is non-NULL, the second component is the value stored through it. -/
def eai_audio_mixer_slot_open (slot_ptr : Bool) (st : MixerState) :
    Int × Option Nat × MixerState :=
  if !st.initialized ∨ !slot_ptr then (-1, none, st)
  else
    match slot_open_loop st.slots 0 EAI_AUDIO_MIXER_MAX_SLOTS with
    | some i =>
      let s1 : mixer_slot :=
        { st.slots i with active := true, wr := 0, rd := 0, underruns := 0,
                          volume := EAI_AUDIO_MIXER_VOLUME_UNITY }
      (0, some i, { st with slots := store st.slots i s1 })
    | none => (-12, none, st)

/-- The function `eai_audio_mixer_slot_close`. -/
def eai_audio_mixer_slot_close (slot : Nat) (st : MixerState) : Int × MixerState :=
  if !st.initialized ∨ slot ≥ EAI_AUDIO_MIXER_MAX_SLOTS then (-1, st)
  else
    let s1 : mixer_slot := { st.slots slot with active := false, wr := 0, rd := 0 }
    (0, { st with slots := store st.slots slot s1 })

/-- The function `eai_audio_mixer_write`; `data = none` is the NULL pointer. -/
def eai_audio_mixer_write (slot : Nat) (data : Option (Nat → Int)) (frames : Nat)
    (st : MixerState) : Int × MixerState :=
  match data with
  | none => (-1, st)
  | some d =>
    if !st.initialized ∨ frames = 0 then (-1, st)
    else if slot ≥ EAI_AUDIO_MIXER_MAX_SLOTS ∨ !(st.slots slot).active then (-1, st)
    else
      let samples := (frames * st.config.channels) % U32
      let space := ring_space (st.slots slot)
      let to_write := if samples < space then samples else space
      let to_write := ((to_write / st.config.channels) * st.config.channels) % U32
      let s1 := if to_write > 0 then ring_write (st.slots slot) d to_write else st.slots slot
      (((to_write / st.config.channels : Nat) : Int), { st with slots := store st.slots slot s1 })

/-- The function `eai_audio_mixer_set_volume`. -/
def eai_audio_mixer_set_volume (slot : Nat) (volume_q16 : Nat) (st : MixerState) :
    Int × MixerState :=
  if !st.initialized ∨ slot ≥ EAI_AUDIO_MIXER_MAX_SLOTS then (-1, st)
  else
    let s1 : mixer_slot := { st.slots slot with volume := volume_q16 }
    (0, { st with slots := store st.slots slot s1 })

/-- The function `eai_audio_mixer_get_underruns`. -/
def eai_audio_mixer_get_underruns (slot : Nat) (st : MixerState) : Nat :=
  if !st.initialized ∨ slot ≥ EAI_AUDIO_MIXER_MAX_SLOTS then 0
  else (st.slots slot).underruns

/-! ## Descriptions of one pass used in the statements -/

/-- Sample `j` of what slot `s` hands to the mix in one pass: the samples it
holds, oldest first, followed by silence. -/
def stage (s : mixer_slot) (j : Nat) : Int :=
  if j < ring_count s then s.ring ((s.rd + j) % RING_CAP_SAMPLES) else 0

/-- The slot after one pass over it with period `ps`: an underrun is counted and
everything is consumed when less than a period is held, else one period is
consumed. -/
def drain (ps : Nat) (s : mixer_slot) : mixer_slot :=
  if ring_count s < ps then
    { s with underruns := (s.underruns + 1) % U32, rd := (s.rd + ring_count s) % U32 }
  else { s with rd := (s.rd + ps) % U32 }

/-- Output sample `j` after the slots `0 .. n-1` have been mixed in, starting
from the value `m0`: each active slot adds its scaled sample and the result is
clipped at once. -/
def mix_upto (slots : Nat → mixer_slot) (j : Nat) (m0 : Int) : Nat → Int
  | 0 => m0
  | n + 1 =>
    if (slots n).active then
      clip (mix_upto slots j m0 n + scaled (stage (slots n) j) (slots n).volume)
    else mix_upto slots j m0 n

/-- Whether one of the slots `0 .. n-1` is active. -/
def any_upto (slots : Nat → mixer_slot) : Nat → Bool
  | 0 => false
  | n + 1 => any_upto slots n || (slots n).active

/-- Sample `j`, counted from the read position, of the ring of slot `s`. -/
def slot_sample (s : mixer_slot) (j : Nat) : Int :=
  s.ring ((s.rd + j) % RING_CAP_SAMPLES)

/-- Accumulation as the mixer performs it over the slots `0 .. n-1`: every slot
with `act i` adds its contribution `x i` and the result is clipped at once. -/
def clip_fold (act : Nat → Bool) (x : Nat → Int) : Nat → Int
  | 0 => 0
  | n + 1 => if act n then clip (clip_fold act x n + x n) else clip_fold act x n

/-- Plain sum of the contributions `x i` of the slots `i < n` with `act i`. -/
def sum_upto (act : Nat → Bool) (x : Nat → Int) : Nat → Int
  | 0 => 0
  | n + 1 => sum_upto act x n + (if act n then x n else 0)

/-- Number of slots `i < n` with `act i`. -/
def count_upto (act : Nat → Bool) : Nat → Nat
  | 0 => 0
  | n + 1 => count_upto act n + (if act n then 1 else 0)

/-! ## Predicates, descriptions and scenarios used in the statements -/

/-- A configuration accepted by `eai_audio_mixer_init`. -/
def config_ok (c : eai_audio_mixer_config) : Prop :=
  c.hw_write = true ∧ 1 ≤ c.period_frames ∧
    c.period_frames ≤ EAI_AUDIO_MIXER_MAX_PERIOD_FRAMES ∧
    1 ≤ c.channels ∧ c.channels ≤ EAI_AUDIO_MIXER_MAX_CHANNELS

/-- The counters of a slot are `uint32_t` values and the slot does not hold more
than the ring capacity. -/
def slot_ok (s : mixer_slot) : Prop :=
  s.wr < U32 ∧ s.rd < U32 ∧ ring_count s ≤ RING_CAP_SAMPLES

/-- Invariant of an initialized mixer. -/
def Inv (st : MixerState) : Prop :=
  st.initialized = true ∧ config_ok st.config ∧ ∀ i, slot_ok (st.slots i)

/-- States reachable from a successful `eai_audio_mixer_init` through
`slot_open`, `slot_close`, `write`, `set_volume` and mixer passes. -/
inductive Reachable : MixerState → Prop
  | init (c : eai_audio_mixer_config) (osal : OsalResults) (st0 : MixerState) :
      st0.initialized = false →
      (eai_audio_mixer_init (some c) osal st0).1 = 0 →
      Reachable (eai_audio_mixer_init (some c) osal st0).2
  | slot_open (slot_ptr : Bool) (st : MixerState) :
      Reachable st → Reachable (eai_audio_mixer_slot_open slot_ptr st).2.2
  | slot_close (slot : Nat) (st : MixerState) :
      Reachable st → Reachable (eai_audio_mixer_slot_close slot st).2
  | write (slot : Nat) (data : Option (Nat → Int)) (frames : Nat) (st : MixerState) :
      frames < U32 → Reachable st → Reachable (eai_audio_mixer_write slot data frames st).2
  | set_volume (slot : Nat) (volume_q16 : Nat) (st : MixerState) :
      volume_q16 < U32 → Reachable st →
      Reachable (eai_audio_mixer_set_volume slot volume_q16 st).2
  | pass (st : MixerState) : Reachable st → Reachable (mixer_pass st)

/-- The value of `to_write` (after rounding down to whole frames) that
`eai_audio_mixer_write` computes for `frames` frames on slot `s`. -/
def to_write_of (c : eai_audio_mixer_config) (s : mixer_slot) (frames : Nat) : Nat :=
  ((if (frames * c.channels) % U32 < ring_space s then (frames * c.channels) % U32
    else ring_space s) / c.channels * c.channels) % U32

/-- The counters of every slot are `uint32_t` values. -/
def counters_typed (st : MixerState) : Prop :=
  ∀ i, (st.slots i).wr < U32 ∧ (st.slots i).rd < U32

/-- All OSAL calls of `eai_audio_mixer_init` succeed. -/
def osal_ok : OsalResults := { mutex_create := true, sem_create := true, thread_create := true }

/-- The configuration `mono_config` of the tests: 16 kHz, 1 channel, 64 frames. -/
def mono_config : eai_audio_mixer_config :=
  { sample_rate := 16000, channels := 1, period_frames := 64, hw_write := true }

/-- State after `eai_audio_mixer_init(&mono_config)`. -/
def st_init : MixerState := (eai_audio_mixer_init (some mono_config) osal_ok mixer_zero).2

/-- State after one `eai_audio_mixer_slot_open`. -/
def st_open1 : MixerState := (eai_audio_mixer_slot_open true st_init).2.2

/-- State after two `eai_audio_mixer_slot_open`. -/
def st_open2 : MixerState := (eai_audio_mixer_slot_open true st_open1).2.2

/-- State after three `eai_audio_mixer_slot_open`. -/
def st_open3 : MixerState := (eai_audio_mixer_slot_open true st_open2).2.2

/-- A buffer holding the constant `v`. -/
def const_data (v : Int) : Nat → Int := fun _ => v

/-- Three slots, each written one period: +20000, +20000, -20000. -/
def st_three : MixerState :=
  (eai_audio_mixer_write 2 (some (const_data (-20000))) 64
    (eai_audio_mixer_write 1 (some (const_data 20000)) 64
      (eai_audio_mixer_write 0 (some (const_data 20000)) 64 st_open3).2).2).2

/-- Two slots, each written one period of the constants `a` and `b`. -/
def st_two (a b : Int) : MixerState :=
  (eai_audio_mixer_write 1 (some (const_data b)) 64
    (eai_audio_mixer_write 0 (some (const_data a)) 64 st_open2).2).2

/-- One slot written one period of the constant `a`, its volume set to `v`. -/
def st_one (a : Int) (v : Nat) : MixerState :=
  (eai_audio_mixer_write 0 (some (const_data a)) 64
    (eai_audio_mixer_set_volume 0 v st_open1).2).2

/-- A sequence of `eai_audio_mixer_write` calls on one slot, each given by its
data buffer and frame count. -/
def write_all (slot : Nat) : List ((Nat → Int) × Nat) → MixerState → MixerState
  | [], st => st
  | w :: ws, st => write_all slot ws (eai_audio_mixer_write slot (some w.1) w.2 st).2

/-- The samples passed to the write calls, in call order (`c` channels). -/
def written (c : Nat) : List ((Nat → Int) × Nat) → List Int
  | [] => []
  | w :: ws => (List.range (w.2 * c)).map w.1 ++ written c ws

/-- The state after `n` successive mixer passes. -/
def passes : Nat → MixerState → MixerState
  | 0, st => st
  | n + 1, st => mixer_pass (passes n st)

/-- Slot `p` of `st` is a stream opened in `st0` into which the samples `pre`
have been written and nothing has been read. -/
def fresh_stream (st0 st : MixerState) (p : Nat) (pre : List Int) : Prop :=
  st.initialized = true ∧ st.config = st0.config ∧ st.hw_out = st0.hw_out ∧
  (∀ i, i ≠ p → st.slots i = st0.slots i) ∧
  (st.slots p).active = true ∧ (st.slots p).rd = 0 ∧ (st.slots p).wr = pre.length ∧
  (st.slots p).volume = EAI_AUDIO_MIXER_VOLUME_UNITY ∧
  ∀ k, k < pre.length → (st.slots p).ring k = pre.getD k 0

/-- Period `m` of the sample sequence `l`, for periods of `ps` samples. -/
def chunk (l : List Int) (ps m : Nat) : List Int :=
  (List.range ps).map (fun j => l.getD (m * ps + j) 0)

/-- The data of `test_mixer_single_stream`: `data[i] = i * 100`. -/
def ramp_data : Nat → Int := fun i => (i : Int) * 100

/-- Three write calls (32, 32 and 64 frames) making up two periods. -/
def demo_writes : List ((Nat → Int) × Nat) :=
  [(ramp_data, 32), (const_data 1000, 32), (ramp_data, 64)]

/-- A stereo configuration at the largest period: 48 kHz, 2 channels, 1024 frames. -/
def stereo_config : eai_audio_mixer_config :=
  { sample_rate := 48000, channels := 2, period_frames := 1024, hw_write := true }

/-- State after `eai_audio_mixer_init(&stereo_config)` and one `slot_open`. -/
def st_stereo_open : MixerState :=
  (eai_audio_mixer_slot_open true
    (eai_audio_mixer_init (some stereo_config) osal_ok mixer_zero).2).2.2

/-- One round of a producer that keeps the stereo ring full: write one period
of 1024 frames of silence, then one mixer pass. -/
def wrap_round (st : MixerState) : MixerState :=
  mixer_pass (eai_audio_mixer_write 0 (some (const_data 0)) 1024 st).2

/-- The state after opening a slot, writing one period and then `n` rounds. -/
def wrap_run : Nat → MixerState
  | 0 => (eai_audio_mixer_write 0 (some (const_data 0)) 1024 st_stereo_open).2
  | n + 1 => wrap_round (wrap_run n)

/-- A configuration that `eai_audio_mixer_init` rejects in its parameter checks. -/
def config_invalid (config : Option eai_audio_mixer_config) : Prop :=
  match config with
  | none => True
  | some c =>
    c.hw_write = false ∨ c.period_frames = 0 ∨
      c.period_frames > EAI_AUDIO_MIXER_MAX_PERIOD_FRAMES ∨
      c.channels = 0 ∨ c.channels > EAI_AUDIO_MIXER_MAX_CHANNELS

end Mixer

/-! # The loopback IPC backend (`lib/eai_ipc/src/loopback/ipc.c`)

Pointers to user handles are numbers, `none` being NULL; a pointer into the
endpoint table is the index of the slot. The callbacks are function pointers
that the backend only calls: every call is recorded, in order, in `calls`; the
callbacks themselves are taken not to call back into the IPC functions.
-/

namespace Ipc

def MAX_ENDPOINTS : Nat := 8
def MAX_PACKET_SIZE : Int := 496
def EAI_IPC_EPT_NAME_MAX : Nat := 32

/-- Value of `EINVAL` in `errno.h`. -/
def EINVAL : Int := 22

/-- Value of `ENOMEM` in `errno.h`. -/
def ENOMEM : Int := 12

/-- Value of `ENOENT` in `errno.h`. -/
def ENOENT : Int := 2

/-- Value of `ENOTCONN` in the `errno.h` of the native (Linux) build. -/
def ENOTCONN : Int := 107

/-- Value of `EMSGSIZE` in the `errno.h` of the native (Linux) build. -/
def EMSGSIZE : Int := 90

/-- Mirror of `struct eai_ipc_cb`: two function pointers, `none` being NULL. -/
structure eai_ipc_cb where
  bound : Option Nat
  received : Option Nat
deriving DecidableEq

/-- Mirror of `struct eai_ipc_ept_cfg`; the name is the content of the C string
(`none` being a NULL pointer). -/
structure eai_ipc_ept_cfg where
  name : Option (List Char)
  cb : eai_ipc_cb
  ctx : Nat

/-- Mirror of `struct loopback_ept`; `peer` is the index of the peer's slot. -/
structure loopback_ept where
  handle : Option Nat
  name : List Char
  cb : eai_ipc_cb
  ctx : Nat
  peer : Option Nat
  active : Bool
deriving DecidableEq

/-- A callback invocation made by the backend. -/
inductive Call where
  | bound (fn : Nat) (ctx : Nat)
  | received (fn : Nat) (data : List Nat) (len : Nat) (ctx : Nat)
deriving DecidableEq

/-- The module state: the table `epts`, the flag `initialized`, the index that
registration stores in the `_backend_data` of each user handle, and the
callback invocations made so far. -/
structure IpcState where
  epts : Nat → loopback_ept
  initialized : Bool
  backend_data : Nat → Option Nat
  calls : List Call

/-- A table slot after `memset(slot, 0, sizeof(*slot))`. -/
def zero_ept : loopback_ept :=
  { handle := none, name := [], cb := { bound := none, received := none }, ctx := 0,
    peer := none, active := false }

/-- The module state as the loader leaves it. -/
def ipc_zero : IpcState :=
  { epts := fun _ => zero_ept, initialized := false, backend_data := fun _ => none, calls := [] }

/-- Store into one element of an array. -/
def set_at {α : Type} (a : Nat → α) (i : Nat) (v : α) : Nat → α :=
  fun k => if k = i then v else a k

/-- The loop `for (i = start; i < start + n; i++) if (p(i)) return &epts[i];`
followed by `return NULL`. -/
def scan (p : Nat → Bool) : Nat → Nat → Option Nat
  | _, 0 => none
  | i, n + 1 => if p i then some i else scan p (i + 1) n

/-- The function `find_slot`. -/
def find_slot (epts : Nat → loopback_ept) : Option Nat :=
  scan (fun i => !(epts i).active) 0 MAX_ENDPOINTS

/-- The function `find_by_handle`. -/
def find_by_handle (epts : Nat → loopback_ept) (handle : Option Nat) : Option Nat :=
  scan (fun i => (epts i).active && decide ((epts i).handle = handle)) 0 MAX_ENDPOINTS

/-- The function `find_unbound_peer`; `self` is the index of the slot `self`
points to. -/
def find_unbound_peer (epts : Nat → loopback_ept) (name : List Char) (self : Nat) :
    Option Nat :=
  scan (fun i => (epts i).active && decide (i ≠ self) && decide ((epts i).peer = none) &&
    decide ((epts i).name = name)) 0 MAX_ENDPOINTS

/-- The function `eai_ipc_init`. -/
def eai_ipc_init (st : IpcState) : Int × IpcState :=
  (0, { st with epts := fun _ => zero_ept, initialized := true })

/-- The function `eai_ipc_deinit`. -/
def eai_ipc_deinit (st : IpcState) : Int × IpcState :=
  (0, { st with epts := fun _ => zero_ept, initialized := false })

/-- The call `if (f) f(ctx)` of a `bound` callback. -/
def fire_bound (f : Option Nat) (ctx : Nat) (calls : List Call) : List Call :=
  match f with
  | some fn => calls ++ [Call.bound fn ctx]
  | none => calls

/-- The function `eai_ipc_register_endpoint`. -/
def eai_ipc_register_endpoint (ept : Option Nat) (cfg : Option eai_ipc_ept_cfg)
    (st : IpcState) : Int × IpcState :=
  match ept, cfg with
  | some e, some c =>
    match c.name with
    | none => (-EINVAL, st)
    | some nm =>
      if nm = [] then (-EINVAL, st)
      else
        match find_slot st.epts with
        | none => (-ENOMEM, st)
        | some s =>
          let slot : loopback_ept :=
            { handle := some e, name := nm.take (EAI_IPC_EPT_NAME_MAX - 1), cb := c.cb,
              ctx := c.ctx, peer := none, active := true }
          let epts1 := set_at st.epts s slot
          let bd := set_at st.backend_data e (some s)
          match find_unbound_peer epts1 (epts1 s).name s with
          | some p =>
            let epts2 := set_at epts1 s { epts1 s with peer := some p }
            let epts3 := set_at epts2 p { epts2 p with peer := some s }
            let calls1 := fire_bound (epts3 p).cb.bound (epts3 p).ctx st.calls
            let calls2 := fire_bound (epts3 s).cb.bound (epts3 s).ctx calls1
            (0, { st with epts := epts3, backend_data := bd, calls := calls2 })
          | none => (0, { st with epts := epts1, backend_data := bd })
  | _, _ => (-EINVAL, st)

/-- The function `eai_ipc_deregister_endpoint`. -/
def eai_ipc_deregister_endpoint (ept : Option Nat) (st : IpcState) : Int × IpcState :=
  match ept with
  | none => (-EINVAL, st)
  | some e =>
    match find_by_handle st.epts (some e) with
    | none => (-ENOENT, st)
    | some s =>
      let epts1 :=
        match (st.epts s).peer with
        | some p => set_at st.epts p { st.epts p with peer := none }
        | none => st.epts
      (0, { st with epts := set_at epts1 s zero_ept })

/-- The conversion `(int)len` of a `size_t`. -/
def size_to_int (len : Nat) : Int :=
  ((len : Int) + 2147483648) % 4294967296 - 2147483648

/-- The function `eai_ipc_send`; `data` is the content of the buffer (`none`
being NULL), the callback is recorded with the `len` bytes it is given. -/
def eai_ipc_send (ept : Option Nat) (data : Option (Nat → Nat)) (len : Nat)
    (st : IpcState) : Int × IpcState :=
  match ept, data with
  | some e, some d =>
    if len = 0 then (-EINVAL, st)
    else if size_to_int len > MAX_PACKET_SIZE then (-EMSGSIZE, st)
    else
      match find_by_handle st.epts (some e) with
      | none => (-ENOENT, st)
      | some s =>
        match (st.epts s).peer with
        | none => (-ENOTCONN, st)
        | some p =>
          match (st.epts p).cb.received with
          | some fn =>
            (0, { st with
                  calls := st.calls ++
                    [Call.received fn ((List.range len).map d) len (st.epts p).ctx] })
          | none => (0, st)
  | _, _ => (-EINVAL, st)

/-- The function `eai_ipc_get_max_packet_size`. -/
def eai_ipc_get_max_packet_size : Int := MAX_PACKET_SIZE


/-- Slot `i` holds a registered endpoint without peer whose stored name is `name`. -/
def waiting (epts : Nat → loopback_ept) (name : List Char) (i : Nat) : Prop :=
  (epts i).active = true ∧ (epts i).peer = none ∧ (epts i).name = name

/-- The slot filled by a registration of handle `e` with configuration `c`
under the name `nm`. -/
def new_slot (e : Nat) (c : eai_ipc_ept_cfg) (nm : List Char) : loopback_ept :=
  { handle := some e, name := nm.take (EAI_IPC_EPT_NAME_MAX - 1), cb := c.cb,
    ctx := c.ctx, peer := none, active := true }

/-- The mutual-peer invariant of the endpoint table. -/
def PeerInv (st : IpcState) : Prop :=
  ∀ i p, i < MAX_ENDPOINTS → (st.epts i).active = true → (st.epts i).peer = some p →
    p < MAX_ENDPOINTS ∧ p ≠ i ∧ (st.epts p).active = true ∧ (st.epts p).peer = some i

/-- States reachable from the loader state through `eai_ipc_init`,
`eai_ipc_register_endpoint`, `eai_ipc_deregister_endpoint`, `eai_ipc_send` and
`eai_ipc_deinit`. -/
inductive Reachable : IpcState → Prop
  | zero : Reachable ipc_zero
  | init (st : IpcState) : Reachable st → Reachable (eai_ipc_init st).2
  | deinit (st : IpcState) : Reachable st → Reachable (eai_ipc_deinit st).2
  | register (ept : Option Nat) (cfg : Option eai_ipc_ept_cfg) (st : IpcState) :
      Reachable st → Reachable (eai_ipc_register_endpoint ept cfg st).2
  | deregister (ept : Option Nat) (st : IpcState) :
      Reachable st → Reachable (eai_ipc_deregister_endpoint ept st).2
  | send (ept : Option Nat) (data : Option (Nat → Nat)) (len : Nat) (st : IpcState) :
      Reachable st → Reachable (eai_ipc_send ept data len st).2


instance (epts : Nat → loopback_ept) (name : List Char) (i : Nat) :
    Decidable (waiting epts name i) := by
  unfold waiting; exact inferInstance

/-- A configuration with the given name, callbacks and context. -/
def mk_cfg (name : List Char) (bound received : Option Nat) (ctx : Nat) : eai_ipc_ept_cfg :=
  { name := some name, cb := { bound := bound, received := received }, ctx := ctx }

/-- The name used by the scenarios. -/
def name_data : List Char := ['d', 'a', 't', 'a']

/-- State after `eai_ipc_init`. -/
def st_ipc_init : IpcState := (eai_ipc_init ipc_zero).2

/-- Endpoint A (handle 1) registered under the name `data`. -/
def st_a : IpcState :=
  (eai_ipc_register_endpoint (some 1) (some (mk_cfg name_data (some 10) (some 11) 100))
    st_ipc_init).2

/-- Endpoint B (handle 2) registered under the same name: A and B are bound. -/
def st_ab : IpcState :=
  (eai_ipc_register_endpoint (some 2) (some (mk_cfg name_data (some 20) (some 21) 200)) st_a).2

/-- Endpoints C and D (handles 3 and 4) registered under the same name as well. -/
def st_abcd : IpcState :=
  (eai_ipc_register_endpoint (some 4) (some (mk_cfg name_data (some 40) (some 41) 400))
    (eai_ipc_register_endpoint (some 3) (some (mk_cfg name_data (some 30) (some 31) 300))
      st_ab).2).2

/-- A and C deregistered: B (slot 1) and D (slot 3) both wait under the name. -/
def st_two_waiting : IpcState :=
  (eai_ipc_deregister_endpoint (some 3) (eai_ipc_deregister_endpoint (some 1) st_abcd).2).2

/-- Endpoint E (handle 5) registered under the name while B and D wait. -/
def st_e : IpcState :=
  (eai_ipc_register_endpoint (some 5) (some (mk_cfg name_data (some 50) (some 51) 500))
    st_two_waiting).2

/-- A name of 31 bytes. -/
def name31 : List Char := List.replicate 31 'a'

/-- A name of 32 bytes with the same first 31 bytes. -/
def name32 : List Char := List.replicate 32 'a'

/-- An endpoint registered under the 31-byte name. -/
def st_long1 : IpcState :=
  (eai_ipc_register_endpoint (some 1) (some (mk_cfg name31 (some 10) (some 11) 100))
    st_ipc_init).2

/-- A second endpoint registered under the 32-byte name. -/
def st_long2 : IpcState :=
  (eai_ipc_register_endpoint (some 2) (some (mk_cfg name32 (some 20) (some 21) 200))
    st_long1).2

/-- A payload buffer: byte `i` is `i % 256`. -/
def demo_payload : Nat → Nat := fun i => i % 256

end Ipc

/-! # The provisioning state machine (`wifi_prov_sm`)

The implementation file of `wifi_prov_sm_init`, `wifi_prov_sm_process_event`
and `wifi_prov_sm_get_state` is not among the sources; only its tests and its
callers are. The definitions below follow section 4.6 of the specification.
-/

namespace WifiProv

/-- Value of `EPERM` in `errno.h`. -/
def EPERM : Int := 1

/-- The states `WIFI_PROV_STATE_*`, in the order of their codes 0..5. -/
inductive wifi_prov_state where
  | IDLE | SCANNING | SCAN_COMPLETE | PROVISIONING | CONNECTING | CONNECTED
deriving DecidableEq

/-- The events `WIFI_PROV_EVT_*`. -/
inductive wifi_prov_event where
  | SCAN_TRIGGER | SCAN_DONE | CREDENTIALS_RX | WIFI_CONNECTING | WIFI_CONNECTED
  | WIFI_FAILED | WIFI_DISCONNECTED | FACTORY_RESET
deriving DecidableEq

open wifi_prov_state wifi_prov_event

/-- Modelled from the spec: the transition table of section 4.6 (the source of
`wifi_prov_sm_process_event` is missing); a row is (from, event, to) and the
from-state `none` stands for "any". -/
def transition_table : List (Option wifi_prov_state × wifi_prov_event × wifi_prov_state) :=
  [ (some IDLE, SCAN_TRIGGER, SCANNING),
    (some SCANNING, SCAN_DONE, SCAN_COMPLETE),
    (some SCAN_COMPLETE, CREDENTIALS_RX, PROVISIONING),
    (some IDLE, CREDENTIALS_RX, PROVISIONING),
    (some PROVISIONING, WIFI_CONNECTING, CONNECTING),
    (some CONNECTING, WIFI_CONNECTED, CONNECTED),
    (some CONNECTING, WIFI_FAILED, IDLE),
    (some CONNECTED, WIFI_DISCONNECTED, IDLE),
    (none, FACTORY_RESET, IDLE) ]

/-- The state of the module: the current state and the invocations
`(old_state, new_state)` of the state-change callback made so far. -/
structure SmState where
  state : wifi_prov_state
  fired : List (wifi_prov_state × wifi_prov_state)

/-- Modelled from the spec: `wifi_prov_sm_init` (source missing) sets the
initial state IDLE and installs the callback. -/
def wifi_prov_sm_init : SmState := { state := IDLE, fired := [] }

/-- Whether a row of the table applies to the state `s` and the event `e`. -/
def row_matches (s : wifi_prov_state) (e : wifi_prov_event)
    (row : Option wifi_prov_state × wifi_prov_event × wifi_prov_state) : Bool :=
  (decide (row.1 = none) || decide (row.1 = some s)) && decide (row.2.1 = e)

/-- Modelled from the spec: `wifi_prov_sm_process_event` (source missing) looks
the pair (state, event) up in the table; a listed pair moves to the target
state, fires the callback once with (old, new) and returns 0; any other pair
returns `-EPERM` without touching the state or the callback. -/
def wifi_prov_sm_process_event (e : wifi_prov_event) (st : SmState) : Int × SmState :=
  match transition_table.find? (row_matches st.state e) with
  | some row => (0, { state := row.2.2, fired := st.fired ++ [(st.state, row.2.2)] })
  | none => (-EPERM, st)

/-- Modelled from the spec: `wifi_prov_sm_get_state` (source missing). -/
def wifi_prov_sm_get_state (st : SmState) : wifi_prov_state := st.state

/-- The state after processing a sequence of events in order. -/
def process_all : List wifi_prov_event → SmState → SmState
  | [], st => st
  | e :: es, st => process_all es (wifi_prov_sm_process_event e st).2

end WifiProv

/-! # The FreeRTOS backend of the OSAL (`lib/eai_osal/src/freertos`)

A handle argument is `none` for the NULL pointer and else the content of the
caller's structure; kernel handles inside it are `none` for NULL. Every
function returns its status, the FreeRTOS calls it made, in order, and the
content of the caller's structure afterwards. What the kernel answers to a call
is an argument of the function.
-/

namespace Osal

/-- The enumeration `eai_osal_status_t`. -/
inductive eai_osal_status_t where
  | EAI_OSAL_OK | EAI_OSAL_ERROR | EAI_OSAL_INVALID_PARAM | EAI_OSAL_TIMEOUT
  | EAI_OSAL_NO_MEMORY
deriving DecidableEq

open eai_osal_status_t

/-- Value of `EAI_OSAL_WAIT_FOREVER` (`UINT32_MAX`). -/
def EAI_OSAL_WAIT_FOREVER : Nat := 4294967295

/-- The constants and macros of the FreeRTOS port that the backend uses. -/
structure KernelConfig where
  configMAX_PRIORITIES : Int
  portMAX_DELAY : Nat
  pdMS_TO_TICKS : Nat → Nat
  portTICK_PERIOD_MS : Nat
  sizeof_StackType_t : Nat

/-- The FreeRTOS calls made by the backend, with their arguments. -/
inductive KCall where
  | xSemaphoreCreateRecursiveMutex
  | vSemaphoreDelete (h : Option Nat)
  | xSemaphoreTakeRecursive (h : Option Nat) (ticks : Nat)
  | xSemaphoreGiveRecursive (h : Option Nat)
  | xSemaphoreCreateCounting (limit initial : Nat)
  | xSemaphoreCreateBinary
  | xSemaphoreGive (h : Option Nat)
  | xSemaphoreTake (h : Option Nat) (ticks : Nat)
  | xQueueCreate (max_msgs msg_size : Nat)
  | vQueueDelete (h : Option Nat)
  | xQueueSend (h : Option Nat) (ticks : Nat)
  | xQueueReceive (h : Option Nat) (ticks : Nat)
  | xTimerCreate
  | xTimerDelete (h : Option Nat)
  | xTimerChangePeriod (h : Option Nat) (ticks : Nat)
  | vTimerSetReloadMode (h : Option Nat) (reload : Bool)
  | xTimerStart (h : Option Nat)
  | xTimerStop (h : Option Nat)
  | xEventGroupCreate
  | vEventGroupDelete (h : Option Nat)
  | xEventGroupSetBits (h : Option Nat) (bits : Nat)
  | xEventGroupWaitBits (h : Option Nat) (bits : Nat) (clear_on_exit : Bool) (wait_all : Bool)
      (ticks : Nat)
  | xEventGroupClearBits (h : Option Nat) (bits : Nat)
  | xTaskCreate (stack_words : Nat) (priority : Nat)
deriving DecidableEq

/-- Mirror of `eai_osal_mutex_t`. -/
structure eai_osal_mutex_t where
  _handle : Option Nat
deriving DecidableEq

/-- Mirror of `eai_osal_sem_t`. -/
structure eai_osal_sem_t where
  _handle : Option Nat
  _limit : Nat
deriving DecidableEq

/-- Mirror of `eai_osal_thread_t`. -/
structure eai_osal_thread_t where
  _handle : Option Nat
  _join_sem : Option Nat
  _entry : Option Nat
  _entry_arg : Nat
deriving DecidableEq

/-- Mirror of `eai_osal_queue_t`. -/
structure eai_osal_queue_t where
  _handle : Option Nat
deriving DecidableEq

/-- Mirror of `eai_osal_timer_t`. -/
structure eai_osal_timer_t where
  _handle : Option Nat
  _cb : Option Nat
  _cb_arg : Nat
  _period_ms : Nat
deriving DecidableEq

/-- Mirror of `eai_osal_event_t`. -/
structure eai_osal_event_t where
  _handle : Option Nat
deriving DecidableEq

/-- The function `osal_ticks` of `internal.h`. -/
def osal_ticks (k : KernelConfig) (ms : Nat) : Nat :=
  if ms = EAI_OSAL_WAIT_FOREVER then k.portMAX_DELAY else k.pdMS_TO_TICKS ms

/-- The function `osal_priority` of `internal.h`: the arithmetic is done in
`int`, the result converted to the unsigned `UBaseType_t`. -/
def osal_priority (k : KernelConfig) (prio : Nat) : Nat :=
  let p : Int := if prio > 31 then 31 else (prio : Int)
  ((1 + Int.tdiv (p * (k.configMAX_PRIORITIES - 2)) 31) % 4294967296).toNat

/-! ## mutex.c -/

/-- The function `eai_osal_mutex_create`; `created` is the handle returned by
`xSemaphoreCreateRecursiveMutex`. -/
def eai_osal_mutex_create (mutex : Option eai_osal_mutex_t) (created : Option Nat) :
    eai_osal_status_t × List KCall × Option eai_osal_mutex_t :=
  match mutex with
  | none => (EAI_OSAL_INVALID_PARAM, [], none)
  | some _ =>
    if created = none then
      (EAI_OSAL_NO_MEMORY, [KCall.xSemaphoreCreateRecursiveMutex], some { _handle := created })
    else (EAI_OSAL_OK, [KCall.xSemaphoreCreateRecursiveMutex], some { _handle := created })

/-- The function `eai_osal_mutex_destroy`. -/
def eai_osal_mutex_destroy (mutex : Option eai_osal_mutex_t) :
    eai_osal_status_t × List KCall × Option eai_osal_mutex_t :=
  match mutex with
  | none => (EAI_OSAL_INVALID_PARAM, [], none)
  | some m =>
    if m._handle ≠ none then
      (EAI_OSAL_OK, [KCall.vSemaphoreDelete m._handle], some { _handle := none })
    else (EAI_OSAL_OK, [], some m)

/-- The function `eai_osal_mutex_lock`; `taken` tells whether
`xSemaphoreTakeRecursive` returned `pdTRUE`. -/
def eai_osal_mutex_lock (k : KernelConfig) (mutex : Option eai_osal_mutex_t)
    (timeout_ms : Nat) (taken : Bool) :
    eai_osal_status_t × List KCall × Option eai_osal_mutex_t :=
  match mutex with
  | none => (EAI_OSAL_INVALID_PARAM, [], none)
  | some m =>
    (if taken then EAI_OSAL_OK else EAI_OSAL_TIMEOUT,
     [KCall.xSemaphoreTakeRecursive m._handle (osal_ticks k timeout_ms)], some m)

/-- The function `eai_osal_mutex_unlock`; `given` tells whether
`xSemaphoreGiveRecursive` returned `pdTRUE`. -/
def eai_osal_mutex_unlock (mutex : Option eai_osal_mutex_t) (given : Bool) :
    eai_osal_status_t × List KCall × Option eai_osal_mutex_t :=
  match mutex with
  | none => (EAI_OSAL_INVALID_PARAM, [], none)
  | some m =>
    (if given then EAI_OSAL_OK else EAI_OSAL_ERROR,
     [KCall.xSemaphoreGiveRecursive m._handle], some m)

/-! ## semaphore.c -/

/-- The function `eai_osal_sem_create`. -/
def eai_osal_sem_create (sem : Option eai_osal_sem_t) (initial limit : Nat)
    (created : Option Nat) : eai_osal_status_t × List KCall × Option eai_osal_sem_t :=
  match sem with
  | none => (EAI_OSAL_INVALID_PARAM, [], none)
  | some s =>
    if limit = 0 then (EAI_OSAL_INVALID_PARAM, [], some s)
    else
      (if created = none then EAI_OSAL_NO_MEMORY else EAI_OSAL_OK,
       [KCall.xSemaphoreCreateCounting limit initial],
       some { _handle := created, _limit := limit })

/-- The function `eai_osal_sem_destroy`. -/
def eai_osal_sem_destroy (sem : Option eai_osal_sem_t) :
    eai_osal_status_t × List KCall × Option eai_osal_sem_t :=
  match sem with
  | none => (EAI_OSAL_INVALID_PARAM, [], none)
  | some s =>
    if s._handle ≠ none then
      (EAI_OSAL_OK, [KCall.vSemaphoreDelete s._handle], some { s with _handle := none })
    else (EAI_OSAL_OK, [], some s)

/-- The function `eai_osal_sem_give`; both outcomes of `xSemaphoreGive` give
`EAI_OSAL_OK`. -/
def eai_osal_sem_give (sem : Option eai_osal_sem_t) (given : Bool) :
    eai_osal_status_t × List KCall × Option eai_osal_sem_t :=
  match sem with
  | none => (EAI_OSAL_INVALID_PARAM, [], none)
  | some s =>
    (if given then EAI_OSAL_OK else EAI_OSAL_OK, [KCall.xSemaphoreGive s._handle], some s)

/-- The function `eai_osal_sem_take`. -/
def eai_osal_sem_take (k : KernelConfig) (sem : Option eai_osal_sem_t) (timeout_ms : Nat)
    (taken : Bool) : eai_osal_status_t × List KCall × Option eai_osal_sem_t :=
  match sem with
  | none => (EAI_OSAL_INVALID_PARAM, [], none)
  | some s =>
    (if taken then EAI_OSAL_OK else EAI_OSAL_TIMEOUT,
     [KCall.xSemaphoreTake s._handle (osal_ticks k timeout_ms)], some s)

/-! ## queue.c -/

/-- The function `eai_osal_queue_create`; `buffer` tells whether the buffer
pointer is not NULL. -/
def eai_osal_queue_create (queue : Option eai_osal_queue_t) (msg_size max_msgs : Nat)
    (buffer : Bool) (created : Option Nat) :
    eai_osal_status_t × List KCall × Option eai_osal_queue_t :=
  match queue with
  | none => (EAI_OSAL_INVALID_PARAM, [], none)
  | some q =>
    if !buffer ∨ msg_size = 0 ∨ max_msgs = 0 then (EAI_OSAL_INVALID_PARAM, [], some q)
    else
      (if created = none then EAI_OSAL_NO_MEMORY else EAI_OSAL_OK,
       [KCall.xQueueCreate max_msgs msg_size], some { _handle := created })

/-- The function `eai_osal_queue_destroy`. -/
def eai_osal_queue_destroy (queue : Option eai_osal_queue_t) :
    eai_osal_status_t × List KCall × Option eai_osal_queue_t :=
  match queue with
  | none => (EAI_OSAL_INVALID_PARAM, [], none)
  | some q =>
    if q._handle ≠ none then
      (EAI_OSAL_OK, [KCall.vQueueDelete q._handle], some { _handle := none })
    else (EAI_OSAL_OK, [], some q)

/-- The function `eai_osal_queue_send`; `msg` tells whether the message pointer
is not NULL. -/
def eai_osal_queue_send (k : KernelConfig) (queue : Option eai_osal_queue_t) (msg : Bool)
    (timeout_ms : Nat) (sent : Bool) :
    eai_osal_status_t × List KCall × Option eai_osal_queue_t :=
  match queue with
  | none => (EAI_OSAL_INVALID_PARAM, [], none)
  | some q =>
    if !msg then (EAI_OSAL_INVALID_PARAM, [], some q)
    else
      (if sent then EAI_OSAL_OK else EAI_OSAL_TIMEOUT,
       [KCall.xQueueSend q._handle (osal_ticks k timeout_ms)], some q)

/-- The function `eai_osal_queue_recv`. -/
def eai_osal_queue_recv (k : KernelConfig) (queue : Option eai_osal_queue_t) (msg : Bool)
    (timeout_ms : Nat) (received : Bool) :
    eai_osal_status_t × List KCall × Option eai_osal_queue_t :=
  match queue with
  | none => (EAI_OSAL_INVALID_PARAM, [], none)
  | some q =>
    if !msg then (EAI_OSAL_INVALID_PARAM, [], some q)
    else
      (if received then EAI_OSAL_OK else EAI_OSAL_TIMEOUT,
       [KCall.xQueueReceive q._handle (osal_ticks k timeout_ms)], some q)

/-! ## timer.c -/

/-- The function `eai_osal_timer_create`; `callback` is the function pointer. -/
def eai_osal_timer_create (timer : Option eai_osal_timer_t) (callback : Option Nat)
    (arg : Nat) (created : Option Nat) :
    eai_osal_status_t × List KCall × Option eai_osal_timer_t :=
  match timer with
  | none => (EAI_OSAL_INVALID_PARAM, [], none)
  | some t =>
    if callback = none then (EAI_OSAL_INVALID_PARAM, [], some t)
    else
      (if created = none then EAI_OSAL_NO_MEMORY else EAI_OSAL_OK,
       [KCall.xTimerCreate],
       some { _handle := created, _cb := callback, _cb_arg := arg, _period_ms := 0 })

/-- The function `eai_osal_timer_destroy`. -/
def eai_osal_timer_destroy (timer : Option eai_osal_timer_t) :
    eai_osal_status_t × List KCall × Option eai_osal_timer_t :=
  match timer with
  | none => (EAI_OSAL_INVALID_PARAM, [], none)
  | some t =>
    if t._handle ≠ none then
      (EAI_OSAL_OK, [KCall.xTimerDelete t._handle], some { t with _handle := none })
    else (EAI_OSAL_OK, [], some t)

/-- The function `eai_osal_timer_start`. -/
def eai_osal_timer_start (k : KernelConfig) (timer : Option eai_osal_timer_t)
    (initial_ms period_ms : Nat) :
    eai_osal_status_t × List KCall × Option eai_osal_timer_t :=
  match timer with
  | none => (EAI_OSAL_INVALID_PARAM, [], none)
  | some t =>
    if initial_ms = 0 then (EAI_OSAL_INVALID_PARAM, [], some t)
    else
      (EAI_OSAL_OK,
       [KCall.xTimerChangePeriod t._handle (k.pdMS_TO_TICKS initial_ms),
        KCall.vTimerSetReloadMode t._handle (decide (period_ms > 0)),
        KCall.xTimerStart t._handle],
       some { t with _period_ms := period_ms })

/-- The function `eai_osal_timer_stop`. -/
def eai_osal_timer_stop (timer : Option eai_osal_timer_t) :
    eai_osal_status_t × List KCall × Option eai_osal_timer_t :=
  match timer with
  | none => (EAI_OSAL_INVALID_PARAM, [], none)
  | some t => (EAI_OSAL_OK, [KCall.xTimerStop t._handle], some t)

/-! ## event.c -/

/-- The function `eai_osal_event_create`. -/
def eai_osal_event_create (event : Option eai_osal_event_t) (created : Option Nat) :
    eai_osal_status_t × List KCall × Option eai_osal_event_t :=
  match event with
  | none => (EAI_OSAL_INVALID_PARAM, [], none)
  | some _ =>
    (if created = none then EAI_OSAL_NO_MEMORY else EAI_OSAL_OK,
     [KCall.xEventGroupCreate], some { _handle := created })

/-- The function `eai_osal_event_destroy`. -/
def eai_osal_event_destroy (event : Option eai_osal_event_t) :
    eai_osal_status_t × List KCall × Option eai_osal_event_t :=
  match event with
  | none => (EAI_OSAL_INVALID_PARAM, [], none)
  | some ev =>
    if ev._handle ≠ none then
      (EAI_OSAL_OK, [KCall.vEventGroupDelete ev._handle], some { _handle := none })
    else (EAI_OSAL_OK, [], some ev)

/-- The function `eai_osal_event_set`. -/
def eai_osal_event_set (event : Option eai_osal_event_t) (bits : Nat) :
    eai_osal_status_t × List KCall × Option eai_osal_event_t :=
  match event with
  | none => (EAI_OSAL_INVALID_PARAM, [], none)
  | some ev => (EAI_OSAL_OK, [KCall.xEventGroupSetBits ev._handle bits], some ev)

/-- The function `eai_osal_event_wait`; `actual` tells whether the out pointer
is not NULL, `result` is the mask returned by `xEventGroupWaitBits`; the last
component is the value stored through `actual` (`none` when nothing is
stored). The kernel call is made with `pdFALSE` for `xClearOnExit`. -/
def eai_osal_event_wait (k : KernelConfig) (event : Option eai_osal_event_t) (bits : Nat)
    (wait_all : Bool) (actual : Bool) (timeout_ms : Nat) (result : Nat) :
    eai_osal_status_t × List KCall × Option eai_osal_event_t × Option Nat :=
  match event with
  | none => (EAI_OSAL_INVALID_PARAM, [], none, none)
  | some ev =>
    if bits = 0 then (EAI_OSAL_INVALID_PARAM, [], some ev, none)
    else
      let call := KCall.xEventGroupWaitBits ev._handle bits false wait_all
        (osal_ticks k timeout_ms)
      if wait_all && decide (result &&& bits ≠ bits) then
        (EAI_OSAL_TIMEOUT, [call], some ev, none)
      else if !wait_all && decide (result &&& bits = 0) then
        (EAI_OSAL_TIMEOUT, [call], some ev, none)
      else
        (EAI_OSAL_OK, [call], some ev, if actual then some (result &&& bits) else none)

/-- The function `eai_osal_event_clear`. -/
def eai_osal_event_clear (event : Option eai_osal_event_t) (bits : Nat) :
    eai_osal_status_t × List KCall × Option eai_osal_event_t :=
  match event with
  | none => (EAI_OSAL_INVALID_PARAM, [], none)
  | some ev => (EAI_OSAL_OK, [KCall.xEventGroupClearBits ev._handle bits], some ev)

/-! ## thread.c -/

/-- The function `eai_osal_thread_create`; `entry` is the function pointer,
`stack` tells whether the stack pointer is not NULL, `join_sem` is the handle
returned by `xSemaphoreCreateBinary` and `task` the handle stored by
`xTaskCreate` (`none` when it does not return `pdPASS`). -/
def eai_osal_thread_create (k : KernelConfig) (thread : Option eai_osal_thread_t)
    (entry : Option Nat) (arg : Nat) (stack : Bool) (stack_size : Nat) (priority : Nat)
    (join_sem : Option Nat) (task : Option Nat) :
    eai_osal_status_t × List KCall × Option eai_osal_thread_t :=
  match thread with
  | none => (EAI_OSAL_INVALID_PARAM, [], none)
  | some t =>
    if entry = none ∨ !stack then (EAI_OSAL_INVALID_PARAM, [], some t)
    else if priority > 31 then (EAI_OSAL_INVALID_PARAM, [], some t)
    else
      let t1 : eai_osal_thread_t := { t with _entry := entry, _entry_arg := arg,
                                             _join_sem := join_sem }
      if join_sem = none then (EAI_OSAL_NO_MEMORY, [KCall.xSemaphoreCreateBinary], some t1)
      else
        let create := KCall.xTaskCreate (stack_size / k.sizeof_StackType_t)
          (osal_priority k priority)
        match task with
        | none =>
          (EAI_OSAL_NO_MEMORY,
           [KCall.xSemaphoreCreateBinary, create, KCall.vSemaphoreDelete join_sem],
           some { t1 with _join_sem := none })
        | some h =>
          (EAI_OSAL_OK, [KCall.xSemaphoreCreateBinary, create],
           some { t1 with _handle := some h })

/-- The function `eai_osal_thread_join`. -/
def eai_osal_thread_join (k : KernelConfig) (thread : Option eai_osal_thread_t)
    (timeout_ms : Nat) (taken : Bool) :
    eai_osal_status_t × List KCall × Option eai_osal_thread_t :=
  match thread with
  | none => (EAI_OSAL_INVALID_PARAM, [], none)
  | some t =>
    if t._join_sem = none then (EAI_OSAL_ERROR, [], some t)
    else if taken then
      (EAI_OSAL_OK,
       [KCall.xSemaphoreTake t._join_sem (osal_ticks k timeout_ms),
        KCall.vSemaphoreDelete t._join_sem],
       some { t with _join_sem := none })
    else
      (EAI_OSAL_TIMEOUT, [KCall.xSemaphoreTake t._join_sem (osal_ticks k timeout_ms)], some t)

/-! ## time.c -/

/-- The function `eai_osal_time_get_ms`; `tick_count` is the value returned by
`xTaskGetTickCount`. The product is formed in the 32-bit `TickType_t` and
returned as `uint32_t`. -/
def eai_osal_time_get_ms (k : KernelConfig) (tick_count : Nat) : Nat :=
  (tick_count * k.portTICK_PERIOD_MS) % 4294967296

/-- The function `eai_osal_time_get_ticks`: the tick count widened to
`uint64_t`. -/
def eai_osal_time_get_ticks (tick_count : Nat) : Nat :=
  tick_count % 18446744073709551616

/-- The function `eai_osal_time_ticks_to_ms`: a 64-bit product truncated to
`uint32_t`. -/
def eai_osal_time_ticks_to_ms (k : KernelConfig) (ticks : Nat) : Nat :=
  ((ticks * k.portTICK_PERIOD_MS) % 18446744073709551616) % 4294967296

/-! ## Kernel configurations used in the statements -/

/-- The configuration of the ESP-IDF port with its default settings: 25
priorities, a 100 Hz tick (`portTICK_PERIOD_MS` = 10), 32-bit ticks and
one-byte stack units. -/
def esp_idf_config : KernelConfig :=
  { configMAX_PRIORITIES := 25
    portMAX_DELAY := 4294967295
    pdMS_TO_TICKS := fun ms => (ms * 100) / 1000
    portTICK_PERIOD_MS := 10
    sizeof_StackType_t := 1 }

/-- The priority argument of the `xTaskCreate` call in a list of kernel calls. -/
def created_priority : List KCall → Option Nat
  | [] => none
  | KCall.xTaskCreate _ p :: _ => some p
  | _ :: rest => created_priority rest

end Osal

/-! # The credential store (`lib/wifi_prov/src/wifi_prov_cred.c`)

The module keeps one credential record in memory and mirrors it to the settings
backend. The state is the pair of its two static variables. What the settings
backend answers is an argument of each function; every function returns its
return value, the state afterwards and the settings calls and warnings it
made, in order.
-/

namespace WifiCred

/-- Value of `EINVAL` in `errno.h`. -/
def EINVAL : Int := 22

/-- Value of `ENOENT` in `errno.h`. -/
def ENOENT : Int := 2

/-- Modelled from the spec: `WIFI_PROV_SSID_MAX_LEN` of `wifi_prov/wifi_prov.h`
(the header is not part of the sources); an SSID has 1..32 bytes. -/
def WIFI_PROV_SSID_MAX_LEN : Nat := 32

/-- Modelled from the spec: `WIFI_PROV_PSK_MAX_LEN` of `wifi_prov/wifi_prov.h`
(the header is not part of the sources); a PSK has 0..64 bytes. -/
def WIFI_PROV_PSK_MAX_LEN : Nat := 64

/-- Modelled from the spec: `struct wifi_prov_cred` of `wifi_prov/wifi_prov.h`
(the header is not part of the sources), with the five fields that
`wifi_prov_cred.c` and the tests access: the SSID bytes and their count, the
PSK bytes and their count, and the security code; the counts and the code are
bytes. -/
structure wifi_prov_cred where
  ssid : List Nat
  ssid_len : Nat
  psk : List Nat
  psk_len : Nat
  security : Nat
deriving DecidableEq

/-- The record after `memset(&stored_cred, 0, sizeof(stored_cred))`. -/
def cred_zero : wifi_prov_cred :=
  { ssid := List.replicate WIFI_PROV_SSID_MAX_LEN 0
    ssid_len := 0
    psk := List.replicate WIFI_PROV_PSK_MAX_LEN 0
    psk_len := 0
    security := 0 }

/-- The static variables `stored_cred` and `cred_loaded`. -/
structure CredState where
  stored_cred : wifi_prov_cred
  cred_loaded : Bool
deriving DecidableEq

/-- The three settings keys `wifi_prov/ssid`, `wifi_prov/psk`, `wifi_prov/sec`. -/
inductive SettingsKey where
  | ssid | psk | sec
deriving DecidableEq

/-- The calls to the settings backend and the warnings logged. -/
inductive Ev where
  | settings_get (key : SettingsKey) (size : Nat)
  | settings_set (key : SettingsKey) (data : List Nat) (len : Nat)
  | settings_delete (key : SettingsKey)
  | log_wrn (key : SettingsKey) (ret : Int)
deriving DecidableEq

/-- What `eai_settings_get` answers: its return value, the content it left in
the buffer (`none` when it did not write) and the value stored in `actual`. -/
structure GetAnswer where
  ret : Int
  written : Option (List Nat)
  actual : Nat
deriving DecidableEq

/-- The function `load_from_storage`; `a_ssid`, `a_psk`, `a_sec` are the
answers of the three `eai_settings_get` calls. -/
def load_from_storage (st : CredState) (a_ssid a_psk a_sec : GetAnswer) :
    CredState × List Ev :=
  if st.cred_loaded then (st, [])
  else
    let c0 := st.stored_cred
    let c1 : wifi_prov_cred :=
      { c0 with ssid := a_ssid.written.getD c0.ssid,
                ssid_len := if a_ssid.ret = 0 then a_ssid.actual % 256 else c0.ssid_len }
    let c2 : wifi_prov_cred :=
      { c1 with psk := a_psk.written.getD c1.psk,
                psk_len := if a_psk.ret = 0 then a_psk.actual % 256 else c1.psk_len }
    let c3 : wifi_prov_cred :=
      { c2 with security :=
                  if a_sec.ret = 0 then ((a_sec.written.getD []).headD 0) % 256
                  else c2.security }
    ({ stored_cred := c3, cred_loaded := true },
     [Ev.settings_get SettingsKey.ssid WIFI_PROV_SSID_MAX_LEN,
      Ev.settings_get SettingsKey.psk WIFI_PROV_PSK_MAX_LEN,
      Ev.settings_get SettingsKey.sec 1])

/-- The function `wifi_prov_cred_store`; `cred` is `none` for the NULL pointer,
`r_ssid`, `r_psk`, `r_sec` are the return values of the three
`eai_settings_set` calls. -/
def wifi_prov_cred_store (st : CredState) (cred : Option wifi_prov_cred)
    (r_ssid r_psk r_sec : Int) : Int × CredState × List Ev :=
  match cred with
  | none => (-EINVAL, st, [])
  | some c =>
    if c.ssid_len = 0 ∨ c.ssid_len > WIFI_PROV_SSID_MAX_LEN then (-EINVAL, st, [])
    else
      (0, { stored_cred := c, cred_loaded := true },
       [Ev.settings_set SettingsKey.ssid c.ssid c.ssid_len] ++
       (if r_ssid ≠ 0 then [Ev.log_wrn SettingsKey.ssid r_ssid] else []) ++
       [Ev.settings_set SettingsKey.psk c.psk c.psk_len] ++
       (if r_psk ≠ 0 ∧ c.psk_len > 0 then [Ev.log_wrn SettingsKey.psk r_psk] else []) ++
       [Ev.settings_set SettingsKey.sec [c.security] 1] ++
       (if r_sec ≠ 0 then [Ev.log_wrn SettingsKey.sec r_sec] else []))

/-- The function `wifi_prov_cred_load`; `cred` is `none` for the NULL pointer
and else the content of the caller's structure, whose content afterwards is
the last component. -/
def wifi_prov_cred_load (st : CredState) (cred : Option wifi_prov_cred)
    (a_ssid a_psk a_sec : GetAnswer) :
    Int × CredState × List Ev × Option wifi_prov_cred :=
  match cred with
  | none => (-EINVAL, st, [], none)
  | some out =>
    let r := load_from_storage st a_ssid a_psk a_sec
    if r.1.stored_cred.ssid_len = 0 then (-ENOENT, r.1, r.2, some out)
    else (0, r.1, r.2, some r.1.stored_cred)

/-- The function `wifi_prov_cred_erase`; the return values of the three
`eai_settings_delete` calls are discarded. -/
def wifi_prov_cred_erase (_st : CredState) (_r_ssid _r_psk _r_sec : Int) :
    Int × CredState × List Ev :=
  (0, { stored_cred := cred_zero, cred_loaded := true },
   [Ev.settings_delete SettingsKey.ssid, Ev.settings_delete SettingsKey.psk,
    Ev.settings_delete SettingsKey.sec])

/-- The function `wifi_prov_cred_exists`. -/
def wifi_prov_cred_exists (st : CredState) (a_ssid a_psk a_sec : GetAnswer) :
    Bool × CredState × List Ev :=
  let r := load_from_storage st a_ssid a_psk a_sec
  (decide (r.1.stored_cred.ssid_len > 0), r.1, r.2)

/-! ## Calls used in the statements -/

/-- One call of the public interface with its arguments and the answers of the
settings backend. -/
inductive CredOp where
  | store (cred : Option wifi_prov_cred) (r_ssid r_psk r_sec : Int)
  | load (cred : Option wifi_prov_cred) (a_ssid a_psk a_sec : GetAnswer)
  | erase (r_ssid r_psk r_sec : Int)
  | query (a_ssid a_psk a_sec : GetAnswer)

/-- The state after one call. -/
def apply_op (st : CredState) : CredOp → CredState
  | CredOp.store cred r_ssid r_psk r_sec => (wifi_prov_cred_store st cred r_ssid r_psk r_sec).2.1
  | CredOp.load cred a_ssid a_psk a_sec => (wifi_prov_cred_load st cred a_ssid a_psk a_sec).2.1
  | CredOp.erase r_ssid r_psk r_sec => (wifi_prov_cred_erase st r_ssid r_psk r_sec).2.1
  | CredOp.query a_ssid a_psk a_sec => (wifi_prov_cred_exists st a_ssid a_psk a_sec).2.1

/-- The state after a sequence of calls. -/
def run_ops (st : CredState) : List CredOp → CredState
  | [] => st
  | op :: rest => run_ops (apply_op st op) rest

/-- Whether a call is a `wifi_prov_cred_store` that returns 0. -/
def is_successful_store (st : CredState) : CredOp → Bool
  | CredOp.store cred r_ssid r_psk r_sec =>
    decide ((wifi_prov_cred_store st cred r_ssid r_psk r_sec).1 = 0)
  | _ => false

/-- Whether no call of a sequence is a successful store. -/
def no_successful_store (st : CredState) : List CredOp → Bool
  | [] => true
  | op :: rest => !is_successful_store st op && no_successful_store (apply_op st op) rest

/-- The module state at boot (zeroed static variables). -/
def cred_boot : CredState := { stored_cred := cred_zero, cred_loaded := false }

/-- The credential of `test_cred_store_and_load`: SSID `TestNetwork`, PSK
`password123`, WPA2-PSK. -/
def test_cred : wifi_prov_cred :=
  { ssid := [84, 101, 115, 116, 78, 101, 116, 119, 111, 114, 107] ++ List.replicate 21 0
    ssid_len := 11
    psk := [112, 97, 115, 115, 119, 111, 114, 100, 49, 50, 51] ++ List.replicate 53 0
    psk_len := 11
    security := 2 }

/-- The second credential of `test_cred_overwrite`: SSID `Second`, PSK
`pass2`, WPA2-PSK. -/
def second_cred : wifi_prov_cred :=
  { ssid := [83, 101, 99, 111, 110, 100] ++ List.replicate 26 0
    ssid_len := 6
    psk := [112, 97, 115, 115, 50] ++ List.replicate 59 0
    psk_len := 5
    security := 2 }

/-- A settings backend that has nothing stored. -/
def get_fails : GetAnswer := { ret := -2, written := none, actual := 0 }

end WifiCred

/-! # The simulation backend of the sensor library (`lib/eai_sensor/src/posix/sensor.c`)

The state holds the static variables of the module and, by address, the
session structures of the callers: a session argument is `none` for the NULL
pointer and else the address of a structure. Callback invocations are
recorded in the order they are made.
-/

namespace Sensor

/-- Value of `EINVAL` in `errno.h`. -/
def EINVAL : Int := 22

/-- Value of `ENODEV` in `errno.h`. -/
def ENODEV : Int := 19

/-- Value of `EBUSY` in `errno.h`. -/
def EBUSY : Int := 16

/-- Value of `CONFIG_EAI_SENSOR_MAX_DEVICES`. -/
def CONFIG_EAI_SENSOR_MAX_DEVICES : Nat := 8

/-- Value of `TEST_DATA_MAX`. -/
def TEST_DATA_MAX : Nat := 64

/-- Value of `EAI_SENSOR_TYPE_ACCEL`. -/
def EAI_SENSOR_TYPE_ACCEL : Nat := 0

/-- Value of `EAI_SENSOR_TYPE_TEMPERATURE`. -/
def EAI_SENSOR_TYPE_TEMPERATURE : Nat := 4

/-- Conversion of a `uint32_t` to `int`. -/
def to_int (n : Nat) : Int :=
  if n % 4294967296 < 2147483648 then ((n % 4294967296 : Nat) : Int)
  else ((n % 4294967296 : Nat) : Int) - 4294967296

/-- Mirror of `struct eai_sensor_data`; the three words of the union are `x`,
`y`, `z` (`scalar` shares the storage of `x`). -/
structure eai_sensor_data where
  device_id : Nat
  type : Nat
  timestamp_ns : Nat
  x : Int
  y : Int
  z : Int
deriving DecidableEq

/-- Mirror of `struct eai_sensor_device`. -/
structure eai_sensor_device where
  id : Nat
  name : List Char
  type : Nat
  range_min : Int
  range_max : Int
  resolution : Int
  max_rate_hz : Nat
deriving DecidableEq

/-- Mirror of `struct eai_sensor_config`. -/
structure eai_sensor_config where
  rate_hz : Nat
  max_latency_ms : Nat
deriving DecidableEq

/-- Mirror of `struct eai_sensor_session` with the two flags of
`struct eai_sensor_posix_session` kept in `_backend`; `callback` is `none`
for NULL, `user_data` is 0 for NULL. -/
structure eai_sensor_session where
  opened : Bool
  active : Bool
  config : eai_sensor_config
  device_id : Nat
  callback : Option Nat
  user_data : Nat
deriving DecidableEq

/-- The static variables of `sensor.c`, the session structures of the callers
and the callback invocations made so far (function, reading, user data). -/
structure SensorState where
  initialized : Bool
  devices : Nat → eai_sensor_device
  device_count : Nat
  device_has_session : Nat → Bool
  test_data : Nat → eai_sensor_data
  test_data_head : Nat
  test_data_tail : Nat
  test_data_count : Nat
  sessions : Nat → eai_sensor_session
  delivered : List (Nat × eai_sensor_data × Nat)

/-- Assignment to one element of an array. -/
def store {α : Type} (a : Nat → α) (i : Nat) (v : α) : Nat → α :=
  fun j => if j = i then v else a j

/-- A zeroed device entry. -/
def zero_device : eai_sensor_device :=
  { id := 0, name := [], type := 0, range_min := 0, range_max := 0, resolution := 0,
    max_rate_hz := 0 }

/-- A zeroed reading. -/
def zero_data : eai_sensor_data :=
  { device_id := 0, type := 0, timestamp_ns := 0, x := 0, y := 0, z := 0 }

/-- A zeroed session structure. -/
def zero_session : eai_sensor_session :=
  { opened := false, active := false, config := { rate_hz := 0, max_latency_ms := 0 },
    device_id := 0, callback := none, user_data := 0 }

/-- The state at program start: zeroed static variables and session
structures. -/
def sensor_boot : SensorState :=
  { initialized := false
    devices := fun _ => zero_device
    device_count := 0
    device_has_session := fun _ => false
    test_data := fun _ => zero_data
    test_data_head := 0
    test_data_tail := 0
    test_data_count := 0
    sessions := fun _ => zero_session
    delivered := [] }

/-- The function `find_device_by_id`: the index of the first of the
`device_count` entries with this id. -/
def find_device_by_id (st : SensorState) (id : Nat) : Option Nat :=
  (List.range st.device_count).find? (fun i => decide ((st.devices i).id = id))

/-- The function `setup_default_devices`. -/
def setup_default_devices (st : SensorState) : SensorState :=
  { st with
    device_count := 2
    devices :=
      store
        (store st.devices 0
          { id := 0, name := ['a', 'c', 'c', 'e', 'l'], type := EAI_SENSOR_TYPE_ACCEL,
            range_min := -16000, range_max := 16000, resolution := 1, max_rate_hz := 400 })
        1
        { id := 1, name := ['t', 'e', 'm', 'p'], type := EAI_SENSOR_TYPE_TEMPERATURE,
          range_min := -40000, range_max := 125000, resolution := 10, max_rate_hz := 10 } }

/-- The effect of `memset(device_has_session, 0, sizeof(device_has_session))`. -/
def clear_has_session (a : Nat → Bool) : Nat → Bool :=
  fun i => if i < CONFIG_EAI_SENSOR_MAX_DEVICES then false else a i

/-- The function `eai_sensor_init`. -/
def eai_sensor_init (st : SensorState) : Int × SensorState :=
  let s1 : SensorState :=
    { st with
      device_has_session := clear_has_session st.device_has_session
      test_data_head := 0
      test_data_tail := 0
      test_data_count := 0 }
  (0, { setup_default_devices s1 with initialized := true })

/-- The function `eai_sensor_deinit`. -/
def eai_sensor_deinit (st : SensorState) : Int × SensorState :=
  if !st.initialized then (-EINVAL, st)
  else
    (0, { st with
          device_has_session := clear_has_session st.device_has_session
          initialized := false })

/-- The function `eai_sensor_get_device_count`. -/
def eai_sensor_get_device_count (st : SensorState) : Int :=
  if !st.initialized then -EINVAL else (st.device_count : Int)

/-- The function `eai_sensor_session_open`. -/
def eai_sensor_session_open (st : SensorState) (session : Option Nat) (device_id : Nat)
    (config : Option eai_sensor_config) : Int × SensorState :=
  match session, config with
  | some h, some cfg =>
    if !st.initialized then (-EINVAL, st)
    else
      match find_device_by_id st device_id with
      | none => (-ENODEV, st)
      | some _ =>
        if st.device_has_session device_id then (-EBUSY, st)
        else
          (0, { st with
                sessions := store st.sessions h
                  { opened := true, active := false, config := cfg, device_id := device_id,
                    callback := none, user_data := 0 }
                device_has_session := store st.device_has_session device_id true })
  | _, _ => (-EINVAL, st)

/-- The function `eai_sensor_session_start`. -/
def eai_sensor_session_start (st : SensorState) (session : Option Nat)
    (callback : Option Nat) (user_data : Nat) : Int × SensorState :=
  match session with
  | none => (-EINVAL, st)
  | some h =>
    if !st.initialized then (-EINVAL, st)
    else if !(st.sessions h).opened then (-EINVAL, st)
    else
      (0, { st with
            sessions := store st.sessions h
              { st.sessions h with callback := callback, user_data := user_data,
                                   active := true } })

/-- The loop of `eai_sensor_session_read`: `acc` holds `data[0..read_count)`;
every iteration takes one reading off the queue, so `fuel` = the number of
queued readings is enough. -/
def read_loop (dev : Nat) (count : Nat) :
    Nat → SensorState → List eai_sensor_data → SensorState × List eai_sensor_data
  | 0, st, acc => (st, acc)
  | fuel + 1, st, acc =>
    if acc.length < count ∧ st.test_data_count > 0 then
      let td := st.test_data st.test_data_tail
      let acc1 := if td.device_id = dev then acc ++ [td] else acc
      read_loop dev count fuel
        { st with
          test_data_tail := (st.test_data_tail + 1) % TEST_DATA_MAX
          test_data_count := st.test_data_count - 1 }
        acc1
    else (st, acc)

/-- The function `eai_sensor_session_read`; `data` tells whether the output
pointer is not NULL; the last component is the content of `data[0..r)`
afterwards, `r` being the number of readings copied. -/
def eai_sensor_session_read (st : SensorState) (session : Option Nat) (data : Bool)
    (count : Nat) (_timeout_ms : Nat) : Int × SensorState × List eai_sensor_data :=
  match session with
  | none => (-EINVAL, st, [])
  | some h =>
    if !st.initialized ∨ !data ∨ count = 0 then (-EINVAL, st, [])
    else if !(st.sessions h).active then (-EINVAL, st, [])
    else
      let r := read_loop (st.sessions h).device_id count st.test_data_count st []
      (to_int r.2.length, r.1, r.2)

/-- The loop of `eai_sensor_session_flush`. -/
def flush_loop (dev : Nat) (callback : Nat) (user_data : Nat) : Nat → SensorState → SensorState
  | 0, st => st
  | fuel + 1, st =>
    if st.test_data_count > 0 then
      let td := st.test_data st.test_data_tail
      flush_loop dev callback user_data fuel
        { st with
          delivered :=
            if td.device_id = dev then st.delivered ++ [(callback, td, user_data)]
            else st.delivered
          test_data_tail := (st.test_data_tail + 1) % TEST_DATA_MAX
          test_data_count := st.test_data_count - 1 }
    else st

/-- The function `eai_sensor_session_flush`. -/
def eai_sensor_session_flush (st : SensorState) (session : Option Nat) : Int × SensorState :=
  match session with
  | none => (-EINVAL, st)
  | some h =>
    if !st.initialized then (-EINVAL, st)
    else if !(st.sessions h).active then (-EINVAL, st)
    else
      match (st.sessions h).callback with
      | some cb =>
        (0, flush_loop (st.sessions h).device_id cb (st.sessions h).user_data
              st.test_data_count st)
      | none => (0, st)

/-- The function `eai_sensor_session_stop`. -/
def eai_sensor_session_stop (st : SensorState) (session : Option Nat) : Int × SensorState :=
  match session with
  | none => (-EINVAL, st)
  | some h =>
    if !st.initialized then (-EINVAL, st)
    else
      (0, { st with
            sessions := store st.sessions h
              { st.sessions h with active := false, callback := none, user_data := 0 } })

/-- The function `eai_sensor_session_close`. -/
def eai_sensor_session_close (st : SensorState) (session : Option Nat) : Int × SensorState :=
  match session with
  | none => (-EINVAL, st)
  | some h =>
    if !st.initialized then (-EINVAL, st)
    else
      let s1 := if (st.sessions h).active then (eai_sensor_session_stop st (some h)).2 else st
      let s2 : SensorState :=
        if (s1.sessions h).device_id < CONFIG_EAI_SENSOR_MAX_DEVICES then
          { s1 with
            device_has_session := store s1.device_has_session (s1.sessions h).device_id false }
        else s1
      (0, { s2 with sessions := store s2.sessions h { s2.sessions h with opened := false } })

/-- The function `eai_sensor_test_inject_data`; `data` is `none` for NULL. -/
def eai_sensor_test_inject_data (st : SensorState) (data : Option eai_sensor_data) :
    SensorState :=
  match data with
  | none => st
  | some d =>
    if st.test_data_count ≥ TEST_DATA_MAX then st
    else
      { st with
        test_data := store st.test_data st.test_data_head d
        test_data_head := (st.test_data_head + 1) % TEST_DATA_MAX
        test_data_count := (st.test_data_count + 1) % 4294967296 }

/-- The function `eai_sensor_test_reset`. -/
def eai_sensor_test_reset (st : SensorState) : SensorState :=
  { st with
    initialized := false
    device_count := 0
    device_has_session := clear_has_session st.device_has_session
    test_data_head := 0
    test_data_tail := 0
    test_data_count := 0 }

/-! ## The scenario of a handle closed twice -/

/-- The configuration used by the tests (`rate_hz` 100, `max_latency_ms` 0). -/
def test_config : eai_sensor_config := { rate_hz := 100, max_latency_ms := 0 }

/-- State after `eai_sensor_init()` at program start. -/
def st_sensor_init : SensorState := (eai_sensor_init sensor_boot).2

/-- Session `s1` (address 1) opened on device 0. -/
def st_s1_open : SensorState :=
  (eai_sensor_session_open st_sensor_init (some 1) 0 (some test_config)).2

/-- Session `s1` closed. -/
def st_s1_closed : SensorState := (eai_sensor_session_close st_s1_open (some 1)).2

/-- Session `s2` (address 2) opened on device 0. -/
def st_s2_open : SensorState :=
  (eai_sensor_session_open st_s1_closed (some 2) 0 (some test_config)).2

/-- Session `s1` closed a second time, while `s2` is open. -/
def st_s1_closed_again : SensorState := (eai_sensor_session_close st_s2_open (some 1)).2

/-- Session `s3` (address 3) opened on device 0. -/
def st_s3_open : SensorState :=
  (eai_sensor_session_open st_s1_closed_again (some 3) 0 (some test_config)).2

end Sensor

/-! # The simulation backend of the audio library (`lib/eai_audio/src/posix/audio.c`)

The state holds the static variables of the module and, by address, the
stream structures of the callers: a stream argument is `none` for the NULL
pointer and else the address of a structure. The two test buffers are kept as
bytes, indexed from the start of the array; an index from
`TEST_BUF_BYTES` on is memory behind the array.
-/

namespace Audio

/-- Value of `EINVAL` in `errno.h`. -/
def EINVAL : Int := 22

/-- Value of `ENOMEM` in `errno.h`. -/
def ENOMEM : Int := 12

/-- Value of `ENODEV` in `errno.h`. -/
def ENODEV : Int := 19

/-- Value of `EBUSY` in `errno.h`. -/
def EBUSY : Int := 16

/-- Value of `ENOTSUP` in `errno.h`. -/
def ENOTSUP : Int := 95

/-- Value of `CONFIG_EAI_AUDIO_MAX_PORTS`. -/
def CONFIG_EAI_AUDIO_MAX_PORTS : Nat := 4

/-- Value of `CONFIG_EAI_AUDIO_MAX_ROUTES`. -/
def CONFIG_EAI_AUDIO_MAX_ROUTES : Nat := 4

/-- Value of `TEST_BUF_MAX_FRAMES`. -/
def TEST_BUF_MAX_FRAMES : Nat := 4096

/-- Value of `TEST_BUF_MAX_SAMPLES`. -/
def TEST_BUF_MAX_SAMPLES : Nat := TEST_BUF_MAX_FRAMES * 2

/-- Size in bytes of `output_buf` and of `input_buf` (`int16_t` samples). -/
def TEST_BUF_BYTES : Nat := TEST_BUF_MAX_SAMPLES * 2

/-- Number of values of `uint32_t`. -/
def U32 : Nat := 4294967296

/-- Number of values of `uint64_t`. -/
def U64 : Nat := 18446744073709551616

/-- Value of `EAI_AUDIO_FORMAT_PCM_S16_LE`. -/
def EAI_AUDIO_FORMAT_PCM_S16_LE : Nat := 0

/-- Value of `EAI_AUDIO_FORMAT_PCM_S24_LE`. -/
def EAI_AUDIO_FORMAT_PCM_S24_LE : Nat := 1

/-- Value of `EAI_AUDIO_FORMAT_PCM_S32_LE`. -/
def EAI_AUDIO_FORMAT_PCM_S32_LE : Nat := 2

/-- Value of `EAI_AUDIO_FORMAT_PCM_F32_LE`. -/
def EAI_AUDIO_FORMAT_PCM_F32_LE : Nat := 3

/-- Value of `EAI_AUDIO_CHANNEL_MONO`. -/
def EAI_AUDIO_CHANNEL_MONO : Nat := 1

/-- Value of `EAI_AUDIO_CHANNEL_STEREO`. -/
def EAI_AUDIO_CHANNEL_STEREO : Nat := 3

/-- Value of `EAI_AUDIO_OUTPUT`. -/
def EAI_AUDIO_OUTPUT : Nat := 0

/-- Value of `EAI_AUDIO_INPUT`. -/
def EAI_AUDIO_INPUT : Nat := 1

/-- Value of `EAI_AUDIO_PORT_SPEAKER`. -/
def EAI_AUDIO_PORT_SPEAKER : Nat := 0

/-- Value of `EAI_AUDIO_PORT_MIC`. -/
def EAI_AUDIO_PORT_MIC : Nat := 1

/-- Value of `EAI_AUDIO_MIXER_SLOT_NONE`. -/
def EAI_AUDIO_MIXER_SLOT_NONE : Nat := 255

/-- Conversion of a `uint32_t` to `int`. -/
def to_int (n : Nat) : Int :=
  if n % U32 < 2147483648 then ((n % U32 : Nat) : Int) else ((n % U32 : Nat) : Int) - 4294967296

/-- Mirror of `struct eai_audio_config`. -/
structure eai_audio_config where
  sample_rate : Nat
  format : Nat
  channels : Nat
  frame_count : Nat
deriving DecidableEq

/-- Mirror of `struct eai_audio_profile`. -/
structure eai_audio_profile where
  formats : List Nat
  format_count : Nat
  sample_rates : List Nat
  sample_rate_count : Nat
  channels : List Nat
  channel_mask_count : Nat
deriving DecidableEq

/-- Mirror of `struct eai_audio_gain` (centibels). -/
structure eai_audio_gain where
  min_cb : Int
  max_cb : Int
  step_cb : Int
  current_cb : Int
deriving DecidableEq

/-- Mirror of `struct eai_audio_port`. -/
structure eai_audio_port where
  id : Nat
  name : List Char
  direction : Nat
  type : Nat
  profiles : List eai_audio_profile
  profile_count : Nat
  gain : eai_audio_gain
  has_gain : Bool
deriving DecidableEq

/-- Mirror of `struct eai_audio_route`. -/
structure eai_audio_route where
  source_port_id : Nat
  sink_port_id : Nat
  active : Bool
deriving DecidableEq

/-- Mirror of `struct eai_audio_stream` with the two fields of
`struct eai_audio_posix_stream` kept in `_backend`. -/
structure eai_audio_stream where
  frame_position : Nat
  active : Bool
  config : eai_audio_config
  direction : Nat
  port_id : Nat
  mixer_slot : Nat
deriving DecidableEq

/-- The static variables of `audio.c` and the stream structures of the
callers. -/
structure AudioState where
  initialized : Bool
  ports : Nat → eai_audio_port
  port_count : Nat
  routes : Nat → eai_audio_route
  route_count : Nat
  output_buf : Nat → Nat
  output_frames : Nat
  input_buf : Nat → Nat
  input_frames : Nat
  input_read_pos : Nat
  port_has_stream : Nat → Bool
  streams : Nat → eai_audio_stream

/-- Assignment to one element of an array. -/
def store {α : Type} (a : Nat → α) (i : Nat) (v : α) : Nat → α :=
  fun j => if j = i then v else a j

/-- The effect of `memcpy(dst + off, src, len)` on the bytes of `dst`. -/
def memcpy (dst : Nat → Nat) (off : Nat) (src : Nat → Nat) (len : Nat) : Nat → Nat :=
  fun i => if off ≤ i ∧ i < off + len then src (i - off) else dst i

/-- The effect of `memset(buf, 0, len)` on the bytes of `buf`. -/
def memset0 (buf : Nat → Nat) (len : Nat) : Nat → Nat :=
  fun i => if i < len then 0 else buf i

/-- The effect of `memset(port_has_stream, 0, sizeof(port_has_stream))`. -/
def clear_has_stream (a : Nat → Bool) : Nat → Bool :=
  fun i => if i < CONFIG_EAI_AUDIO_MAX_PORTS then false else a i

/-- A zeroed profile. -/
def zero_profile : eai_audio_profile :=
  { formats := [0, 0, 0, 0], format_count := 0
    sample_rates := [0, 0, 0, 0, 0, 0, 0, 0], sample_rate_count := 0
    channels := [0, 0, 0, 0], channel_mask_count := 0 }

/-- A zeroed port entry. -/
def zero_port : eai_audio_port :=
  { id := 0, name := [], direction := 0, type := 0, profiles := [zero_profile, zero_profile],
    profile_count := 0, gain := { min_cb := 0, max_cb := 0, step_cb := 0, current_cb := 0 },
    has_gain := false }

/-- A zeroed stream structure. -/
def zero_stream : eai_audio_stream :=
  { frame_position := 0, active := false,
    config := { sample_rate := 0, format := 0, channels := 0, frame_count := 0 },
    direction := 0, port_id := 0, mixer_slot := 0 }

/-- The state at program start: zeroed static variables and stream
structures. -/
def audio_boot : AudioState :=
  { initialized := false
    ports := fun _ => zero_port
    port_count := 0
    routes := fun _ => { source_port_id := 0, sink_port_id := 0, active := false }
    route_count := 0
    output_buf := fun _ => 0
    output_frames := 0
    input_buf := fun _ => 0
    input_frames := 0
    input_read_pos := 0
    port_has_stream := fun _ => false
    streams := fun _ => zero_stream }

/-- The loop of `channels_from_mask`; `m` loses one bit per iteration. -/
def channels_loop : Nat → Nat → Nat → Nat
  | 0, _, count => count
  | fuel + 1, m, count =>
    if m ≠ 0 then channels_loop fuel (m >>> 1) ((count + (m &&& 1)) % U32) else count

/-- The function `channels_from_mask`: the number of bits set in the mask. -/
def channels_from_mask (mask : Nat) : Nat :=
  channels_loop 32 (mask % U32) 0

/-- The function `bytes_per_sample`. -/
def bytes_per_sample (fmt : Nat) : Nat :=
  if fmt = EAI_AUDIO_FORMAT_PCM_S16_LE then 2
  else if fmt = EAI_AUDIO_FORMAT_PCM_S24_LE then 3
  else if fmt = EAI_AUDIO_FORMAT_PCM_S32_LE then 4
  else if fmt = EAI_AUDIO_FORMAT_PCM_F32_LE then 4
  else 2

/-- The function `frame_size`. -/
def frame_size (config : eai_audio_config) : Nat :=
  (bytes_per_sample config.format * channels_from_mask config.channels) % U32

/-- The function `find_port_by_id`: the index of the first of the `port_count`
entries with this id. -/
def find_port_by_id (st : AudioState) (id : Nat) : Option Nat :=
  (List.range st.port_count).find? (fun i => decide ((st.ports i).id = id))

/-- The speaker port written by `setup_default_ports`. -/
def speaker_port : eai_audio_port :=
  { id := 0
    name := ['s', 'p', 'e', 'a', 'k', 'e', 'r']
    direction := EAI_AUDIO_OUTPUT
    type := EAI_AUDIO_PORT_SPEAKER
    profiles :=
      [{ formats := [EAI_AUDIO_FORMAT_PCM_S16_LE, 0, 0, 0], format_count := 1
         sample_rates := [16000, 48000, 0, 0, 0, 0, 0, 0], sample_rate_count := 2
         channels := [EAI_AUDIO_CHANNEL_MONO, EAI_AUDIO_CHANNEL_STEREO, 0, 0]
         channel_mask_count := 2 },
       zero_profile]
    profile_count := 1
    gain := { min_cb := -6000, max_cb := 0, step_cb := 100, current_cb := 0 }
    has_gain := true }

/-- The microphone port written by `setup_default_ports`. -/
def mic_port : eai_audio_port :=
  { id := 1
    name := ['m', 'i', 'c']
    direction := EAI_AUDIO_INPUT
    type := EAI_AUDIO_PORT_MIC
    profiles :=
      [{ formats := [EAI_AUDIO_FORMAT_PCM_S16_LE, 0, 0, 0], format_count := 1
         sample_rates := [16000, 0, 0, 0, 0, 0, 0, 0], sample_rate_count := 1
         channels := [EAI_AUDIO_CHANNEL_MONO, 0, 0, 0]
         channel_mask_count := 1 },
       zero_profile]
    profile_count := 1
    gain := { min_cb := 0, max_cb := 0, step_cb := 0, current_cb := 0 }
    has_gain := false }

/-- The function `setup_default_ports`. -/
def setup_default_ports (st : AudioState) : AudioState :=
  { st with
    port_count := 2
    ports := store (store st.ports 0 speaker_port) 1 mic_port }

/-- The function `eai_audio_init`. -/
def eai_audio_init (st : AudioState) : Int × AudioState :=
  let s1 : AudioState :=
    { st with
      port_has_stream := clear_has_stream st.port_has_stream
      output_buf := memset0 st.output_buf TEST_BUF_BYTES
      output_frames := 0
      input_buf := memset0 st.input_buf TEST_BUF_BYTES
      input_frames := 0
      input_read_pos := 0
      route_count := 0 }
  (0, { setup_default_ports s1 with initialized := true })

/-- The function `eai_audio_deinit`. -/
def eai_audio_deinit (st : AudioState) : Int × AudioState :=
  if !st.initialized then (-EINVAL, st)
  else
    (0, { st with
          port_has_stream := clear_has_stream st.port_has_stream
          initialized := false })

/-- The function `eai_audio_get_port_count`. -/
def eai_audio_get_port_count (st : AudioState) : Int :=
  if !st.initialized then -EINVAL else (st.port_count : Int)

/-- The function `eai_audio_stream_open`. -/
def eai_audio_stream_open (st : AudioState) (stream : Option Nat) (port_id : Nat)
    (config : Option eai_audio_config) : Int × AudioState :=
  match stream, config with
  | some h, some cfg =>
    if !st.initialized then (-EINVAL, st)
    else
      match find_port_by_id st port_id with
      | none => (-ENODEV, st)
      | some i =>
        if st.port_has_stream port_id then (-EBUSY, st)
        else
          (0, { st with
                streams := store st.streams h
                  { frame_position := 0, active := false, config := cfg,
                    direction := (st.ports i).direction, port_id := port_id,
                    mixer_slot := EAI_AUDIO_MIXER_SLOT_NONE }
                port_has_stream := store st.port_has_stream port_id true })
  | _, _ => (-EINVAL, st)

/-- The function `eai_audio_stream_close`. -/
def eai_audio_stream_close (st : AudioState) (stream : Option Nat) : Int × AudioState :=
  match stream with
  | none => (-EINVAL, st)
  | some h =>
    if !st.initialized then (-EINVAL, st)
    else
      let s1 : AudioState :=
        if (st.streams h).port_id < CONFIG_EAI_AUDIO_MAX_PORTS then
          { st with port_has_stream := store st.port_has_stream (st.streams h).port_id false }
        else st
      (0, { s1 with streams := store s1.streams h { s1.streams h with active := false } })

/-- The function `eai_audio_stream_start`. -/
def eai_audio_stream_start (st : AudioState) (stream : Option Nat) : Int × AudioState :=
  match stream with
  | none => (-EINVAL, st)
  | some h =>
    if !st.initialized then (-EINVAL, st)
    else (0, { st with streams := store st.streams h { st.streams h with active := true } })

/-- The function `eai_audio_stream_pause`. -/
def eai_audio_stream_pause (st : AudioState) (stream : Option Nat) : Int × AudioState :=
  match stream with
  | none => (-EINVAL, st)
  | some h =>
    if !st.initialized then (-EINVAL, st)
    else (0, { st with streams := store st.streams h { st.streams h with active := false } })

/-- The function `eai_audio_stream_write`; `data` is `none` for NULL and else
the bytes at the caller's pointer. -/
def eai_audio_stream_write (st : AudioState) (stream : Option Nat) (data : Option (Nat → Nat))
    (frames : Nat) (_timeout_ms : Nat) : Int × AudioState :=
  match stream, data with
  | some h, some d =>
    if !st.initialized ∨ frames = 0 then (-EINVAL, st)
    else if (st.streams h).direction ≠ EAI_AUDIO_OUTPUT then (-ENOTSUP, st)
    else if !(st.streams h).active then (-EINVAL, st)
    else
      let fsize := frame_size (st.streams h).config
      let samples_per_frame := channels_from_mask (st.streams h).config.channels
      let avail := (TEST_BUF_MAX_FRAMES + U32 - st.output_frames) % U32
      let to_write := if frames < avail then frames else avail
      let s1 : AudioState :=
        if to_write > 0 then
          { st with
            output_buf :=
              memcpy st.output_buf (2 * ((st.output_frames * samples_per_frame) % U32)) d
                ((to_write * fsize) % U32)
            output_frames := (st.output_frames + to_write) % U32 }
        else st
      (to_int to_write,
       { s1 with
         streams := store s1.streams h
           { s1.streams h with
             frame_position := ((s1.streams h).frame_position + to_write) % U64 } })
  | _, _ => (-EINVAL, st)

/-- The function `eai_audio_stream_read`; `data` is `none` for NULL and else
the bytes of the caller's buffer, whose content afterwards is the last
component. -/
def eai_audio_stream_read (st : AudioState) (stream : Option Nat) (data : Option (Nat → Nat))
    (frames : Nat) (_timeout_ms : Nat) : Int × AudioState × Option (Nat → Nat) :=
  match stream, data with
  | some h, some d =>
    if !st.initialized ∨ frames = 0 then (-EINVAL, st, some d)
    else if (st.streams h).direction ≠ EAI_AUDIO_INPUT then (-ENOTSUP, st, some d)
    else if !(st.streams h).active then (-EINVAL, st, some d)
    else
      let fsize := frame_size (st.streams h).config
      let samples_per_frame := channels_from_mask (st.streams h).config.channels
      let avail := (st.input_frames + U32 - st.input_read_pos) % U32
      let to_read := if frames < avail then frames else avail
      let off := 2 * ((st.input_read_pos * samples_per_frame) % U32)
      let out : Nat → Nat :=
        if to_read > 0 then memcpy d 0 (fun i => st.input_buf (off + i)) ((to_read * fsize) % U32)
        else d
      let s1 : AudioState :=
        if to_read > 0 then { st with input_read_pos := (st.input_read_pos + to_read) % U32 }
        else st
      (to_int to_read,
       { s1 with
         streams := store s1.streams h
           { s1.streams h with
             frame_position := ((s1.streams h).frame_position + to_read) % U64 } },
       some out)
  | _, d => (-EINVAL, st, d)

/-- The function `eai_audio_stream_get_position`; `frames` tells whether the
output pointer is not NULL; the second component is the value stored there. -/
def eai_audio_stream_get_position (st : AudioState) (stream : Option Nat) (frames : Bool) :
    Int × Option Nat :=
  match stream with
  | none => (-EINVAL, none)
  | some h =>
    if !st.initialized ∨ !frames then (-EINVAL, none)
    else (0, some (st.streams h).frame_position)

/-- The function `eai_audio_set_gain`. -/
def eai_audio_set_gain (st : AudioState) (port_id : Nat) (gain_cb : Int) : Int × AudioState :=
  if !st.initialized then (-EINVAL, st)
  else
    match find_port_by_id st port_id with
    | none => (-EINVAL, st)
    | some i =>
      if !(st.ports i).has_gain then (-ENOTSUP, st)
      else
        let g1 := if gain_cb < (st.ports i).gain.min_cb then (st.ports i).gain.min_cb else gain_cb
        let g2 := if g1 > (st.ports i).gain.max_cb then (st.ports i).gain.max_cb else g1
        (0, { st with
              ports := store st.ports i
                { st.ports i with gain := { (st.ports i).gain with current_cb := g2 } } })

/-- The function `eai_audio_get_gain`; `gain_cb` tells whether the output
pointer is not NULL; the second component is the value stored there. -/
def eai_audio_get_gain (st : AudioState) (port_id : Nat) (gain_cb : Bool) : Int × Option Int :=
  if !st.initialized ∨ !gain_cb then (-EINVAL, none)
  else
    match find_port_by_id st port_id with
    | none => (-EINVAL, none)
    | some i =>
      if !(st.ports i).has_gain then (-ENOTSUP, none)
      else (0, some (st.ports i).gain.current_cb)

/-- The function `eai_audio_set_route`. -/
def eai_audio_set_route (st : AudioState) (source_port_id sink_port_id : Nat) :
    Int × AudioState :=
  if !st.initialized then (-EINVAL, st)
  else
    match find_port_by_id st source_port_id, find_port_by_id st sink_port_id with
    | some src, some sink =>
      if (st.ports src).direction ≠ EAI_AUDIO_INPUT ∨
          (st.ports sink).direction ≠ EAI_AUDIO_OUTPUT then (-EINVAL, st)
      else
        match (List.range st.route_count).find? (fun i =>
            decide ((st.routes i).source_port_id = source_port_id ∧
                    (st.routes i).sink_port_id = sink_port_id)) with
        | some i =>
          (0, { st with routes := store st.routes i { st.routes i with active := true } })
        | none =>
          if st.route_count ≥ CONFIG_EAI_AUDIO_MAX_ROUTES then (-ENOMEM, st)
          else
            (0, { st with
                  routes := store st.routes st.route_count
                    { source_port_id := source_port_id, sink_port_id := sink_port_id,
                      active := true }
                  route_count := st.route_count + 1 })
    | _, _ => (-EINVAL, st)

/-- The function `eai_audio_get_route_count`. -/
def eai_audio_get_route_count (st : AudioState) : Int :=
  if !st.initialized then -EINVAL else (st.route_count : Int)

/-- The function `eai_audio_test_set_input`; `data` is `none` for NULL. -/
def eai_audio_test_set_input (st : AudioState) (data : Option (Nat → Nat)) (frames : Nat) :
    AudioState :=
  let to_copy := if frames < TEST_BUF_MAX_FRAMES then frames else TEST_BUF_MAX_FRAMES
  let buf :=
    match data with
    | some d => if to_copy > 0 then memcpy st.input_buf 0 d (to_copy * 2) else st.input_buf
    | none => st.input_buf
  { st with input_buf := buf, input_frames := to_copy, input_read_pos := 0 }

/-- The function `eai_audio_test_reset`. -/
def eai_audio_test_reset (st : AudioState) : AudioState :=
  { st with
    initialized := false
    port_count := 0
    route_count := 0
    port_has_stream := clear_has_stream st.port_has_stream
    output_buf := memset0 st.output_buf TEST_BUF_BYTES
    output_frames := 0
    input_buf := memset0 st.input_buf TEST_BUF_BYTES
    input_frames := 0
    input_read_pos := 0 }

/-! ## Descriptions and scenarios used in the statements -/

/-- The tables of two states agree: the initialisation flag, the port count
and the ports in use, the stream mark of every port, the route count, and the
frame counters and bytes of the two test buffers. -/
def same_tables (a b : AudioState) : Prop :=
  a.initialized = b.initialized ∧
  a.port_count = b.port_count ∧
  (∀ i, i < a.port_count → a.ports i = b.ports i) ∧
  (∀ i, i < CONFIG_EAI_AUDIO_MAX_PORTS → a.port_has_stream i = b.port_has_stream i) ∧
  a.route_count = b.route_count ∧
  a.output_frames = b.output_frames ∧
  (∀ i, i < TEST_BUF_BYTES → a.output_buf i = b.output_buf i) ∧
  a.input_frames = b.input_frames ∧
  a.input_read_pos = b.input_read_pos ∧
  (∀ i, i < TEST_BUF_BYTES → a.input_buf i = b.input_buf i)

/-- The configuration used by the tests: 16 kHz, S16, mono, 256 frames. -/
def test_config : eai_audio_config :=
  { sample_rate := 16000, format := EAI_AUDIO_FORMAT_PCM_S16_LE,
    channels := EAI_AUDIO_CHANNEL_MONO, frame_count := 256 }

/-- State after `eai_audio_init()` at program start. -/
def st_audio_init : AudioState := (eai_audio_init audio_boot).2

/-- A stream (address 1) opened on the speaker port. -/
def st_speaker_open : AudioState :=
  (eai_audio_stream_open st_audio_init (some 1) 0 (some test_config)).2

/-- The stream on the speaker port closed again. -/
def st_speaker_closed : AudioState := (eai_audio_stream_close st_speaker_open (some 1)).2

/-- The closed stream started. -/
def st_closed_started : AudioState := (eai_audio_stream_start st_speaker_closed (some 1)).2

/-- A stream (address 2) opened on the microphone port. -/
def st_mic_open : AudioState :=
  (eai_audio_stream_open st_audio_init (some 2) 1 (some test_config)).2

/-- The stream on the microphone port started. -/
def st_mic_started : AudioState := (eai_audio_stream_start st_mic_open (some 2)).2

/-- The stream on the speaker port started and then paused. -/
def st_speaker_paused : AudioState :=
  (eai_audio_stream_pause (eai_audio_stream_start st_speaker_open (some 1)).2 (some 1)).2

/-- One sample of value 100 as bytes. -/
def one_sample : Nat → Nat := fun i => if i = 0 then 100 else 0

/-- A state in use: gain lowered, a route set, a stream open and started on
the speaker, one frame written. -/
def st_in_use : AudioState :=
  (eai_audio_stream_write
    (eai_audio_stream_start
      (eai_audio_stream_open
        (eai_audio_set_route (eai_audio_set_gain st_audio_init 0 (-1000)).2 1 0).2
        (some 1) 0 (some test_config)).2 (some 1)).2
    (some 1) (some one_sample) 1 0).2

end Audio

namespace Mixer

/-! ## Scenarios for the period of the mixer thread -/

/-- A configuration with a sample rate of zero: 1 channel, 64 frames. -/
def zero_rate_config : eai_audio_mixer_config :=
  { sample_rate := 0, channels := 1, period_frames := 64, hw_write := true }

/-- A configuration whose period is shorter than a millisecond: 48 kHz, 2
channels, 16 frames. -/
def short_period_config : eai_audio_mixer_config :=
  { sample_rate := 48000, channels := 2, period_frames := 16, hw_write := true }

end Mixer

namespace Ipc

/-! ## Scenarios for a handle registered twice and for two names -/

/-- Endpoint A (handle 1) registered a second time under the name `data`,
while it is registered. -/
def st_a_twice : IpcState :=
  (eai_ipc_register_endpoint (some 1) (some (mk_cfg name_data (some 10) (some 11) 100)) st_a).2

/-- The state after one deregistration of A following its two registrations. -/
def st_a_twice_dereg : IpcState := (eai_ipc_deregister_endpoint (some 1) st_a_twice).2

/-- The state after the registration of handle `ea` with configuration `ca`. -/
def after_a (st : IpcState) (ea : Nat) (ca : eai_ipc_ept_cfg) : IpcState :=
  (eai_ipc_register_endpoint (some ea) (some ca) st).2

/-- The state after the registrations of handle `ea` with configuration `ca`
and then of handle `eb` with configuration `cb`. -/
def after_ab (st : IpcState) (ea : Nat) (ca : eai_ipc_ept_cfg) (eb : Nat)
    (cb : eai_ipc_ept_cfg) : IpcState :=
  (eai_ipc_register_endpoint (some eb) (some cb) (after_a st ea ca)).2

/-- The endpoints in the slots 0 and 1 are each other's peer. -/
def paired01 (st : IpcState) : Prop :=
  (st.epts 0).peer = some 1 ∧ (st.epts 1).peer = some 0

/-- A name of 40 bytes: 31 times `a`, then 9 times `x`. -/
def name40x : List Char := List.replicate 31 'a' ++ List.replicate 9 'x'

/-- A name of 33 bytes: 31 times `a`, then 2 times `y`. -/
def name33y : List Char := List.replicate 31 'a' ++ List.replicate 2 'y'

end Ipc

namespace Sensor

/-! ## The queue of injected readings -/

/-- The queued readings, oldest first: the `test_data_count` entries of the
ring from `test_data_tail` on. -/
def pending (st : SensorState) : List eai_sensor_data :=
  (List.range st.test_data_count).map
    (fun k => st.test_data ((st.test_data_tail + k) % TEST_DATA_MAX))

/-- The readings of a list that belong to device `dev`, in order. -/
def matching (dev : Nat) (l : List eai_sensor_data) : List eai_sensor_data :=
  l.filter (fun td => decide (td.device_id = dev))

/-- The number of readings at the front of a queue that a read scans when
`need` more readings of device `dev` are wanted: it stops once `need` readings
of the device were met or the queue is used up. -/
def scanned (dev : Nat) : Nat → List eai_sensor_data → Nat
  | _, [] => 0
  | need, td :: rest =>
    if need = 0 then 0
    else 1 + scanned dev (if td.device_id = dev then need - 1 else need) rest

/-- The invariant of the ring of injected readings. -/
def QueueInv (st : SensorState) : Prop :=
  st.test_data_count ≤ TEST_DATA_MAX ∧
  st.test_data_head = (st.test_data_tail + st.test_data_count) % TEST_DATA_MAX ∧
  st.test_data_tail < TEST_DATA_MAX

/-- States reachable from program start through the functions of the module. -/
inductive Reachable : SensorState → Prop
  | boot : Reachable sensor_boot
  | init (st : SensorState) : Reachable st → Reachable (eai_sensor_init st).2
  | deinit (st : SensorState) : Reachable st → Reachable (eai_sensor_deinit st).2
  | session_open (st : SensorState) (session : Option Nat) (device_id : Nat)
      (config : Option eai_sensor_config) :
      Reachable st → Reachable (eai_sensor_session_open st session device_id config).2
  | session_start (st : SensorState) (session : Option Nat) (callback : Option Nat)
      (user_data : Nat) :
      Reachable st → Reachable (eai_sensor_session_start st session callback user_data).2
  | session_read (st : SensorState) (session : Option Nat) (data : Bool)
      (count timeout_ms : Nat) :
      Reachable st → Reachable (eai_sensor_session_read st session data count timeout_ms).2.1
  | session_flush (st : SensorState) (session : Option Nat) :
      Reachable st → Reachable (eai_sensor_session_flush st session).2
  | session_stop (st : SensorState) (session : Option Nat) :
      Reachable st → Reachable (eai_sensor_session_stop st session).2
  | session_close (st : SensorState) (session : Option Nat) :
      Reachable st → Reachable (eai_sensor_session_close st session).2
  | inject (st : SensorState) (data : Option eai_sensor_data) :
      Reachable st → Reachable (eai_sensor_test_inject_data st data)
  | reset (st : SensorState) : Reachable st → Reachable (eai_sensor_test_reset st)

/-- A reading of the accelerometer (device 0) with time stamp `t`. -/
def accel_reading (t : Nat) : eai_sensor_data :=
  { device_id := 0, type := EAI_SENSOR_TYPE_ACCEL, timestamp_ns := t, x := 100, y := 200,
    z := 1000 }

/-- A reading of the thermometer (device 1) with time stamp `t`. -/
def temp_reading (t : Nat) : eai_sensor_data :=
  { device_id := 1, type := EAI_SENSOR_TYPE_TEMPERATURE, timestamp_ns := t, x := 25000,
    y := 0, z := 0 }

/-- Sessions 1 and 2 opened on devices 0 and 1 and started in polling mode. -/
def st_two_sessions : SensorState :=
  (eai_sensor_session_start
    (eai_sensor_session_open
      (eai_sensor_session_start st_s1_open (some 1) none 0).2
      (some 2) 1 (some test_config)).2
    (some 2) none 0).2

/-- The two sessions with four readings queued: accelerometer, thermometer,
accelerometer, accelerometer. -/
def st_four_queued : SensorState :=
  eai_sensor_test_inject_data
    (eai_sensor_test_inject_data
      (eai_sensor_test_inject_data
        (eai_sensor_test_inject_data st_two_sessions (some (accel_reading 1)))
        (some (temp_reading 2)))
      (some (accel_reading 3)))
    (some (accel_reading 4))

/-- Session 1 restarted in callback mode (callback 7, user data 9) with a
thermometer and an accelerometer reading queued. -/
def st_callback_queued : SensorState :=
  eai_sensor_test_inject_data
    (eai_sensor_test_inject_data
      (eai_sensor_session_start st_two_sessions (some 1) (some 7) 9).2
      (some (temp_reading 5)))
    (some (accel_reading 6))

end Sensor

namespace Audio

/-! ## The region copied by a write -/

/-- The number of frames `to_write` that `eai_audio_stream_write` copies for
`frames` frames. -/
def to_write_of (st : AudioState) (frames : Nat) : Nat :=
  if frames < (TEST_BUF_MAX_FRAMES + U32 - st.output_frames) % U32 then frames
  else (TEST_BUF_MAX_FRAMES + U32 - st.output_frames) % U32

/-- The byte offset in `output_buf` at which the `memcpy` of
`eai_audio_stream_write` starts for stream `h`. -/
def copy_start (st : AudioState) (h : Nat) : Nat :=
  2 * ((st.output_frames * channels_from_mask (st.streams h).config.channels) % U32)

/-- The byte offset in `output_buf` at which the `memcpy` of
`eai_audio_stream_write` ends for stream `h` and `frames` frames. -/
def copy_end (st : AudioState) (h : Nat) (frames : Nat) : Nat :=
  copy_start st h + (to_write_of st frames * frame_size (st.streams h).config) % U32

/-- A configuration with 32-bit stereo samples: 48 kHz, S32, stereo, 256
frames. -/
def s32_stereo_config : eai_audio_config :=
  { sample_rate := 48000, format := EAI_AUDIO_FORMAT_PCM_S32_LE,
    channels := EAI_AUDIO_CHANNEL_STEREO, frame_count := 256 }

/-- A stream (address 1) opened on the speaker port with the 32-bit stereo
configuration and started. -/
def st_s32_started : AudioState :=
  (eai_audio_stream_start
    (eai_audio_stream_open st_audio_init (some 1) 0 (some s32_stereo_config)).2 (some 1)).2

/-- A buffer of bytes that are all 0xAB. -/
def ab_bytes : Nat → Nat := fun _ => 171

/-- The state after 4096 frames were written to the 32-bit stereo stream. -/
def st_s32_written : AudioState :=
  (eai_audio_stream_write st_s32_started (some 1) (some ab_bytes) 4096 0).2

end Audio

/-! # The simulation backend of the input library (`lib/eai_input/src/posix/input.c`)

The state holds the static variables of the module and the callback
invocations made so far. An event argument is `none` for the NULL pointer and
else the content of the caller's structure.
-/

namespace Input

/-- Value of `EINVAL` in `errno.h`. -/
def EINVAL : Int := 22

/-- Value of `EAGAIN` in `errno.h`. -/
def EAGAIN : Int := 11

/-- Value of `ENODEV` in `errno.h`. -/
def ENODEV : Int := 19

/-- Value of `CONFIG_EAI_INPUT_MAX_DEVICES`. -/
def CONFIG_EAI_INPUT_MAX_DEVICES : Nat := 8

/-- Value of `EVENT_QUEUE_MAX`. -/
def EVENT_QUEUE_MAX : Nat := 64

/-- Number of values of `uint32_t`. -/
def U32 : Nat := 4294967296

/-- Value of `EAI_INPUT_DEVICE_TOUCH`. -/
def EAI_INPUT_DEVICE_TOUCH : Nat := 0

/-- Value of `EAI_INPUT_DEVICE_BUTTON`. -/
def EAI_INPUT_DEVICE_BUTTON : Nat := 1

/-- Value of `EAI_INPUT_EVENT_PRESS`. -/
def EAI_INPUT_EVENT_PRESS : Nat := 0

/-- Value of `EAI_INPUT_EVENT_RELEASE`. -/
def EAI_INPUT_EVENT_RELEASE : Nat := 1

/-- Mirror of `struct eai_input_event`. -/
structure eai_input_event where
  device_id : Nat
  type : Nat
  x : Int
  y : Int
  code : Nat
  timestamp_ms : Nat
deriving DecidableEq

/-- Mirror of `struct eai_input_device`. -/
structure eai_input_device where
  id : Nat
  name : List Char
  type : Nat
  x_min : Int
  x_max : Int
  y_min : Int
  y_max : Int
deriving DecidableEq

/-- The static variables of `input.c` and the invocations of the event
callback made so far (function, event, user data). `event_callback` is `none`
for NULL, `event_user_data` is 0 for NULL. -/
structure InputState where
  initialized : Bool
  devices : Nat → eai_input_device
  device_count : Nat
  event_callback : Option Nat
  event_user_data : Nat
  event_queue : Nat → eai_input_event
  eq_head : Nat
  eq_tail : Nat
  eq_count : Nat
  calls : List (Nat × eai_input_event × Nat)

/-- Assignment to one element of an array. -/
def store {α : Type} (a : Nat → α) (i : Nat) (v : α) : Nat → α :=
  fun j => if j = i then v else a j

/-- A zeroed device entry. -/
def zero_device : eai_input_device :=
  { id := 0, name := [], type := 0, x_min := 0, x_max := 0, y_min := 0, y_max := 0 }

/-- A zeroed event. -/
def zero_event : eai_input_event :=
  { device_id := 0, type := 0, x := 0, y := 0, code := 0, timestamp_ms := 0 }

/-- The state at program start: zeroed static variables. -/
def input_boot : InputState :=
  { initialized := false
    devices := fun _ => zero_device
    device_count := 0
    event_callback := none
    event_user_data := 0
    event_queue := fun _ => zero_event
    eq_head := 0
    eq_tail := 0
    eq_count := 0
    calls := [] }

/-- The function `setup_default_devices`. -/
def setup_default_devices (st : InputState) : InputState :=
  { st with
    device_count := 3
    devices :=
      store
        (store
          (store st.devices 0
            { id := 0, name := ['t', 'o', 'u', 'c', 'h'], type := EAI_INPUT_DEVICE_TOUCH,
              x_min := 0, x_max := 319, y_min := 0, y_max := 239 })
          1
          { id := 1, name := ['b', 't', 'n', '_', 'a'], type := EAI_INPUT_DEVICE_BUTTON,
            x_min := 0, x_max := 0, y_min := 0, y_max := 0 })
        2
        { id := 2, name := ['b', 't', 'n', '_', 'b'], type := EAI_INPUT_DEVICE_BUTTON,
          x_min := 0, x_max := 0, y_min := 0, y_max := 0 } }

/-- The function `eai_input_init`. -/
def eai_input_init (st : InputState) (callback : Option Nat) (user_data : Nat) :
    Int × InputState :=
  let s1 : InputState :=
    { st with
      eq_head := 0
      eq_tail := 0
      eq_count := 0
      event_callback := callback
      event_user_data := user_data }
  (0, { setup_default_devices s1 with initialized := true })

/-- The function `eai_input_deinit`. -/
def eai_input_deinit (st : InputState) : Int × InputState :=
  if !st.initialized then (-EINVAL, st)
  else (0, { st with event_callback := none, event_user_data := 0, initialized := false })

/-- The function `eai_input_get_device_count`. -/
def eai_input_get_device_count (st : InputState) : Int :=
  if !st.initialized then -EINVAL else (st.device_count : Int)

/-- The function `eai_input_get_device`; `dev` tells whether the output
pointer is not NULL; the second component is the entry stored there. -/
def eai_input_get_device (st : InputState) (index : Nat) (dev : Bool) :
    Int × Option eai_input_device :=
  if !st.initialized ∨ !dev then (-EINVAL, none)
  else if index ≥ st.device_count then (-EINVAL, none)
  else (0, some (st.devices index))

/-- The function `eai_input_find_device`; `dev` tells whether the output
pointer is not NULL; the second component is the entry stored there. -/
def eai_input_find_device (st : InputState) (type : Nat) (dev : Bool) :
    Int × Option eai_input_device :=
  if !st.initialized ∨ !dev then (-EINVAL, none)
  else
    match (List.range st.device_count).find? (fun i => decide ((st.devices i).type = type)) with
    | some i => (0, some (st.devices i))
    | none => (-ENODEV, none)

/-- The function `eai_input_read`; the last component is the content of the
caller's structure afterwards. -/
def eai_input_read (st : InputState) (event : Option eai_input_event) (_timeout_ms : Nat) :
    Int × InputState × Option eai_input_event :=
  match event with
  | none => (-EINVAL, st, none)
  | some out =>
    if !st.initialized then (-EINVAL, st, some out)
    else if st.eq_count = 0 then (-EAGAIN, st, some out)
    else
      (0,
       { st with
         eq_tail := (st.eq_tail + 1) % EVENT_QUEUE_MAX
         eq_count := st.eq_count - 1 },
       some (st.event_queue st.eq_tail))

/-- The function `eai_input_test_inject_event`. -/
def eai_input_test_inject_event (st : InputState) (event : Option eai_input_event) :
    InputState :=
  match event with
  | none => st
  | some e =>
    match (if st.initialized then st.event_callback else none) with
    | some cb => { st with calls := st.calls ++ [(cb, e, st.event_user_data)] }
    | none =>
      if st.eq_count ≥ EVENT_QUEUE_MAX then st
      else
        { st with
          event_queue := store st.event_queue st.eq_head e
          eq_head := (st.eq_head + 1) % EVENT_QUEUE_MAX
          eq_count := (st.eq_count + 1) % U32 }

/-- The function `eai_input_test_reset`. -/
def eai_input_test_reset (st : InputState) : InputState :=
  { st with
    initialized := false
    device_count := 0
    event_callback := none
    event_user_data := 0
    eq_head := 0
    eq_tail := 0
    eq_count := 0 }

/-! ## Descriptions and scenarios used in the statements -/

/-- The pending events, oldest first: the `eq_count` entries of the ring from
`eq_tail` on. -/
def pending (st : InputState) : List eai_input_event :=
  (List.range st.eq_count).map (fun k => st.event_queue ((st.eq_tail + k) % EVENT_QUEUE_MAX))

/-- Polling mode: the module is initialised without a callback. -/
def polling (st : InputState) : Prop :=
  st.initialized = true ∧ st.event_callback = none

/-- The invariant of the event ring. -/
def QueueInv (st : InputState) : Prop :=
  st.eq_count ≤ EVENT_QUEUE_MAX ∧
  st.eq_head = (st.eq_tail + st.eq_count) % EVENT_QUEUE_MAX ∧
  st.eq_tail < EVENT_QUEUE_MAX

/-- States reachable from program start through the functions of the module. -/
inductive Reachable : InputState → Prop
  | boot : Reachable input_boot
  | init (st : InputState) (callback : Option Nat) (user_data : Nat) :
      Reachable st → Reachable (eai_input_init st callback user_data).2
  | deinit (st : InputState) : Reachable st → Reachable (eai_input_deinit st).2
  | read (st : InputState) (event : Option eai_input_event) (timeout_ms : Nat) :
      Reachable st → Reachable (eai_input_read st event timeout_ms).2.1
  | inject (st : InputState) (event : Option eai_input_event) :
      Reachable st → Reachable (eai_input_test_inject_event st event)
  | reset (st : InputState) : Reachable st → Reachable (eai_input_test_reset st)

/-- The state after the events of a list have been injected in order. -/
def inject_all (st : InputState) : List eai_input_event → InputState
  | [] => st
  | e :: rest => inject_all (eai_input_test_inject_event st (some e)) rest

/-- The return values and output structures of `n` successive
`eai_input_read` calls into a structure holding `out`, and the state after
them. -/
def read_n (out : eai_input_event) :
    Nat → InputState → List (Int × Option eai_input_event) × InputState
  | 0, st => ([], st)
  | n + 1, st =>
    let r := eai_input_read st (some out) 0
    let rest := read_n out n r.2.1
    ((r.1, r.2.2) :: rest.1, rest.2)

/-- State after `eai_input_init(NULL, NULL)` at program start. -/
def st_polling : InputState := (eai_input_init input_boot none 0).2

/-- The press event of `test_read_injected_button`. -/
def ev_press : eai_input_event :=
  { device_id := 1, type := EAI_INPUT_EVENT_PRESS, x := 0, y := 0, code := 1,
    timestamp_ms := 2000 }

/-- The release event of `test_read_injected_button`. -/
def ev_release : eai_input_event :=
  { device_id := 1, type := EAI_INPUT_EVENT_RELEASE, x := 0, y := 0, code := 1,
    timestamp_ms := 2100 }

/-- An event numbered by its time stamp. -/
def ev_numbered (n : Nat) : eai_input_event :=
  { device_id := 0, type := EAI_INPUT_EVENT_PRESS, x := 0, y := 0, code := 0,
    timestamp_ms := n }

/-- The polling state with the 64 events numbered 0..63 pending. -/
def st_full : InputState := inject_all st_polling ((List.range 64).map ev_numbered)

end Input

/-! # The crash log (`lib/crash_log/src/crash_log.c`)

The coredump store of the kernel is external: what its query and copy
commands answer is part of the argument of `crash_log_emit`, which returns its
return value and the lines it logs, in order.
-/

namespace CrashLog

/-- Value of `ENOENT` in `errno.h`. -/
def ENOENT : Int := 2

/-- Value of `EIO` in `errno.h`. -/
def EIO : Int := 5

/-- Value of `ENODATA` in `errno.h`. -/
def ENODATA : Int := 61

/-- Value of `COPY_BUF_SZ`. -/
def COPY_BUF_SZ : Nat := 128

/-- Value of `HEX_LINE_SZ`: hex characters per line. -/
def HEX_LINE_SZ : Nat := 64

/-- What one `COREDUMP_CMD_COPY_STORED_DUMP` command answers: its return value
and the content of the copy buffer afterwards. -/
structure CopyAnswer where
  ret : Int
  buf : Nat → Nat

/-- The answers of the coredump store: the results of the queries
`COREDUMP_QUERY_HAS_STORED_DUMP` and `COREDUMP_QUERY_GET_STORED_DUMP_SIZE`, and
of the copy command for a given offset and length. -/
structure CoredumpStore where
  has_stored_dump : Int
  stored_dump_size : Int
  copy : Int → Nat → CopyAnswer

/-- A line handed to `LOG_ERR`: a text, or the message about a failed read
with its two arguments. -/
inductive LogLine where
  | text (s : List Char)
  | read_failed (offset : Int) (ret : Int)
deriving DecidableEq

/-- The text `#CD:BEGIN#`. -/
def cd_begin : List Char := ['#', 'C', 'D', ':', 'B', 'E', 'G', 'I', 'N', '#']

/-- The text `#CD:END#`. -/
def cd_end : List Char := ['#', 'C', 'D', ':', 'E', 'N', 'D', '#']

/-- The text `#CD:` in front of every line of hex characters. -/
def cd_tag : List Char := ['#', 'C', 'D', ':']

/-- The ten decimal digits. -/
def hex_digits : List Char := ['0', '1', '2', '3', '4', '5', '6', '7', '8', '9']

/-- The six lowercase letters of the hex digits. -/
def hex_letters : List Char := ['a', 'b', 'c', 'd', 'e', 'f']

/-- The table `hex[] = "0123456789abcdef"`. -/
def hex : List Char := hex_digits ++ hex_letters

/-- The function `crash_log_has_coredump`. -/
def crash_log_has_coredump (s : CoredumpStore) : Bool :=
  decide (s.has_stored_dump = 1)

/-- The variables the loops of `crash_log_emit` carry: `hex_line` holds the
characters `hex_line[0 .. hex_pos)`, `log` the lines logged so far. -/
structure EmitAcc where
  hex_line : List Char
  log : List LogLine
deriving DecidableEq

/-- The body of the loop over the bytes of the copy buffer for the byte `b`:
two hex characters are appended and a full line is logged. -/
def emit_byte (a : EmitAcc) (b : Nat) : EmitAcc :=
  let line := a.hex_line ++ [hex.getD ((b % 256) >>> 4) '?', hex.getD ((b % 256) &&& 15) '?']
  if line.length ≥ HEX_LINE_SZ then
    { hex_line := [], log := a.log ++ [LogLine.text (cd_tag ++ line)] }
  else { hex_line := line, log := a.log }

/-- The loop `for (int i = 0; i < ret; i++)` over the copy buffer. -/
def emit_bytes (buf : Nat → Nat) : Nat → EmitAcc → EmitAcc
  | 0, a => a
  | i + 1, a => emit_byte (emit_bytes buf i a) (buf i)

/-- The loop `while (size > 0)`; the second component tells whether it was
left by `return -EIO`. Every completed iteration lowers `size` by at least
one, so `fuel = size` iterations are enough. -/
def emit_loop (copy : Int → Nat → CopyAnswer) :
    Nat → Int → Int → Nat → EmitAcc → EmitAcc × Bool
  | 0, _, _, _, a => (a, false)
  | fuel + 1, size, offset, length, a =>
    if size > 0 then
      let length1 := if size < (COPY_BUF_SZ : Int) then size.toNat else length
      let ans := copy offset length1
      if ans.ret ≤ 0 then
        ({ a with log := a.log ++ [LogLine.read_failed offset ans.ret] }, true)
      else
        emit_loop copy fuel (size - ans.ret) (offset + ans.ret) length1
          (emit_bytes ans.buf ans.ret.toNat a)
    else (a, false)

/-- The function `crash_log_emit`. -/
def crash_log_emit (s : CoredumpStore) : Int × List LogLine :=
  if !crash_log_has_coredump s then (-ENOENT, [])
  else if s.stored_dump_size ≤ 0 then (-ENODATA, [])
  else
    let r := emit_loop s.copy s.stored_dump_size.toNat s.stored_dump_size 0 COPY_BUF_SZ
      { hex_line := [], log := [LogLine.text cd_begin] }
    if r.2 then (- EIO, r.1.log)
    else
      let log1 :=
        if r.1.hex_line.length > 0 then r.1.log ++ [LogLine.text (cd_tag ++ r.1.hex_line)]
        else r.1.log
      (0, log1 ++ [LogLine.text cd_end])

/-- The function `crash_log_clear`; `erase` is the answer of the command
`COREDUMP_CMD_ERASE_STORED_DUMP`. -/
def crash_log_clear (erase : Int) : Int := erase

/-! ## Descriptions used in the statements -/

/-- The hex encoding of a sequence of bytes: for every byte its high and its
low nibble as lowercase hex characters. -/
def hex_encode (bytes : List Nat) : List Char :=
  bytes.flatMap (fun b => [hex.getD (b / 16) '?', hex.getD (b % 16) '?'])

/-- The store holds the dump `dump` and its copy command succeeds: the size
query answers the number of bytes, and a copy of `length` bytes at `offset`
inside the dump returns between 1 and `length` and leaves that many bytes of
the dump, from `offset` on, in the buffer. -/
def holds_dump (s : CoredumpStore) (dump : List Nat) : Prop :=
  s.has_stored_dump = 1 ∧
  s.stored_dump_size = (dump.length : Int) ∧
  (∀ b, b ∈ dump → b < 256) ∧
  (∀ offset length : Nat, 0 < length → offset + length ≤ dump.length →
    1 ≤ (s.copy offset length).ret ∧ (s.copy offset length).ret ≤ (length : Int) ∧
    ∀ i : Nat, (i : Int) < (s.copy offset length).ret →
      (s.copy offset length).buf i = dump.getD (offset + i) 0)

/-- The state after the bytes of a list have gone through the loop body. -/
def feed (a : EmitAcc) (bytes : List Nat) : EmitAcc := bytes.foldl emit_byte a

/-- A store that holds `dump` and copies at most `step` bytes per command. -/
def store_of (dump : List Nat) (step : Nat) : CoredumpStore :=
  { has_stored_dump := 1
    stored_dump_size := (dump.length : Int)
    copy := fun offset length =>
      { ret := ((min length step : Nat) : Int)
        buf := fun i => dump.getD (offset.toNat + i) 0 } }

/-- A dump of 33 bytes: 0xa0, 0xa1, ..., 0xc0. -/
def demo_dump : List Nat := (List.range 33).map (fun i => 160 + i)

end CrashLog

namespace Mixer

/-! ## The scaled sample on the mathematical product -/

/-- The scaled sample `(sample * volume) >> 16` taken on the mathematical
product of the sample and the unsigned volume: the quotient by 65536 rounded
down. -/
def scaled_exact (sample : Int) (volume : Nat) : Int :=
  (sample * (volume : Int)) / 65536

/-- The mathematical product of the sample and the unsigned volume is an
`int32_t` value. -/
def product_fits (sample : Int) (volume : Nat) : Prop :=
  -2147483648 ≤ sample * (volume : Int) ∧ sample * (volume : Int) ≤ 2147483647

instance (sample : Int) (volume : Nat) : Decidable (product_fits sample volume) := by
  unfold product_fits; exact inferInstance

end Mixer

namespace Ipc

/-! ## Scenario of a bound endpoint whose handle holds a second slot -/

/-- The name `y`. -/
def name_y : List Char := ['y']

/-- Endpoint A (handle 1), registered under the name `data`, registered a
second time under the name `y`. -/
def st_a_y : IpcState :=
  (eai_ipc_register_endpoint (some 1) (some (mk_cfg name_y (some 10) (some 11) 100)) st_a).2

/-- Endpoint B (handle 2) registered under the name `data`: it is bound to the
first slot of A. -/
def st_a_y_b : IpcState :=
  (eai_ipc_register_endpoint (some 2) (some (mk_cfg name_data (some 20) (some 21) 200))
    st_a_y).2

/-- The state after the deregistration of A. -/
def st_a_y_b_dereg : IpcState := (eai_ipc_deregister_endpoint (some 1) st_a_y_b).2

end Ipc

/-! # Theorems -/

set_option maxRecDepth 100000

namespace Mixer

/-! ## Lemmas on machine arithmetic -/

theorem cap_eq : RING_CAP_SAMPLES = 4096 := by decide

theorem mod_u32_mod_cap (x : Nat) : x % U32 % RING_CAP_SAMPLES = x % RING_CAP_SAMPLES := by
  rw [cap_eq]; unfold U32; omega

theorem clip_isI16 (x : Int) : isI16 (clip x) := by
  unfold clip isI16; split_ifs <;> omega

theorem toI16_of_isI16 {x : Int} (h : isI16 x) : toI16 x = x := by
  unfold isI16 at h; unfold toI16; omega

theorem toI16_clip (x : Int) : toI16 (clip x) = clip x := toI16_of_isI16 (clip_isI16 x)

theorem clip_of_isI16 {x : Int} (h : isI16 x) : clip x = x := by
  unfold isI16 at h; unfold clip; split_ifs <;> omega

theorem scaled_isI16 (s : Int) (v : Nat) : isI16 (scaled s v) := by
  unfold scaled sar16 wrap32 isI16; omega

theorem scaled_unity {s : Int} (h : isI16 s) : scaled s EAI_AUDIO_MIXER_VOLUME_UNITY = s := by
  unfold isI16 at h
  have h1 : toI32 EAI_AUDIO_MIXER_VOLUME_UNITY = 65536 := by decide
  unfold scaled sar16 wrap32; rw [h1]; omega

theorem scaled_mute (s : Int) : scaled s EAI_AUDIO_MIXER_VOLUME_MUTE = 0 := by
  have h1 : toI32 EAI_AUDIO_MIXER_VOLUME_MUTE = 0 := by decide
  unfold scaled; rw [h1]; simp [wrap32, sar16]

/-! ## Ring buffer lemmas -/

theorem ring_read_spec (s : mixer_slot) (buf : Nat → Int) (n : Nat) (h : s.rd < U32) :
    ring_read s buf n =
      ({ s with rd := (s.rd + n) % U32 },
       fun j => if j < n then s.ring ((s.rd + j) % RING_CAP_SAMPLES) else buf j) := by
  induction n with
  | zero =>
    simp [ring_read, Nat.mod_eq_of_lt h]
  | succ n ih =>
    simp only [ring_read, ih]
    refine Prod.ext ?_ ?_
    · simp only [Nat.mod_add_mod, Nat.add_assoc]
    · funext k
      simp only [store, mod_u32_mod_cap]
      by_cases hk : k = n
      · subst hk; simp
      · by_cases hk2 : k < n
        · have : k < n + 1 := by omega
          simp [hk, hk2, this]
        · have : ¬ k < n + 1 := by omega
          simp [hk, hk2, this]

theorem mix_loop_spec (v : Nat) (sb mb : Nat → Int) (n : Nat) :
    mix_loop v sb mb n =
      fun j => if j < n then clip (mb j + scaled (sb j) v) else mb j := by
  induction n with
  | zero => simp [mix_loop]
  | succ n ih =>
    simp only [mix_loop, ih]
    funext k
    simp only [store, toI16_clip]
    by_cases hk : k = n
    · subst hk; simp
    · by_cases hk2 : k < n
      · have : k < n + 1 := by omega
        simp [hk, hk2, this]
      · have : ¬ k < n + 1 := by omega
        simp [hk, hk2, this]

/-! ## One pass over the slots -/

theorem slot_body_inactive (ps i : Nat) (a : PassAcc) (h : (a.slots i).active = false) :
    slot_body ps i a = a := by
  simp [slot_body, h]

theorem slot_body_active (ps i : Nat) (a : PassAcc) (h : (a.slots i).active = true)
    (hrd : (a.slots i).rd < U32) :
    slot_body ps i a =
      { slots := store a.slots i (drain ps (a.slots i)),
        slot_buf := fun j => if j < ps then stage (a.slots i) j else a.slot_buf j,
        mix_buf := fun j =>
          if j < ps then clip (a.mix_buf j + scaled (stage (a.slots i) j) (a.slots i).volume)
          else a.mix_buf j,
        any_active := true } := by
  have hc : ring_count (a.slots i) < U32 := Nat.mod_lt _ (by decide)
  simp only [slot_body, h, Bool.not_true, Bool.false_eq_true, if_false]
  by_cases hu : ring_count (a.slots i) < ps
  · by_cases h0 : ring_count (a.slots i) > 0
    · simp only [hu, h0, if_true]
      rw [ring_read_spec _ _ _ (by simpa using hrd)]
      simp only [mix_loop_spec, drain, hu, if_true, stage, memset0, h]
      congr 1
      · funext j
        split_ifs <;> first | rfl | (exfalso; omega)
      · funext j
        split_ifs <;> rfl
    · have h00 : ring_count (a.slots i) = 0 := by omega
      have hps : 0 < ps := by omega
      simp only [hu, h0, if_true, if_false]
      simp only [mix_loop_spec, drain, stage, memset0, h00, hps, if_true, Nat.add_zero,
        Nat.mod_eq_of_lt hrd, Nat.not_lt_zero, if_false, h]
      congr 1
      funext j
      split_ifs <;> rfl
  · simp only [hu, if_false]
    rw [ring_read_spec _ _ _ hrd]
    simp only [mix_loop_spec, drain, hu, if_false, stage]
    congr 1
    · funext j
      split_ifs <;> first | rfl | (exfalso; omega)
    · funext j
      split_ifs <;> first | rfl | (exfalso; omega)

theorem slot_loop_spec (ps : Nat) (a : PassAcc) (ht : ∀ i, (a.slots i).rd < U32) (n : Nat) :
    (slot_loop ps n a).slots =
        (fun i => if i < n ∧ (a.slots i).active = true then drain ps (a.slots i) else a.slots i) ∧
    (slot_loop ps n a).mix_buf =
        (fun j => if j < ps then mix_upto a.slots j (a.mix_buf j) n else a.mix_buf j) ∧
    (slot_loop ps n a).any_active = (a.any_active || any_upto a.slots n) := by
  induction n with
  | zero =>
    refine ⟨?_, ?_, ?_⟩
    · funext i; simp [slot_loop]
    · funext j; simp [slot_loop, mix_upto]
    · simp [slot_loop, any_upto]
  | succ n ih =>
    obtain ⟨ih1, ih2, ih3⟩ := ih
    have hn : (slot_loop ps n a).slots n = a.slots n := by
      rw [ih1]; simp
    by_cases hact : (a.slots n).active = true
    · have hact2 : ((slot_loop ps n a).slots n).active = true := by rw [hn]; exact hact
      have hrd : ((slot_loop ps n a).slots n).rd < U32 := by rw [hn]; exact ht n
      simp only [slot_loop]
      rw [slot_body_active ps n _ hact2 hrd]
      simp only [hn, ih1, ih2]
      refine ⟨?_, ?_, ?_⟩
      · funext i
        simp only [store]
        by_cases hi : i = n
        · subst hi; simp [hact]
        · by_cases hi2 : i < n
          · have : i < n + 1 := by omega
            simp [hi, hi2, this]
          · have : ¬ i < n + 1 := by omega
            simp [hi, hi2, this]
      · funext j
        by_cases hj : j < ps
        · simp [hj, mix_upto, hact]
        · simp [hj]
      · simp [any_upto, hact]
    · have hact2 : ((slot_loop ps n a).slots n).active = false := by
        rw [hn]; simpa using hact
      simp only [slot_loop]
      rw [slot_body_inactive ps n _ hact2]
      refine ⟨?_, ?_, ?_⟩
      · rw [ih1]
        funext i
        by_cases hi : i = n
        · subst hi; simp [hact]
        · by_cases hi2 : i < n
          · have : i < n + 1 := by omega
            simp [hi2, this]
          · have : ¬ i < n + 1 := by omega
            simp [hi2, this]
      · rw [ih2]
        funext j
        by_cases hj : j < ps
        · simp [hj, mix_upto, hact]
        · simp [hj]
      · rw [ih3]; simp [any_upto, hact]

theorem mixer_pass_slots (st : MixerState) (ht : ∀ i, (st.slots i).rd < U32) (i : Nat) :
    (mixer_pass st).slots i =
      if i < EAI_AUDIO_MIXER_MAX_SLOTS ∧ (st.slots i).active = true
      then drain (period_samples st.config) (st.slots i) else st.slots i := by
  simp only [mixer_pass]
  rw [(slot_loop_spec _ _ ht _).1]

theorem mixer_pass_mix_buf (st : MixerState) (ht : ∀ i, (st.slots i).rd < U32) (j : Nat)
    (hj : j < period_samples st.config) :
    (mixer_pass st).mix_buf j = mix_upto st.slots j 0 EAI_AUDIO_MIXER_MAX_SLOTS := by
  simp only [mixer_pass]
  rw [(slot_loop_spec _ _ ht _).2.1]
  simp [hj, memset0]

theorem mixer_pass_hw_out (st : MixerState) (ht : ∀ i, (st.slots i).rd < U32) :
    (mixer_pass st).hw_out =
      if any_upto st.slots EAI_AUDIO_MIXER_MAX_SLOTS && st.config.hw_write then
        st.hw_out ++ [(List.range (period_samples st.config)).map
          (fun j => mix_upto st.slots j 0 EAI_AUDIO_MIXER_MAX_SLOTS)]
      else st.hw_out := by
  simp only [mixer_pass]
  rw [(slot_loop_spec _ _ ht _).2.2, (slot_loop_spec _ _ ht _).2.1]
  simp only [Bool.false_or]
  split_ifs
  · congr 2
    apply List.map_congr_left
    intro j hj
    simp [List.mem_range.mp hj, memset0]
  · rfl

/-! ## The accumulation with a clip after every slot -/

theorem mix_upto_eq_clip_fold (slots : Nat → mixer_slot) (j n : Nat) :
    mix_upto slots j 0 n =
      clip_fold (fun i => (slots i).active)
        (fun i => scaled (stage (slots i) j) (slots i).volume) n := by
  induction n with
  | zero => rfl
  | succ n ih => simp only [mix_upto, clip_fold, ih]

theorem clip_fold_congr (act : Nat → Bool) (x y : Nat → Int) (n : Nat)
    (h : ∀ i, i < n → act i = true → x i = y i) :
    clip_fold act x n = clip_fold act y n := by
  induction n with
  | zero => rfl
  | succ n ih =>
    have ih2 := ih (fun i hi => h i (by omega))
    simp only [clip_fold, ih2]
    by_cases ha : act n = true
    · simp [ha, h n (by omega) ha]
    · simp [ha]

theorem sum_upto_congr (act : Nat → Bool) (x y : Nat → Int) (n : Nat)
    (h : ∀ i, i < n → act i = true → x i = y i) :
    sum_upto act x n = sum_upto act y n := by
  induction n with
  | zero => rfl
  | succ n ih =>
    have ih2 := ih (fun i hi => h i (by omega))
    simp only [sum_upto, ih2]
    by_cases ha : act n = true
    · simp [ha, h n (by omega) ha]
    · simp [ha]

theorem clip_fold_isI16 (act : Nat → Bool) (x : Nat → Int) (n : Nat) :
    isI16 (clip_fold act x n) := by
  induction n with
  | zero => simp [clip_fold, isI16]
  | succ n ih =>
    simp only [clip_fold]
    split_ifs
    · exact clip_isI16 _
    · exact ih

theorem clip_fold_le_two (act : Nat → Bool) (x : Nat → Int) (hx : ∀ i, isI16 (x i))
    (h : count_upto act 4 ≤ 2) :
    clip_fold act x 4 = clip (sum_upto act x 4) := by
  have h0 := hx 0
  have h1 := hx 1
  have h2 := hx 2
  have h3 := hx 3
  simp only [isI16] at h0 h1 h2 h3
  simp only [clip_fold, sum_upto, count_upto] at h ⊢
  generalize act 0 = a0 at h ⊢
  generalize act 1 = a1 at h ⊢
  generalize act 2 = a2 at h ⊢
  generalize act 3 = a3 at h ⊢
  cases a0 <;> cases a1 <;> cases a2 <;> cases a3 <;>
    simp at h ⊢ <;> (unfold clip; split_ifs <;> omega)

theorem stage_eq_sample (ps : Nat) (s : mixer_slot) (j : Nat) (hj : j < ps)
    (hfull : ps ≤ ring_count s) : stage s j = slot_sample s j := by
  have : j < ring_count s := by omega
  simp [stage, slot_sample, this]

/-! ## Ring write -/

theorem ring_write_fields (s : mixer_slot) (d : Nat → Int) (n : Nat) (h : s.wr < U32) :
    (ring_write s d n).wr = (s.wr + n) % U32 ∧ (ring_write s d n).rd = s.rd ∧
    (ring_write s d n).volume = s.volume ∧ (ring_write s d n).underruns = s.underruns ∧
    (ring_write s d n).active = s.active := by
  induction n with
  | zero => simp [ring_write, Nat.mod_eq_of_lt h]
  | succ n ih =>
    obtain ⟨h1, h2, h3, h4, h5⟩ := ih
    simp only [ring_write, h1, h2, h3, h4, h5, Nat.mod_add_mod, Nat.add_assoc, and_self]

theorem ring_write_ring_new (s : mixer_slot) (d : Nat → Int) (n : Nat) (h : s.wr < U32)
    (hn : n ≤ RING_CAP_SAMPLES) (i : Nat) (hi : i < n) :
    (ring_write s d n).ring ((s.wr + i) % RING_CAP_SAMPLES) = d i := by
  induction n with
  | zero => omega
  | succ n ih =>
    simp only [ring_write, store, (ring_write_fields s d n h).1, mod_u32_mod_cap]
    by_cases hin : i = n
    · subst hin; simp
    · have hne : (s.wr + i) % RING_CAP_SAMPLES ≠ (s.wr + n) % RING_CAP_SAMPLES := by
        rw [cap_eq] at hn ⊢; omega
      simp only [hne, if_false]
      exact ih (by omega) (by omega)

theorem ring_write_ring_old (s : mixer_slot) (d : Nat → Int) (n : Nat) (h : s.wr < U32)
    (k : Nat) (hk : ∀ i, i < n → k ≠ (s.wr + i) % RING_CAP_SAMPLES) :
    (ring_write s d n).ring k = s.ring k := by
  induction n with
  | zero => rfl
  | succ n ih =>
    simp only [ring_write, store, (ring_write_fields s d n h).1, mod_u32_mod_cap]
    have hne : k ≠ (s.wr + n) % RING_CAP_SAMPLES := hk n (by omega)
    simp only [hne, if_false]
    exact ih (fun i hi => hk i (by omega))

/-! ## The producer call -/

theorem write_arith (c frames count : Nat) (hc : c = 1 ∨ c = 2) (hcount : count ≤ 4096)
    (hov : frames * c < 4294967296) :
    ((if (frames * c) % 4294967296 < (4096 + 4294967296 - count) % 4294967296
        then (frames * c) % 4294967296 else (4096 + 4294967296 - count) % 4294967296) / c * c)
        % 4294967296 = min frames ((4096 - count) / c) * c := by
  rcases hc with rfl | rfl
  · split_ifs <;> omega
  · split_ifs <;> omega

theorem write_spec (st : MixerState) (slot : Nat) (d : Nat → Int) (frames : Nat)
    (hinit : st.initialized = true) (hslot : slot < EAI_AUDIO_MIXER_MAX_SLOTS)
    (hact : (st.slots slot).active = true) (hf : 0 < frames)
    (hc : st.config.channels = 1 ∨ st.config.channels = 2)
    (hcount : ring_count (st.slots slot) ≤ RING_CAP_SAMPLES)
    (hov : frames * st.config.channels < U32) :
    eai_audio_mixer_write slot (some d) frames st =
      (((min frames ((RING_CAP_SAMPLES - ring_count (st.slots slot)) / st.config.channels) : Nat) : Int),
       { st with
          slots := store st.slots slot
            (ring_write (st.slots slot) d
              (min frames ((RING_CAP_SAMPLES - ring_count (st.slots slot)) / st.config.channels)
                * st.config.channels)) }) := by
  have hcpos : 0 < st.config.channels := by omega
  have hf0 : frames ≠ 0 := by omega
  have hs : ¬ slot ≥ EAI_AUDIO_MIXER_MAX_SLOTS := by omega
  rw [cap_eq] at hcount
  have ha := write_arith st.config.channels frames (ring_count (st.slots slot)) hc hcount
    (by simpa [U32] using hov)
  simp only [eai_audio_mixer_write, hinit, hact, hf0, hs, Bool.not_true, Bool.false_eq_true,
    or_self, if_false, ring_space, cap_eq, U32] at ha ⊢
  rw [ha]
  simp only [Nat.mul_div_cancel _ hcpos]
  congr 2
  split_ifs with h0
  · rfl
  · have : min frames ((4096 - ring_count (st.slots slot)) / st.config.channels) * st.config.channels = 0 := by
      omega
    rw [this]; rfl

/-! ## Invariant of the module state -/

theorem slot_ok_ring_write (s : mixer_slot) (d : Nat → Int) (n : Nat) (h : slot_ok s)
    (hn : n ≤ RING_CAP_SAMPLES - ring_count s) : slot_ok (ring_write s d n) := by
  obtain ⟨h1, h2, h3⟩ := h
  obtain ⟨f1, f2, _, _, _⟩ := ring_write_fields s d n h1
  unfold slot_ok ring_count at *
  rw [f1, f2]
  rw [cap_eq] at *
  unfold U32 at *
  omega

theorem slot_ok_drain (ps : Nat) (s : mixer_slot) (h : slot_ok s) : slot_ok (drain ps s) := by
  obtain ⟨h1, h2, h3⟩ := h
  unfold drain
  split_ifs with hu
  · unfold slot_ok ring_count at *
    simp only
    rw [cap_eq] at *
    unfold U32 at *
    omega
  · unfold slot_ok ring_count at *
    simp only
    rw [cap_eq] at *
    unfold U32 at *
    omega

theorem mixer_pass_config (st : MixerState) : (mixer_pass st).config = st.config := rfl

theorem mixer_pass_initialized (st : MixerState) :
    (mixer_pass st).initialized = st.initialized := rfl

theorem Inv_pass (st : MixerState) (h : Inv st) : Inv (mixer_pass st) := by
  obtain ⟨h1, h2, h3⟩ := h
  refine ⟨h1, h2, fun i => ?_⟩
  rw [mixer_pass_slots st (fun i => (h3 i).2.1)]
  split_ifs
  · exact slot_ok_drain _ _ (h3 i)
  · exact h3 i

theorem Inv_init (c : eai_audio_mixer_config) (osal : OsalResults) (st0 : MixerState)
    (h : (eai_audio_mixer_init (some c) osal st0).1 = 0) :
    Inv (eai_audio_mixer_init (some c) osal st0).2 := by
  simp only [eai_audio_mixer_init] at h ⊢
  split_ifs at h ⊢ <;> simp at h
  refine ⟨rfl, ?_, fun i => ?_⟩
  · simp only [config_ok, EAI_AUDIO_MIXER_MAX_PERIOD_FRAMES, EAI_AUDIO_MIXER_MAX_CHANNELS] at *
    simp_all
    omega
  · simp [slot_ok, zero_slot, ring_count, U32, cap_eq]

theorem Inv_slot_open (slot_ptr : Bool) (st : MixerState) (h : Inv st) :
    Inv (eai_audio_mixer_slot_open slot_ptr st).2.2 := by
  obtain ⟨h1, h2, h3⟩ := h
  simp only [eai_audio_mixer_slot_open]
  split_ifs
  · exact ⟨h1, h2, h3⟩
  · cases slot_open_loop st.slots 0 EAI_AUDIO_MIXER_MAX_SLOTS with
    | none => exact ⟨h1, h2, h3⟩
    | some k =>
      refine ⟨h1, h2, fun i => ?_⟩
      simp only [store]
      split_ifs
      · simp [slot_ok, ring_count, U32, cap_eq]
      · exact h3 i

theorem Inv_slot_close (slot : Nat) (st : MixerState) (h : Inv st) :
    Inv (eai_audio_mixer_slot_close slot st).2 := by
  obtain ⟨h1, h2, h3⟩ := h
  simp only [eai_audio_mixer_slot_close]
  split_ifs
  · exact ⟨h1, h2, h3⟩
  · refine ⟨h1, h2, fun i => ?_⟩
    simp only [store]
    split_ifs
    · simp [slot_ok, ring_count, U32, cap_eq]
    · exact h3 i

theorem Inv_set_volume (slot v : Nat) (st : MixerState) (h : Inv st) :
    Inv (eai_audio_mixer_set_volume slot v st).2 := by
  obtain ⟨h1, h2, h3⟩ := h
  simp only [eai_audio_mixer_set_volume]
  split_ifs
  · exact ⟨h1, h2, h3⟩
  · refine ⟨h1, h2, fun i => ?_⟩
    simp only [store]
    split_ifs with hi
    · subst hi; exact h3 i
    · exact h3 i

theorem write_state (slot : Nat) (d : Nat → Int) (frames : Nat) (st : MixerState)
    (hinit : st.initialized = true) (hf : frames ≠ 0) (hslot : slot < EAI_AUDIO_MIXER_MAX_SLOTS)
    (hact : (st.slots slot).active = true) :
    eai_audio_mixer_write slot (some d) frames st =
      (((to_write_of st.config (st.slots slot) frames / st.config.channels : Nat) : Int),
       { st with
          slots := store st.slots slot
            (ring_write (st.slots slot) d (to_write_of st.config (st.slots slot) frames)) }) := by
  have hs : ¬ slot ≥ EAI_AUDIO_MIXER_MAX_SLOTS := by omega
  simp only [eai_audio_mixer_write, hinit, hact, hf, hs, Bool.not_true, Bool.false_eq_true,
    or_self, if_false]
  congr 2
  by_cases h0 : to_write_of st.config (st.slots slot) frames > 0
  · have h0' := h0
    unfold to_write_of at h0'
    rw [if_pos h0']; rfl
  · have h0' := h0
    unfold to_write_of at h0'
    rw [if_neg h0']
    have : to_write_of st.config (st.slots slot) frames = 0 := by omega
    rw [this]; rfl

theorem write_state_rejected (slot : Nat) (data : Option (Nat → Int)) (frames : Nat)
    (st : MixerState)
    (h : data = none ∨ st.initialized = false ∨ frames = 0 ∨
      slot ≥ EAI_AUDIO_MIXER_MAX_SLOTS ∨ (st.slots slot).active = false) :
    eai_audio_mixer_write slot data frames st = (-1, st) := by
  cases data with
  | none => rfl
  | some d =>
    simp only [eai_audio_mixer_write]
    rcases h with h | h | h | h | h
    · cases h
    · simp [h]
    · simp [h]
    · simp [h]
    · simp [h]

theorem ring_space_eq (s : mixer_slot) (h : ring_count s ≤ RING_CAP_SAMPLES) :
    ring_space s = RING_CAP_SAMPLES - ring_count s := by
  unfold ring_space
  rw [cap_eq] at *
  unfold U32
  omega

theorem to_write_of_le (c : eai_audio_mixer_config) (s : mixer_slot) (frames : Nat) :
    to_write_of c s frames ≤ ring_space s := by
  unfold to_write_of
  refine le_trans (Nat.mod_le _ _) (le_trans (Nat.div_mul_le_self _ _) ?_)
  split_ifs <;> omega

theorem Inv_write (slot : Nat) (data : Option (Nat → Int)) (frames : Nat) (st : MixerState)
    (h : Inv st) : Inv (eai_audio_mixer_write slot data frames st).2 := by
  by_cases hrej : data = none ∨ st.initialized = false ∨ frames = 0 ∨
      slot ≥ EAI_AUDIO_MIXER_MAX_SLOTS ∨ (st.slots slot).active = false
  · rw [write_state_rejected slot data frames st hrej]; exact h
  · obtain ⟨h1, h2, h3⟩ := h
    simp only [not_or] at hrej
    obtain ⟨g0, _, g2, g3, g4⟩ := hrej
    cases data with
    | none => exact absurd rfl g0
    | some d =>
      rw [write_state slot d frames st h1 g2 (by omega) (by simpa using g4)]
      refine ⟨h1, h2, fun i => ?_⟩
      simp only [store]
      split_ifs with hi
      · subst hi
        apply slot_ok_ring_write _ _ _ (h3 i)
        rw [← ring_space_eq _ (h3 i).2.2]
        exact to_write_of_le _ _ _
      · exact h3 i

theorem Inv_of_reachable (st : MixerState) (h : Reachable st) : Inv st := by
  induction h with
  | init c osal st0 _ h0 => exact Inv_init c osal st0 h0
  | slot_open p st _ ih => exact Inv_slot_open p st ih
  | slot_close k st _ ih => exact Inv_slot_close k st ih
  | write k d f st _ _ ih => exact Inv_write k d f st ih
  | set_volume k v st _ _ ih => exact Inv_set_volume k v st ih
  | pass st _ ih => exact Inv_pass st ih

/-! ## Sums over one or two active slots -/

theorem sum_count_none (act : Nat → Bool) (x : Nat → Int) (n : Nat)
    (h : ∀ i, i < n → act i = false) : sum_upto act x n = 0 ∧ count_upto act n = 0 := by
  induction n with
  | zero => exact ⟨rfl, rfl⟩
  | succ n ih =>
    obtain ⟨i1, i2⟩ := ih (fun i hi => h i (by omega))
    simp [sum_upto, count_upto, i1, i2, h n (by omega)]

theorem sum_count_single (act : Nat → Bool) (x : Nat → Int) (n p : Nat) (hp : p < n)
    (hact : act p = true) (h : ∀ i, i < n → i ≠ p → act i = false) :
    sum_upto act x n = x p ∧ count_upto act n = 1 := by
  induction n with
  | zero => omega
  | succ n ih =>
    by_cases hpn : p = n
    · subst hpn
      obtain ⟨i1, i2⟩ := sum_count_none act x p (fun i hi => h i (by omega) (by omega))
      simp [sum_upto, count_upto, i1, i2, hact]
    · obtain ⟨i1, i2⟩ := ih (by omega) (fun i hi hne => h i (by omega) hne)
      have hn : act n = false := h n (by omega) (fun e => hpn e.symm)
      simp [sum_upto, count_upto, i1, i2, hn]

theorem sum_count_pair (act : Nat → Bool) (x : Nat → Int) (n p q : Nat) (hpq : p < q)
    (hq : q < n) (hp_act : act p = true) (hq_act : act q = true)
    (h : ∀ i, i < n → i ≠ p → i ≠ q → act i = false) :
    sum_upto act x n = x p + x q ∧ count_upto act n = 2 := by
  induction n with
  | zero => omega
  | succ n ih =>
    by_cases hqn : q = n
    · subst hqn
      obtain ⟨i1, i2⟩ := sum_count_single act x q p hpq hp_act
        (fun i hi hne => h i (by omega) hne (by omega))
      simp [sum_upto, count_upto, i1, i2, hq_act]
    · obtain ⟨i1, i2⟩ := ih (by omega) (fun i hi h1 h2 => h i (by omega) h1 h2)
      have hn : act n = false := h n (by omega) (by omega) (fun e => hqn e.symm)
      simp [sum_upto, count_upto, i1, i2, hn]

theorem Inv.typed {st : MixerState} (h : Inv st) : counters_typed st :=
  fun i => ⟨(h.2.2 i).1, (h.2.2 i).2.1⟩

/-- Output sample `j` of one pass, in terms of what each slot stages. -/
theorem pass_output (st : MixerState) (ht : counters_typed st) (j : Nat)
    (hj : j < period_samples st.config) :
    (mixer_pass st).mix_buf j =
      clip_fold (fun i => (st.slots i).active)
        (fun i => scaled (stage (st.slots i) j) (st.slots i).volume)
        EAI_AUDIO_MIXER_MAX_SLOTS := by
  rw [mixer_pass_mix_buf st (fun i => (ht i).2) j hj, mix_upto_eq_clip_fold]

/-- Output sample `j` of one pass when every active slot holds a full period. -/
theorem pass_output_full (st : MixerState) (ht : counters_typed st)
    (hfull : ∀ i, i < EAI_AUDIO_MIXER_MAX_SLOTS → (st.slots i).active = true →
      period_samples st.config ≤ ring_count (st.slots i))
    (j : Nat) (hj : j < period_samples st.config) :
    (mixer_pass st).mix_buf j =
      clip_fold (fun i => (st.slots i).active)
        (fun i => scaled (slot_sample (st.slots i) j) (st.slots i).volume)
        EAI_AUDIO_MIXER_MAX_SLOTS := by
  rw [pass_output st ht j hj]
  apply clip_fold_congr
  intro i hi hact
  simp only [stage_eq_sample _ _ j hj (hfull i hi hact)]

/-- Output sample `j` of one pass when `p` is the only active slot. -/
theorem pass_output_single (st : MixerState) (ht : counters_typed st) (p : Nat)
    (hp : p < EAI_AUDIO_MIXER_MAX_SLOTS) (hact : (st.slots p).active = true)
    (hothers : ∀ i, i < EAI_AUDIO_MIXER_MAX_SLOTS → i ≠ p → (st.slots i).active = false)
    (j : Nat) (hj : j < period_samples st.config) :
    (mixer_pass st).mix_buf j = scaled (stage (st.slots p) j) (st.slots p).volume := by
  rw [pass_output st ht j hj]
  obtain ⟨h1, h2⟩ := sum_count_single (fun i => (st.slots i).active)
    (fun i => scaled (stage (st.slots i) j) (st.slots i).volume) EAI_AUDIO_MIXER_MAX_SLOTS p hp
    hact hothers
  have h4 : EAI_AUDIO_MIXER_MAX_SLOTS = 4 := rfl
  rw [h4] at h1 h2 ⊢
  rw [clip_fold_le_two _ _ (fun i => scaled_isI16 _ _) (by omega), h1]
  exact clip_of_isI16 (scaled_isI16 _ _)

/-! ## Concrete scenarios (the set-up of `mixer_tests.c`) -/

theorem reachable_st_init : Reachable st_init :=
  Reachable.init mono_config osal_ok mixer_zero rfl (by decide)

theorem reachable_st_open1 : Reachable st_open1 := Reachable.slot_open true _ reachable_st_init

theorem reachable_st_open2 : Reachable st_open2 := Reachable.slot_open true _ reachable_st_open1

theorem reachable_st_open3 : Reachable st_open3 := Reachable.slot_open true _ reachable_st_open2

theorem reachable_st_three : Reachable st_three :=
  Reachable.write _ _ _ _ (by decide) (Reachable.write _ _ _ _ (by decide)
    (Reachable.write _ _ _ _ (by decide) reachable_st_open3))

theorem reachable_st_two (a b : Int) : Reachable (st_two a b) :=
  Reachable.write _ _ _ _ (by decide) (Reachable.write _ _ _ _ (by decide) reachable_st_open2)

theorem reachable_st_one (a : Int) (v : Nat) (hv : v < U32) : Reachable (st_one a v) :=
  Reachable.write _ _ _ _ (by decide) (Reachable.set_volume _ _ _ hv reachable_st_open1)

/-! ## C1: the mix of all active slots -/

/-- The conversion to `int32_t` changes a value by a multiple of 2^32. -/
theorem toI32_congr (x : Nat) : ∃ m : Int, toI32 x = (x : Int) - m * 4294967296 := by
  unfold toI32 U32
  split_ifs
  · exact ⟨((x / 4294967296 : Nat) : Int), by omega⟩
  · exact ⟨((x / 4294967296 : Nat) : Int) + 1, by omega⟩

/-- When the product of sample and volume is an `int32_t` value, the code's
scaled sample is the quotient of the product by 65536, rounded down. -/
theorem scaled_eq_exact (s : Int) (v : Nat) (h : product_fits s v) :
    scaled s v = scaled_exact s v := by
  obtain ⟨m, hm⟩ := toI32_congr v
  unfold scaled scaled_exact sar16 wrap32
  rw [hm]
  have e : s * ((v : Int) - m * 4294967296) + 2147483648 =
      (s * (v : Int) + 2147483648) - (s * m) * 4294967296 := by ring
  rw [e]
  unfold product_fits at h
  generalize s * m = k
  generalize s * (v : Int) = p at h ⊢
  omega

/-- The product of an `int16_t` sample and a volume up to unity is an
`int32_t` value. -/
theorem product_fits_upto_unity (s : Int) (v : Nat) (hs : isI16 s)
    (hv : v ≤ EAI_AUDIO_MIXER_VOLUME_UNITY) : product_fits s v := by
  unfold isI16 at hs
  have hv0 : (0 : Int) ≤ (v : Int) := Int.ofNat_nonneg v
  have hv1 : (v : Int) ≤ 65536 := by
    have : v ≤ 65536 := hv
    omega
  unfold product_fits
  constructor
  · nlinarith [mul_nonneg (by omega : (0 : Int) ≤ s + 32768) hv0,
      mul_nonneg (by omega : (0 : Int) ≤ 32767 - s) hv0]
  · nlinarith [mul_nonneg (by omega : (0 : Int) ≤ s + 32768) hv0,
      mul_nonneg (by omega : (0 : Int) ≤ 32767 - s) hv0]

/-- C1 (as stated) fails: with three active slots at unity that hold one period
of +20000, +20000 and -20000, each active slot holds a full period, the pass
outputs 12767 at sample 0, while the clip of the sum of the three scaled
samples is 20000 (no product of a sample and a volume overflows here). -/
theorem C1_counterexample :
    (∀ i, i < EAI_AUDIO_MIXER_MAX_SLOTS → (st_three.slots i).active = true →
      period_samples st_three.config ≤ ring_count (st_three.slots i)) ∧
    0 < period_samples st_three.config ∧
    (mixer_pass st_three).mix_buf 0 = 12767 ∧
    clip (sum_upto (fun i => (st_three.slots i).active)
      (fun i => scaled (slot_sample (st_three.slots i) 0) (st_three.slots i).volume)
      EAI_AUDIO_MIXER_MAX_SLOTS) = 20000 ∧
    clip (sum_upto (fun i => (st_three.slots i).active)
      (fun i => scaled_exact (slot_sample (st_three.slots i) 0) (st_three.slots i).volume)
      EAI_AUDIO_MIXER_MAX_SLOTS) = 20000 ∧
    (∀ i, i < EAI_AUDIO_MIXER_MAX_SLOTS → (st_three.slots i).active = true →
      product_fits (slot_sample (st_three.slots i) 0) (st_three.slots i).volume) := by
  refine ⟨by decide, by decide, by decide, by decide, by decide, by decide⟩

/-- C1 (amended): in a state where each active slot holds at least one full
period and, at sample index `j` below `period_frames * channels`, the product
`sample_i[j] * volume_i` of every active slot is an `int32_t` value (as it is
for every `int16_t` sample and every volume up to unity), one pass produces at
`j` the value obtained by going through the active slots in index order,
adding `(sample_i[j] * volume_i) >> 16`, taken on the mathematical product,
and clipping to `[-32768, 32767]` after every addition; when at most two slots
are active this is the clip of the sum of these scaled samples. -/
theorem C1_pass_clips_after_each_slot (st : MixerState) (ht : counters_typed st)
    (hfull : ∀ i, i < EAI_AUDIO_MIXER_MAX_SLOTS → (st.slots i).active = true →
      period_samples st.config ≤ ring_count (st.slots i))
    (j : Nat) (hj : j < period_samples st.config)
    (hfit : ∀ i, i < EAI_AUDIO_MIXER_MAX_SLOTS → (st.slots i).active = true →
      product_fits (slot_sample (st.slots i) j) (st.slots i).volume) :
    (mixer_pass st).mix_buf j =
        clip_fold (fun i => (st.slots i).active)
          (fun i => scaled_exact (slot_sample (st.slots i) j) (st.slots i).volume)
          EAI_AUDIO_MIXER_MAX_SLOTS ∧
    (count_upto (fun i => (st.slots i).active) EAI_AUDIO_MIXER_MAX_SLOTS ≤ 2 →
      (mixer_pass st).mix_buf j =
        clip (sum_upto (fun i => (st.slots i).active)
          (fun i => scaled_exact (slot_sample (st.slots i) j) (st.slots i).volume)
          EAI_AUDIO_MIXER_MAX_SLOTS)) ∧
    (∀ (s : Int) (v : Nat), isI16 s → v ≤ EAI_AUDIO_MIXER_VOLUME_UNITY → product_fits s v) := by
  have h := pass_output_full st ht hfull j hj
  have hcf := clip_fold_congr (fun i => (st.slots i).active)
    (fun i => scaled (slot_sample (st.slots i) j) (st.slots i).volume)
    (fun i => scaled_exact (slot_sample (st.slots i) j) (st.slots i).volume)
    EAI_AUDIO_MIXER_MAX_SLOTS (fun i hi hact => scaled_eq_exact _ _ (hfit i hi hact))
  have hsum := sum_upto_congr (fun i => (st.slots i).active)
    (fun i => scaled (slot_sample (st.slots i) j) (st.slots i).volume)
    (fun i => scaled_exact (slot_sample (st.slots i) j) (st.slots i).volume)
    EAI_AUDIO_MIXER_MAX_SLOTS (fun i hi hact => scaled_eq_exact _ _ (hfit i hi hact))
  refine ⟨h.trans hcf, fun hc => ?_, product_fits_upto_unity⟩
  rw [h, ← hsum]
  exact clip_fold_le_two _ _ (fun i => scaled_isI16 _ _) hc

/-- Witness for C1 (amended) at the three-slot state: the per-slot clipping
gives 12767 for +20000, +20000, -20000 at unity. -/
theorem C1_pass_clips_after_each_slot_witness :
    (mixer_pass st_three).mix_buf 0 =
      clip_fold (fun i => (st_three.slots i).active)
        (fun i => scaled_exact (slot_sample (st_three.slots i) 0) (st_three.slots i).volume)
        EAI_AUDIO_MIXER_MAX_SLOTS ∧
    clip_fold (fun i => (st_three.slots i).active)
        (fun i => scaled_exact (slot_sample (st_three.slots i) 0) (st_three.slots i).volume)
        EAI_AUDIO_MIXER_MAX_SLOTS = 12767 :=
  ⟨(C1_pass_clips_after_each_slot st_three (Inv_of_reachable _ reachable_st_three).typed
    (by decide) 0 (by decide) (by decide)).1, by decide⟩

/-- Without the hypothesis on the products the two values differ: with one
active slot that holds one period of +30000 at the volume 0x18000 the product
leaves `int32_t`; the pass outputs -20536 at sample 0, while the clip of the
scaled sample taken on the mathematical product is 32767. -/
theorem pass_overflowing_product :
    ¬ product_fits (slot_sample ((st_one 30000 98304).slots 0) 0)
      ((st_one 30000 98304).slots 0).volume ∧
    (mixer_pass (st_one 30000 98304)).mix_buf 0 = -20536 ∧
    clip (scaled_exact (slot_sample ((st_one 30000 98304).slots 0) 0)
      ((st_one 30000 98304).slots 0).volume) = 32767 := by
  refine ⟨by decide, by decide, by decide⟩

/-! ## C2: two slots at unity -/

/-- C2: with exactly two active slots `p < q`, both at unity volume and both
holding a full period, every output sample of a pass is
`clamp(a[j] + b[j], -32768, 32767)`; two +20000 samples give +32767 and two
-20000 samples give -32768. -/
theorem C2_two_unity_slots (st : MixerState) (ht : counters_typed st) (p q : Nat)
    (hpq : p < q) (hq : q < EAI_AUDIO_MIXER_MAX_SLOTS)
    (hp_act : (st.slots p).active = true) (hq_act : (st.slots q).active = true)
    (hothers : ∀ i, i < EAI_AUDIO_MIXER_MAX_SLOTS → i ≠ p → i ≠ q →
      (st.slots i).active = false)
    (hp_vol : (st.slots p).volume = EAI_AUDIO_MIXER_VOLUME_UNITY)
    (hq_vol : (st.slots q).volume = EAI_AUDIO_MIXER_VOLUME_UNITY)
    (hp_full : period_samples st.config ≤ ring_count (st.slots p))
    (hq_full : period_samples st.config ≤ ring_count (st.slots q))
    (j : Nat) (hj : j < period_samples st.config)
    (ha : isI16 (slot_sample (st.slots p) j)) (hb : isI16 (slot_sample (st.slots q) j)) :
    (mixer_pass st).mix_buf j =
        clip (slot_sample (st.slots p) j + slot_sample (st.slots q) j) ∧
    (slot_sample (st.slots p) j = 20000 → slot_sample (st.slots q) j = 20000 →
      (mixer_pass st).mix_buf j = 32767) ∧
    (slot_sample (st.slots p) j = -20000 → slot_sample (st.slots q) j = -20000 →
      (mixer_pass st).mix_buf j = -32768) := by
  have hmain : (mixer_pass st).mix_buf j =
      clip (slot_sample (st.slots p) j + slot_sample (st.slots q) j) := by
    rw [pass_output st ht j hj]
    obtain ⟨h1, h2⟩ := sum_count_pair (fun i => (st.slots i).active)
      (fun i => scaled (stage (st.slots i) j) (st.slots i).volume)
      EAI_AUDIO_MIXER_MAX_SLOTS p q hpq hq hp_act hq_act hothers
    have h4 : EAI_AUDIO_MIXER_MAX_SLOTS = 4 := rfl
    rw [h4] at h1 h2 ⊢
    rw [clip_fold_le_two _ _ (fun i => scaled_isI16 _ _) (by omega), h1]
    simp only [stage_eq_sample _ _ j hj hp_full, stage_eq_sample _ _ j hj hq_full, hp_vol,
      hq_vol, scaled_unity ha, scaled_unity hb]
  refine ⟨hmain, fun e1 e2 => ?_, fun e1 e2 => ?_⟩
  · rw [hmain, e1, e2]; decide
  · rw [hmain, e1, e2]; decide

/-- Witness for C2: the clipping test, two slots holding +20000. -/
theorem C2_two_unity_slots_witness : (mixer_pass (st_two 20000 20000)).mix_buf 5 = 32767 :=
  (C2_two_unity_slots (st_two 20000 20000) (Inv_of_reachable _ (reachable_st_two _ _)).typed
    0 1 (by decide) (by decide) (by decide) (by decide) (by decide) (by decide) (by decide)
    (by decide) (by decide) 5 (by decide) (by decide) (by decide)).2.1 (by decide) (by decide)

/-! ## C8: unity and mute -/

/-- C8: for every `int16_t` sample `s` the scaled value `(s * volume) >> 16` is
`s` at unity volume and 0 at mute; so when a single slot is active and stages
the sample `s` at index `j`, the pass outputs `s` at unity and 0 at mute. -/
theorem C8_unity_and_mute (s : Int) (hs : isI16 s) :
    scaled s EAI_AUDIO_MIXER_VOLUME_UNITY = s ∧
    scaled s EAI_AUDIO_MIXER_VOLUME_MUTE = 0 ∧
    ∀ (st : MixerState) (p j : Nat), counters_typed st →
      p < EAI_AUDIO_MIXER_MAX_SLOTS → (st.slots p).active = true →
      (∀ i, i < EAI_AUDIO_MIXER_MAX_SLOTS → i ≠ p → (st.slots i).active = false) →
      j < period_samples st.config → stage (st.slots p) j = s →
      ((st.slots p).volume = EAI_AUDIO_MIXER_VOLUME_UNITY → (mixer_pass st).mix_buf j = s) ∧
      ((st.slots p).volume = EAI_AUDIO_MIXER_VOLUME_MUTE → (mixer_pass st).mix_buf j = 0) := by
  refine ⟨scaled_unity hs, scaled_mute s, ?_⟩
  intro st p j ht hp hact hothers hj hst
  rw [pass_output_single st ht p hp hact hothers j hj, hst]
  refine ⟨fun hv => ?_, fun hv => ?_⟩
  · rw [hv]; exact scaled_unity hs
  · rw [hv]; exact scaled_mute s

/-- Witness for C8: one slot holding the constant 10000, at unity and muted. -/
theorem C8_unity_and_mute_witness :
    isI16 10000 ∧ scaled 10000 EAI_AUDIO_MIXER_VOLUME_UNITY = 10000 ∧
    (mixer_pass (st_one 10000 EAI_AUDIO_MIXER_VOLUME_UNITY)).mix_buf 3 = 10000 ∧
    (mixer_pass (st_one 10000 EAI_AUDIO_MIXER_VOLUME_MUTE)).mix_buf 3 = 0 :=
  ⟨by decide, (C8_unity_and_mute 10000 (by decide)).1,
   ((C8_unity_and_mute 10000 (by decide)).2.2 (st_one 10000 EAI_AUDIO_MIXER_VOLUME_UNITY) 0 3
      (Inv_of_reachable _ (reachable_st_one _ _ (by decide))).typed (by decide) (by decide)
      (by decide) (by decide) (by decide)).1 (by decide),
   ((C8_unity_and_mute 10000 (by decide)).2.2 (st_one 10000 EAI_AUDIO_MIXER_VOLUME_MUTE) 0 3
      (Inv_of_reachable _ (reachable_st_one _ _ (by decide))).typed (by decide) (by decide)
      (by decide) (by decide) (by decide)).2 (by decide)⟩

/-! ## C3: write then read is the identity on the sample sequence -/

theorem fresh_stream_write (st0 st : MixerState) (p : Nat) (pre : List Int)
    (d : Nat → Int) (f : Nat) (h : fresh_stream st0 st p pre)
    (hp : p < EAI_AUDIO_MIXER_MAX_SLOTS)
    (hc : st0.config.channels = 1 ∨ st0.config.channels = 2)
    (hlen : pre.length + f * st0.config.channels ≤ RING_CAP_SAMPLES) :
    fresh_stream st0 (eai_audio_mixer_write p (some d) f st).2 p
      (pre ++ (List.range (f * st0.config.channels)).map d) := by
  obtain ⟨h1, h2, h3, h4, h5, h6, h7, h8, h9⟩ := h
  by_cases hf : f = 0
  · subst hf
    rw [write_state_rejected p (some d) 0 st (Or.inr (Or.inr (Or.inl rfl)))]
    simpa using ⟨h1, h2, h3, h4, h5, h6, h7, h8, h9⟩
  · have hcap := cap_eq
    have hwr : (st.slots p).wr < U32 := by rw [h7]; unfold U32; omega
    have hcnt : ring_count (st.slots p) = pre.length := by
      unfold ring_count; rw [h6, h7]; unfold U32; omega
    have hmin : min f ((RING_CAP_SAMPLES - ring_count (st.slots p)) / st.config.channels)
        * st.config.channels = f * st0.config.channels := by
      rw [hcnt, h2]
      have : f ≤ (RING_CAP_SAMPLES - pre.length) / st0.config.channels := by
        rw [Nat.le_div_iff_mul_le (by omega)]; omega
      rw [Nat.min_eq_left this]
    rw [write_spec st p d f h1 hp h5 (by omega) (by rw [h2]; exact hc)
      (by rw [hcnt]; omega) (by rw [h2]; unfold U32; omega), hmin]
    obtain ⟨f1, f2, f3, _, f5⟩ := ring_write_fields (st.slots p) d (f * st0.config.channels) hwr
    refine ⟨h1, h2, h3, ?_, ?_, ?_, ?_, ?_, ?_⟩
    · intro i hi; simp only [store, hi, if_false]; exact h4 i hi
    · simp only [store, if_true]; rw [f5]; exact h5
    · simp only [store, if_true]; rw [f2]; exact h6
    · simp only [store, if_true]
      rw [f1, h7, List.length_append, List.length_map, List.length_range]
      apply Nat.mod_eq_of_lt; unfold U32; omega
    · simp only [store, if_true]; rw [f3]; exact h8
    · intro k hk
      simp only [store, if_true]
      rw [List.length_append, List.length_map, List.length_range] at hk
      by_cases hk2 : k < pre.length
      · rw [List.getD_append _ _ _ _ hk2, ← h9 k hk2]
        apply ring_write_ring_old _ _ _ hwr
        intro i hi
        rw [h7, Nat.mod_eq_of_lt (by omega)]
        omega
      · have hk3 : pre.length ≤ k := by omega
        rw [List.getD_append_right _ _ _ _ hk3]
        have hidx : k - pre.length < (List.map d (List.range (f * st0.config.channels))).length := by
          rw [List.length_map, List.length_range]; omega
        rw [List.getD_eq_getElem _ _ hidx, List.getElem_map, List.getElem_range]
        have := ring_write_ring_new (st.slots p) d (f * st0.config.channels) hwr (by omega)
          (k - pre.length) (by omega)
        rw [h7, Nat.mod_eq_of_lt (by omega)] at this
        have e : pre.length + (k - pre.length) = k := by omega
        rw [e] at this
        exact this

theorem length_written_cons (c : Nat) (w : (Nat → Int) × Nat) (ws : List ((Nat → Int) × Nat)) :
    (written c (w :: ws)).length = w.2 * c + (written c ws).length := by
  simp [written]

theorem fresh_stream_write_all (st0 : MixerState) (p : Nat)
    (hp : p < EAI_AUDIO_MIXER_MAX_SLOTS)
    (hc : st0.config.channels = 1 ∨ st0.config.channels = 2)
    (ws : List ((Nat → Int) × Nat)) :
    ∀ (st : MixerState) (pre : List Int), fresh_stream st0 st p pre →
      pre.length + (written st0.config.channels ws).length ≤ RING_CAP_SAMPLES →
      fresh_stream st0 (write_all p ws st) p (pre ++ written st0.config.channels ws) := by
  induction ws with
  | nil => intro st pre h _; simpa [write_all, written] using h
  | cons w ws ih =>
    intro st pre h hlen
    rw [length_written_cons] at hlen
    have h1 := fresh_stream_write st0 st p pre w.1 w.2 h hp hc (by omega)
    have h2 := ih _ _ h1 (by
      rw [List.length_append, List.length_map, List.length_range]; omega)
    simpa [write_all, written, List.append_assoc] using h2

theorem any_upto_of_active (slots : Nat → mixer_slot) (n p : Nat) (hp : p < n)
    (h : (slots p).active = true) : any_upto slots n = true := by
  induction n with
  | zero => omega
  | succ n ih =>
    by_cases hpn : p = n
    · subst hpn; simp [any_upto, h]
    · simp [any_upto, ih (by omega)]

/-- One pass over a state whose only active slot `p` is at unity volume and
holds a full period of `int16_t` samples. -/
theorem pass_single_full (st : MixerState) (hinv : Inv st) (p : Nat)
    (hp : p < EAI_AUDIO_MIXER_MAX_SLOTS) (hact : (st.slots p).active = true)
    (hothers : ∀ i, i < EAI_AUDIO_MIXER_MAX_SLOTS → i ≠ p → (st.slots i).active = false)
    (hvol : (st.slots p).volume = EAI_AUDIO_MIXER_VOLUME_UNITY)
    (hfull : period_samples st.config ≤ ring_count (st.slots p))
    (hs : ∀ j, j < period_samples st.config → isI16 (slot_sample (st.slots p) j)) :
    (mixer_pass st).slots p =
        { st.slots p with rd := ((st.slots p).rd + period_samples st.config) % U32 } ∧
    (∀ i, i ≠ p → (mixer_pass st).slots i = st.slots i) ∧
    (mixer_pass st).hw_out =
      st.hw_out ++ [(List.range (period_samples st.config)).map (slot_sample (st.slots p))] := by
  have ht := hinv.typed
  have hrd : ∀ i, (st.slots i).rd < U32 := fun i => (ht i).2
  refine ⟨?_, ?_, ?_⟩
  · rw [mixer_pass_slots st hrd p]
    simp only [hp, hact, and_self, if_true, drain]
    rw [if_neg (by omega)]
  · intro i hi
    rw [mixer_pass_slots st hrd i]
    by_cases h4 : i < EAI_AUDIO_MIXER_MAX_SLOTS
    · simp [hothers i h4 hi]
    · simp [h4]
  · rw [mixer_pass_hw_out st hrd, any_upto_of_active _ _ p hp hact, hinv.2.1.1]
    simp only [Bool.and_self, if_true]
    congr 2
    apply List.map_congr_left
    intro j hj
    have hj2 := List.mem_range.mp hj
    rw [← mixer_pass_mix_buf st hrd j hj2, pass_output_single st ht p hp hact hothers j hj2,
      stage_eq_sample _ _ j hj2 hfull, hvol]
    exact scaled_unity (hs j hj2)

theorem Inv_write_all (p : Nat) (ws : List ((Nat → Int) × Nat)) :
    ∀ st, Inv st → Inv (write_all p ws st) := by
  induction ws with
  | nil => intro st h; exact h
  | cons w ws ih => intro st h; exact ih _ (Inv_write _ _ _ _ h)

theorem Inv_passes (n : Nat) (st : MixerState) (h : Inv st) : Inv (passes n st) := by
  induction n with
  | zero => exact h
  | succ n ih => exact Inv_pass _ ih

theorem written_isI16 (c : Nat) (ws : List ((Nat → Int) × Nat))
    (hdata : ∀ w, w ∈ ws → ∀ i, i < w.2 * c → isI16 (w.1 i)) :
    ∀ x, x ∈ written c ws → isI16 x := by
  induction ws with
  | nil => intro x hx; simp [written] at hx
  | cons w ws ih =>
    intro x hx
    simp only [written, List.mem_append, List.mem_map, List.mem_range] at hx
    rcases hx with ⟨i, hi, rfl⟩ | hx
    · exact hdata w (List.mem_cons_self _ _) i hi
    · exact ih (fun w' hw' => hdata w' (List.mem_cons_of_mem _ hw')) x hx

/-- After `m` passes over a slot that held the stream `l` from position 0. -/
theorem passes_single_stream (st1 : MixerState) (hinv : Inv st1) (p : Nat)
    (hp : p < EAI_AUDIO_MIXER_MAX_SLOTS) (l : List Int) (hl : ∀ x, x ∈ l → isI16 x)
    (hact : (st1.slots p).active = true)
    (hothers : ∀ i, i < EAI_AUDIO_MIXER_MAX_SLOTS → i ≠ p → (st1.slots i).active = false)
    (hvol : (st1.slots p).volume = EAI_AUDIO_MIXER_VOLUME_UNITY)
    (hrd : (st1.slots p).rd = 0) (hwr : (st1.slots p).wr = l.length)
    (hring : ∀ k, k < l.length → (st1.slots p).ring k = l.getD k 0)
    (hcap : l.length ≤ RING_CAP_SAMPLES) (m : Nat)
    (hm : m * period_samples st1.config ≤ l.length) :
    (passes m st1).config = st1.config ∧
    (∀ i, i ≠ p → (passes m st1).slots i = st1.slots i) ∧
    (passes m st1).slots p =
        { st1.slots p with rd := m * period_samples st1.config } ∧
    (passes m st1).hw_out =
        st1.hw_out ++ (List.range m).map (chunk l (period_samples st1.config)) := by
  induction m with
  | zero =>
    refine ⟨rfl, fun i _ => rfl, ?_, ?_⟩
    · simp only [passes, Nat.zero_mul]; rw [← hrd]
    · simp [passes]
  | succ m ih =>
    have hm' : m * period_samples st1.config + period_samples st1.config ≤ l.length := by
      rw [← Nat.succ_mul]; exact hm
    obtain ⟨i1, i2, i3, i4⟩ := ih (by omega)
    have hcap' := cap_eq
    have hI := Inv_passes m st1 hinv
    have hcnt : ring_count ((passes m st1).slots p) =
        l.length - m * period_samples st1.config := by
      rw [i3]; unfold ring_count; simp only [hwr]; unfold U32; omega
    have hsample : ∀ j, j < period_samples st1.config →
        slot_sample ((passes m st1).slots p) j =
          l.getD (m * period_samples st1.config + j) 0 := by
      intro j hj
      rw [i3]; unfold slot_sample; simp only
      rw [Nat.mod_eq_of_lt (by omega)]
      exact hring _ (by omega)
    obtain ⟨r1, r2, r3⟩ := pass_single_full (passes m st1) hI p hp (by rw [i3]; exact hact)
      (fun i h4 hi => by rw [i2 i hi]; exact hothers i h4 hi) (by rw [i3]; exact hvol)
      (by rw [i1, hcnt]; omega)
      (fun j hj => by
        rw [i1] at hj
        rw [hsample j hj]
        apply hl
        rw [List.getD_eq_getElem _ _ (by omega)]
        exact List.getElem_mem _)
    refine ⟨?_, ?_, ?_, ?_⟩
    · simp only [passes, mixer_pass_config]; exact i1
    · intro i hi; simp only [passes]; rw [r2 i hi]; exact i2 i hi
    · simp only [passes]; rw [r1, i1, i3]; simp only
      rw [Nat.succ_mul, Nat.mod_eq_of_lt (by unfold U32; omega)]
    · simp only [passes]; rw [r3, i4, i1, List.range_succ, List.map_append, List.append_assoc]
      congr 2
      simp only [List.map_cons, List.map_nil, chunk]
      congr 1
      apply List.map_congr_left
      intro j hj
      exact hsample j (List.mem_range.mp hj)

/-- C3: for a freshly opened slot `p` at unity volume, all other slots inactive,
and any sequence of `eai_audio_mixer_write` calls of `int16_t` data whose total
is `k` whole periods and at most the ring capacity, `k` successive passes hand
`hw_write` exactly the written samples, in write order, one period per pass. -/
theorem C3_write_then_read_identity (st0 : MixerState) (hinv : Inv st0) (p : Nat)
    (hp : p < EAI_AUDIO_MIXER_MAX_SLOTS)
    (hact : (st0.slots p).active = true)
    (hwr : (st0.slots p).wr = 0) (hrd : (st0.slots p).rd = 0)
    (hvol : (st0.slots p).volume = EAI_AUDIO_MIXER_VOLUME_UNITY)
    (hothers : ∀ i, i < EAI_AUDIO_MIXER_MAX_SLOTS → i ≠ p → (st0.slots i).active = false)
    (ws : List ((Nat → Int) × Nat))
    (hdata : ∀ w, w ∈ ws → ∀ i, i < w.2 * st0.config.channels → isI16 (w.1 i))
    (k : Nat)
    (htotal : (written st0.config.channels ws).length = k * period_samples st0.config)
    (hcap : (written st0.config.channels ws).length ≤ RING_CAP_SAMPLES) :
    (passes k (write_all p ws st0)).hw_out =
      st0.hw_out ++ (List.range k).map
        (chunk (written st0.config.channels ws) (period_samples st0.config)) := by
  have hc : st0.config.channels = 1 ∨ st0.config.channels = 2 := by
    have := hinv.2.1
    simp only [config_ok, EAI_AUDIO_MIXER_MAX_CHANNELS] at this
    omega
  have h0 : fresh_stream st0 st0 p [] :=
    ⟨hinv.1, rfl, rfl, fun _ _ => rfl, hact, hrd, by simpa using hwr, hvol,
      fun k hk => by simp at hk⟩
  have h1 := fresh_stream_write_all st0 p hp hc ws st0 [] h0 (by simpa using hcap)
  simp only [List.nil_append] at h1
  obtain ⟨_, g2, g3, g4, g5, g6, g7, g8, g9⟩ := h1
  have h2 := passes_single_stream (write_all p ws st0) (Inv_write_all p ws st0 hinv) p hp
    (written st0.config.channels ws) (written_isI16 _ _ hdata) g5
    (fun i h4 hi => by rw [g4 i hi]; exact hothers i h4 hi) g8 g6 g7 g9 hcap k
    (by rw [g2, htotal])
  rw [h2.2.2.2, g2, g3]

theorem demo_writes_isI16 :
    ∀ w, w ∈ demo_writes → ∀ i, i < w.2 * st_open1.config.channels → isI16 (w.1 i) := by
  have hc : st_open1.config.channels = 1 := by decide
  intro w hw i hi
  rw [hc] at hi
  simp only [demo_writes, List.mem_cons, List.mem_singleton, List.not_mem_nil, or_false] at hw
  rcases hw with rfl | rfl | rfl
  · simp only [ramp_data, isI16] at hi ⊢; omega
  · simp only [const_data, isI16]; omega
  · simp only [ramp_data, isI16] at hi ⊢; omega

/-- Witness for C3: three writes making up two periods, then two passes. -/
theorem C3_write_then_read_identity_witness :
    (passes 2 (write_all 0 demo_writes st_open1)).hw_out =
      st_open1.hw_out ++ (List.range 2).map
        (chunk (written st_open1.config.channels demo_writes)
          (period_samples st_open1.config)) :=
  C3_write_then_read_identity st_open1 (Inv_of_reachable _ reachable_st_open1) 0 (by decide)
    (by decide) (by decide) (by decide) (by decide) (by decide) demo_writes demo_writes_isI16 2
    (by decide) (by decide)

/-! ## C4: the producer call -/

theorem reachable_st_stereo_open : Reachable st_stereo_open :=
  Reachable.slot_open true _ (Reachable.init stereo_config osal_ok mixer_zero rfl (by decide))

/-- The contract of `eai_audio_mixer_write` when `frames * channels` fits in a
`uint32_t`: the call returns `min(frames, free / channels)`, appends the first
`returned * channels` samples of the data after the write position, advances the
write counter by that amount and leaves the read counter, the volume, the
underrun counter and all other ring cells unchanged. -/
theorem write_contract_no_overflow (st : MixerState) (hinv : Inv st) (slot : Nat)
    (d : Nat → Int) (frames : Nat) (hslot : slot < EAI_AUDIO_MIXER_MAX_SLOTS)
    (hact : (st.slots slot).active = true) (hf : 0 < frames)
    (hov : frames * st.config.channels < U32) :
    let n := min frames ((RING_CAP_SAMPLES - ring_count (st.slots slot)) / st.config.channels)
    let r := eai_audio_mixer_write slot (some d) frames st
    r.1 = (n : Int) ∧
    (∀ i, i < n * st.config.channels →
      (r.2.slots slot).ring (((st.slots slot).wr + i) % RING_CAP_SAMPLES) = d i) ∧
    (∀ k, (∀ i, i < n * st.config.channels → k ≠ ((st.slots slot).wr + i) % RING_CAP_SAMPLES) →
      (r.2.slots slot).ring k = (st.slots slot).ring k) ∧
    (r.2.slots slot).wr = ((st.slots slot).wr + n * st.config.channels) % U32 ∧
    (r.2.slots slot).rd = (st.slots slot).rd ∧
    (r.2.slots slot).volume = (st.slots slot).volume ∧
    (r.2.slots slot).underruns = (st.slots slot).underruns := by
  intro n r
  obtain ⟨h1, h2, h3⟩ := hinv
  have hc : st.config.channels = 1 ∨ st.config.channels = 2 := by
    simp only [config_ok, EAI_AUDIO_MIXER_MAX_CHANNELS] at h2; omega
  have hcpos : 0 < st.config.channels := by omega
  have hr : r = ((n : Int), { st with
      slots := store st.slots slot (ring_write (st.slots slot) d (n * st.config.channels)) }) :=
    write_spec st slot d frames h1 hslot hact hf hc (h3 slot).2.2 hov
  have hwr := (h3 slot).1
  have hn : n * st.config.channels ≤ RING_CAP_SAMPLES := by
    have : n ≤ (RING_CAP_SAMPLES - ring_count (st.slots slot)) / st.config.channels :=
      Nat.min_le_right _ _
    have := (Nat.le_div_iff_mul_le hcpos).mp this
    omega
  obtain ⟨f1, f2, f3, f4, _⟩ := ring_write_fields (st.slots slot) d (n * st.config.channels) hwr
  rw [hr]
  simp only [store, if_true]
  exact ⟨trivial, fun i hi => ring_write_ring_new _ _ _ hwr hn i hi,
    fun k hk => ring_write_ring_old _ _ _ hwr k hk, f1, f2, f3, f4⟩

/-- C4 fails on the code: with 2 channels and `frames = 0x80000000` the product
`frames * channels` wraps to 0 in `uint32_t`, so on an empty ring the call
returns 0 and writes nothing, while `min(frames, free / channels)` is 2048. -/
theorem C4_frames_times_channels_wraps :
    st_stereo_open.initialized = true ∧ (st_stereo_open.slots 0).active = true ∧
    st_stereo_open.config.channels = 2 ∧
    (eai_audio_mixer_write 0 (some (const_data 1000)) 2147483648 st_stereo_open).1 = 0 ∧
    ((eai_audio_mixer_write 0 (some (const_data 1000)) 2147483648 st_stereo_open).2.slots 0).wr
      = (st_stereo_open.slots 0).wr ∧
    min 2147483648 ((RING_CAP_SAMPLES - ring_count (st_stereo_open.slots 0)) /
      st_stereo_open.config.channels) = 2048 := by
  refine ⟨by decide, by decide, by decide, by decide, by decide, by decide⟩

/-! ## C5: the counters of a slot -/

theorem reachable_wrap_run (n : Nat) : Reachable (wrap_run n) := by
  induction n with
  | zero => exact Reachable.write _ _ _ _ (by decide) reachable_st_stereo_open
  | succ n ih => exact Reachable.pass _ (Reachable.write _ _ _ _ (by decide) ih)

theorem write_config (slot : Nat) (data : Option (Nat → Int)) (frames : Nat) (st : MixerState) :
    (eai_audio_mixer_write slot data frames st).2.config = st.config := by
  cases data with
  | none => rfl
  | some d =>
    simp only [eai_audio_mixer_write]
    split_ifs <;> rfl

/-- Writing one period of 1024 stereo frames into slot 0 when at most one
period is buffered. -/
theorem write_full_period (st : MixerState) (hI : Inv st) (hcfg : st.config = stereo_config)
    (hact : (st.slots 0).active = true) (hcnt : ring_count (st.slots 0) ≤ 2048) :
    (eai_audio_mixer_write 0 (some (const_data 0)) 1024 st).2.config = stereo_config ∧
    ((eai_audio_mixer_write 0 (some (const_data 0)) 1024 st).2.slots 0).active = true ∧
    ((eai_audio_mixer_write 0 (some (const_data 0)) 1024 st).2.slots 0).rd = (st.slots 0).rd ∧
    ((eai_audio_mixer_write 0 (some (const_data 0)) 1024 st).2.slots 0).wr =
      ((st.slots 0).wr + 2048) % U32 := by
  have hch : st.config.channels = 2 := by rw [hcfg]; rfl
  have hw := write_spec st 0 (const_data 0) 1024 hI.1 (by decide) hact (by decide)
    (Or.inr hch) (by rw [cap_eq]; omega) (by rw [hch]; decide)
  have hmin : min 1024 ((RING_CAP_SAMPLES - ring_count (st.slots 0)) / st.config.channels)
      * st.config.channels = 2048 := by
    rw [hch, cap_eq]; omega
  rw [hmin] at hw
  obtain ⟨f1, f2, _, _, f5⟩ := ring_write_fields (st.slots 0) (const_data 0) 2048 (hI.2.2 0).1
  rw [hw]
  simp only [store, if_true]
  exact ⟨hcfg, by rw [f5]; exact hact, f2, f1⟩

theorem wrap_run_counters (n : Nat) (hn : n ≤ 2097151) :
    (wrap_run n).config = stereo_config ∧ ((wrap_run n).slots 0).active = true ∧
    ((wrap_run n).slots 0).rd = 2048 * n ∧
    ((wrap_run n).slots 0).wr = (2048 * (n + 1)) % 4294967296 := by
  induction n with
  | zero =>
    have hI := Inv_of_reachable _ reachable_st_stereo_open
    obtain ⟨w1, w2, w3, w4⟩ := write_full_period st_stereo_open hI rfl (by decide)
      (by decide)
    have hrun : wrap_run 0 =
        (eai_audio_mixer_write 0 (some (const_data 0)) 1024 st_stereo_open).2 := rfl
    rw [hrun]
    refine ⟨w1, w2, ?_, ?_⟩
    · rw [w3]; decide
    · rw [w4]; decide
  | succ n ih =>
    obtain ⟨i1, i2, i3, i4⟩ := ih (by omega)
    have hI := Inv_of_reachable _ (reachable_wrap_run n)
    have hcnt : ring_count ((wrap_run n).slots 0) = 2048 := by
      unfold ring_count U32; rw [i3, i4]; omega
    obtain ⟨w1, w2, w3, w4⟩ := write_full_period (wrap_run n) hI i1 i2 (by omega)
    have hI2 : Inv (eai_audio_mixer_write 0 (some (const_data 0)) 1024 (wrap_run n)).2 :=
      Inv_write _ _ _ _ hI
    have hps : period_samples
        (eai_audio_mixer_write 0 (some (const_data 0)) 1024 (wrap_run n)).2.config = 2048 := by
      rw [w1]; decide
    have hslot := mixer_pass_slots
      (eai_audio_mixer_write 0 (some (const_data 0)) 1024 (wrap_run n)).2
      (fun i => (hI2.2.2 i).2.1) 0
    rw [hps] at hslot
    have hcnt2 : ring_count
        ((eai_audio_mixer_write 0 (some (const_data 0)) 1024 (wrap_run n)).2.slots 0) = 4096 := by
      unfold ring_count; rw [w3, w4, i3, i4]; unfold U32; omega
    simp only [w2, drain, hcnt2, and_true, show (0 : Nat) < EAI_AUDIO_MIXER_MAX_SLOTS by decide,
      if_true, show ¬ (4096 < 2048) by decide, if_false] at hslot
    have hrun : wrap_run (n + 1) =
        mixer_pass (eai_audio_mixer_write 0 (some (const_data 0)) 1024 (wrap_run n)).2 := rfl
    rw [hrun]
    refine ⟨?_, ?_, ?_, ?_⟩
    · rw [mixer_pass_config, w1]
    · rw [hslot]
    · rw [hslot]; simp only; rw [w3, i3]; unfold U32; omega
    · rw [hslot]; simp only; rw [w4, i4]; unfold U32; omega

/-- C5 (as stated) fails: after a slot has taken `2^32` samples (one period
written, then `2^21 - 1` rounds of write-one-period and pass on a stereo mixer)
the `uint32_t` write counter has wrapped to 0 while the read counter is
`2^32 - 2048`: the state is reachable and `write >= read` does not hold. -/
theorem C5_counterexample :
    Reachable (wrap_run 2097151) ∧
    ((wrap_run 2097151).slots 0).wr = 0 ∧
    ((wrap_run 2097151).slots 0).rd = 4294965248 ∧
    ¬ (((wrap_run 2097151).slots 0).wr ≥ ((wrap_run 2097151).slots 0).rd) := by
  obtain ⟨_, _, h3, h4⟩ := wrap_run_counters 2097151 (le_refl _)
  have hwr : ((wrap_run 2097151).slots 0).wr = 0 := by rw [h4]
  have hrd : ((wrap_run 2097151).slots 0).rd = 4294965248 := by rw [h3]
  refine ⟨reachable_wrap_run _, hwr, hrd, ?_⟩
  intro hge
  rw [hwr, hrd] at hge
  omega

/-- C5 (amended): in every state reachable from `eai_audio_mixer_init` through
`slot_open`, `slot_close`, `write`, `set_volume` and mixer passes, every slot's
buffered count `write - read`, computed in `uint32_t` arithmetic, is at most
the ring capacity of `2 * 1024 * 2 = 4096` samples; that is, either
`write >= read` and `write - read <= 4096`, or the write counter has wrapped
and `write + 2^32 - read <= 4096`. -/
theorem C5_count_within_capacity (st : MixerState) (h : Reachable st) (i : Nat) :
    RING_CAP_SAMPLES = 4096 ∧
    ring_count (st.slots i) ≤ RING_CAP_SAMPLES ∧
    (((st.slots i).rd ≤ (st.slots i).wr ∧
        (st.slots i).wr - (st.slots i).rd ≤ RING_CAP_SAMPLES) ∨
      ((st.slots i).wr < (st.slots i).rd ∧
        (st.slots i).wr + U32 - (st.slots i).rd ≤ RING_CAP_SAMPLES)) := by
  obtain ⟨h1, h2, h3⟩ := (Inv_of_reachable st h).2.2 i
  refine ⟨cap_eq, h3, ?_⟩
  unfold ring_count at h3
  rw [cap_eq] at *
  unfold U32 at *
  omega

/-- Witness for C5 (amended) at the wrapped state. -/
theorem C5_count_within_capacity_witness :
    ring_count ((wrap_run 2097151).slots 0) ≤ RING_CAP_SAMPLES :=
  (C5_count_within_capacity (wrap_run 2097151) (reachable_wrap_run 2097151) 0).2.1

/-! ## C6: what one pass does to each slot -/

/-- C6: in one pass over a state with `uint32_t` counters, for every slot
`i < EAI_AUDIO_MIXER_MAX_SLOTS`:
* an active slot holding fewer than one period has its underrun counter
  incremented by one (`uint32_t` increment), its read counter becomes equal to
  its write counter, and nothing else of it changes;
* an active slot holding at least one period has its read counter advanced by
  exactly one period, so that its buffered count drops by one period, and its
  underrun counter and everything else unchanged;
* an inactive slot is not modified;
and every output sample `j` is the clipped accumulation over the active slots
of the scaled staged sample, where a slot stages its available samples followed
by silence. -/
theorem C6_pass_per_slot (st : MixerState) (ht : counters_typed st) (i : Nat)
    (hi : i < EAI_AUDIO_MIXER_MAX_SLOTS) :
    ((st.slots i).active = true → ring_count (st.slots i) < period_samples st.config →
      ((mixer_pass st).slots i).underruns = ((st.slots i).underruns + 1) % U32 ∧
      ((mixer_pass st).slots i).rd = (st.slots i).wr ∧
      ring_count ((mixer_pass st).slots i) = 0 ∧
      ((mixer_pass st).slots i).wr = (st.slots i).wr ∧
      ((mixer_pass st).slots i).ring = (st.slots i).ring ∧
      ((mixer_pass st).slots i).volume = (st.slots i).volume ∧
      ((mixer_pass st).slots i).active = true) ∧
    ((st.slots i).active = true → period_samples st.config ≤ ring_count (st.slots i) →
      ((mixer_pass st).slots i).underruns = (st.slots i).underruns ∧
      ((mixer_pass st).slots i).rd = ((st.slots i).rd + period_samples st.config) % U32 ∧
      ring_count ((mixer_pass st).slots i) =
        ring_count (st.slots i) - period_samples st.config ∧
      ((mixer_pass st).slots i).wr = (st.slots i).wr ∧
      ((mixer_pass st).slots i).ring = (st.slots i).ring ∧
      ((mixer_pass st).slots i).volume = (st.slots i).volume ∧
      ((mixer_pass st).slots i).active = true) ∧
    ((st.slots i).active = false → (mixer_pass st).slots i = st.slots i) ∧
    (∀ j, j < period_samples st.config →
      (mixer_pass st).mix_buf j =
        clip_fold (fun k => (st.slots k).active)
          (fun k => scaled
            (if j < ring_count (st.slots k) then slot_sample (st.slots k) j else 0)
            (st.slots k).volume)
          EAI_AUDIO_MIXER_MAX_SLOTS) := by
  have hrd : ∀ k, (st.slots k).rd < U32 := fun k => (ht k).2
  have hs := mixer_pass_slots st hrd i
  obtain ⟨hw, hr⟩ := ht i
  refine ⟨fun hact hu => ?_, fun hact hfull => ?_, fun hin => ?_, fun j hj => ?_⟩
  · simp only [hi, hact, and_self, if_true, drain, hu] at hs
    rw [hs]
    have hrd2 : ((st.slots i).rd + ring_count (st.slots i)) % U32 = (st.slots i).wr := by
      unfold ring_count U32; unfold U32 at hw hr; omega
    refine ⟨rfl, hrd2, ?_, rfl, rfl, rfl, rfl⟩
    unfold ring_count U32; simp only; unfold U32 at hw hr; omega
  · have hnu : ¬ ring_count (st.slots i) < period_samples st.config := by omega
    simp only [hi, hact, and_self, if_true, drain, hnu, if_false] at hs
    rw [hs]
    refine ⟨rfl, rfl, ?_, rfl, rfl, rfl, rfl⟩
    unfold ring_count at hfull ⊢; simp only
    unfold U32 at *; omega
  · simp only [hin, Bool.false_eq_true, and_false, if_false] at hs
    exact hs
  · exact pass_output st ht j hj

/-- Witness for C6: the set-up of `test_mixer_underrun`, 10 frames written into
a slot of a mixer whose period is 64 frames. -/
theorem C6_pass_per_slot_witness :
    ((mixer_pass (eai_audio_mixer_write 0 (some (const_data 1000)) 10 st_open1).2).slots
      0).underruns = 1 :=
  ((C6_pass_per_slot (eai_audio_mixer_write 0 (some (const_data 1000)) 10 st_open1).2
    (Inv_of_reachable _ (Reachable.write _ _ _ _ (by decide) reachable_st_open1)).typed
    0 (by decide)).1 (by decide) (by decide)).1

/-! ## C7: the two-stream scenario -/

theorem passes_succ_pass (n : Nat) (st : MixerState) :
    passes (n + 1) st = passes n (mixer_pass st) := by
  induction n with
  | zero => rfl
  | succ n ih => simp only [passes] at ih ⊢; rw [ih]

/-- Passes over a state in which slot `i` is active and empty: every pass
counts one underrun for it. -/
theorem passes_empty_slot (st : MixerState) (hinv : Inv st) (i : Nat)
    (hi : i < EAI_AUDIO_MIXER_MAX_SLOTS) (hact : (st.slots i).active = true)
    (hempty : ring_count (st.slots i) = 0) (hps : 0 < period_samples st.config) (n : Nat)
    (hn : (st.slots i).underruns + n < U32) :
    ((passes n st).slots i).active = true ∧ ring_count ((passes n st).slots i) = 0 ∧
    (passes n st).config = st.config ∧
    ((passes n st).slots i).underruns = (st.slots i).underruns + n := by
  induction n with
  | zero => exact ⟨hact, hempty, rfl, rfl⟩
  | succ n ih =>
    obtain ⟨i1, i2, i3, i4⟩ := ih (by omega)
    have hI := Inv_passes n st hinv
    have hrd : ∀ k, ((passes n st).slots k).rd < U32 := fun k => (hI.typed k).2
    have hs := mixer_pass_slots (passes n st) hrd i
    have hu : ring_count ((passes n st).slots i) < period_samples (passes n st).config := by
      rw [i2, i3]; exact hps
    have hr := (hI.typed i).2
    have hrd2 : ((passes n st).slots i).rd + ring_count ((passes n st).slots i)
        = ((passes n st).slots i).rd := by rw [i2]; rfl
    simp only [hi, i1, and_self, if_true, drain, hu, hrd2, Nat.mod_eq_of_lt hr] at hs
    simp only [passes]
    rw [hs]
    refine ⟨rfl, ?_, ?_, ?_⟩
    · exact i2
    · rw [mixer_pass_config]; exact i3
    · simp only; rw [i4]; apply Nat.mod_eq_of_lt; omega

/-- C7 (as stated) fails: the period is 4 ms, so passes recur during the 50 ms
wait; the first pass drains both slots without underrun, and already after the
second pass the underrun counters of both slots are 1, not 0. -/
theorem C7_counterexample :
    period_ms (st_two 1000 2000).config = some 4 ∧
    eai_audio_mixer_get_underruns 0 (passes 1 (st_two 1000 2000)) = 0 ∧
    eai_audio_mixer_get_underruns 1 (passes 1 (st_two 1000 2000)) = 0 ∧
    eai_audio_mixer_get_underruns 0 (passes 2 (st_two 1000 2000)) = 1 ∧
    eai_audio_mixer_get_underruns 1 (passes 2 (st_two 1000 2000)) = 1 := by
  refine ⟨by decide, by decide, by decide, by decide, by decide⟩

/-- C7 (amended): with the mixer initialized at 16 kHz, 1 channel, 64 frames
per period and two freshly opened slots each written exactly 64 frames, the
first pass leaves both underrun counters at 0, and every further pass without
new writes finds both slots empty and counts one underrun for each: after
`n >= 1` passes (`n <= 2^32`) both counters are `n - 1`. -/
theorem C7_underruns_after_passes (n : Nat) (h1 : 1 ≤ n) (hn : n ≤ U32) :
    eai_audio_mixer_get_underruns 0 (passes n (st_two 1000 2000)) = n - 1 ∧
    eai_audio_mixer_get_underruns 1 (passes n (st_two 1000 2000)) = n - 1 := by
  obtain ⟨m, rfl⟩ : ∃ m, n = m + 1 := ⟨n - 1, by omega⟩
  have hI : Inv (mixer_pass (st_two 1000 2000)) :=
    Inv_pass _ (Inv_of_reachable _ (reachable_st_two _ _))
  have hI2 := Inv_passes m _ hI
  rw [passes_succ_pass]
  have e0 := passes_empty_slot (mixer_pass (st_two 1000 2000)) hI 0 (by decide) (by decide)
    (by decide) (by decide) m
    (by rw [show ((mixer_pass (st_two 1000 2000)).slots 0).underruns = 0 by decide]; omega)
  have e1 := passes_empty_slot (mixer_pass (st_two 1000 2000)) hI 1 (by decide) (by decide)
    (by decide) (by decide) m
    (by rw [show ((mixer_pass (st_two 1000 2000)).slots 1).underruns = 0 by decide]; omega)
  have u0 : ((mixer_pass (st_two 1000 2000)).slots 0).underruns = 0 := by decide
  have u1 : ((mixer_pass (st_two 1000 2000)).slots 1).underruns = 0 := by decide
  simp only [eai_audio_mixer_get_underruns, hI2.1, Bool.not_true, Bool.false_eq_true,
    false_or, show ¬ (0 ≥ EAI_AUDIO_MIXER_MAX_SLOTS) by decide,
    show ¬ (1 ≥ EAI_AUDIO_MIXER_MAX_SLOTS) by decide, if_false]
  rw [e0.2.2.2, e1.2.2.2, u0, u1]
  omega

/-- Witness for C7 (amended): twelve passes, as fit in the 50 ms wait. -/
theorem C7_underruns_after_passes_witness :
    eai_audio_mixer_get_underruns 0 (passes 12 (st_two 1000 2000)) = 12 - 1 ∧
    eai_audio_mixer_get_underruns 1 (passes 12 (st_two 1000 2000)) = 12 - 1 :=
  C7_underruns_after_passes 12 (by decide) (by decide)

/-! ## C9: volumes above unity -/

/-- C9 fails on the code: `eai_audio_mixer_set_volume` accepts any `uint32_t`,
but the product is formed in `int32_t`. With volume `0xFFFFFFFF` the cast
`(int32_t)volume` is -1 and the sample 1 comes out as -1, where
`clamp(floor(s * v / 65536))` is 32767; with volume `0x20000` (gain 2) the
product of the sample 32767 leaves the `int32_t` range and comes out as -2,
where the clamp of the amplified sample is 32767. -/
theorem C9_volume_above_unity_wraps :
    (eai_audio_mixer_set_volume 0 4294967295 st_open1).1 = 0 ∧
    (mixer_pass (st_one 1 4294967295)).mix_buf 0 = -1 ∧
    clip ((1 * 4294967295 : Int) / 65536) = 32767 ∧
    (eai_audio_mixer_set_volume 0 131072 st_open1).1 = 0 ∧
    (mixer_pass (st_one 32767 131072)).mix_buf 0 = -2 ∧
    clip ((32767 * 131072 : Int) / 65536) = 32767 := by
  refine ⟨by decide, by decide, by decide, by decide, by decide, by decide⟩

/-! ## C10: rejected configurations -/

/-- For every invalid configuration `eai_audio_mixer_init` returns -1 and
leaves the module state as it was. -/
theorem init_invalid (config : Option eai_audio_mixer_config) (osal : OsalResults)
    (st : MixerState) (h : config_invalid config) :
    eai_audio_mixer_init config osal st = (-1, st) := by
  cases config with
  | none => rfl
  | some c =>
    simp only [config_invalid] at h
    simp only [eai_audio_mixer_init]
    rcases h with h | h | h | h | h
    · simp [h]
    · split_ifs <;> first | rfl | (exfalso; omega)
    · split_ifs <;> first | rfl | (exfalso; omega)
    · split_ifs <;> first | rfl | (exfalso; omega)
    · split_ifs <;> first | rfl | (exfalso; omega)

/-- C10 fails on the code: for a NULL configuration (and likewise for a zero or
too large period) `eai_audio_mixer_init` leaves the mixer uninitialized but
returns -1, which is not `-EINVAL` (`EINVAL` is 22). -/
theorem C10_init_returns_minus_one :
    (eai_audio_mixer_init none osal_ok mixer_zero).1 = -1 ∧
    (eai_audio_mixer_init none osal_ok mixer_zero).2.initialized = false ∧
    (eai_audio_mixer_init (some { mono_config with period_frames := 0 }) osal_ok mixer_zero).1
      = -1 ∧
    (eai_audio_mixer_init (some { mono_config with period_frames := 1025 }) osal_ok
      mixer_zero).1 = -1 ∧
    (-1 : Int) ≠ -EINVAL := by
  refine ⟨by decide, by decide, by decide, by decide, by decide⟩

/-! ## C11: opening a slot -/

theorem slot_open_loop_found (slots : Nat → mixer_slot) (n i k : Nat) (hk1 : i ≤ k)
    (hk2 : k < i + n) (hk : (slots k).active = false)
    (hlow : ∀ j, i ≤ j → j < k → (slots j).active = true) :
    slot_open_loop slots i n = some k := by
  induction n generalizing i with
  | zero => omega
  | succ n ih =>
    by_cases hik : i = k
    · subst hik; simp [slot_open_loop, hk]
    · have hi : (slots i).active = true := hlow i (le_refl _) (by omega)
      simp only [slot_open_loop, hi, Bool.not_true, Bool.false_eq_true, if_false]
      exact ih (i + 1) (by omega) (by omega) (fun j h1 h2 => hlow j (by omega) h2)

theorem slot_open_loop_none (slots : Nat → mixer_slot) (n i : Nat)
    (hall : ∀ j, i ≤ j → j < i + n → (slots j).active = true) :
    slot_open_loop slots i n = none := by
  induction n generalizing i with
  | zero => rfl
  | succ n ih =>
    have hi : (slots i).active = true := hall i (le_refl _) (by omega)
    simp only [slot_open_loop, hi, Bool.not_true, Bool.false_eq_true, if_false]
    exact ih (i + 1) (fun j h1 h2 => hall j (by omega) (by omega))

/-- C11: on an initialized mixer `eai_audio_mixer_slot_open` (with a valid out
pointer) claims the lowest-index inactive slot `k`: it returns 0 and stores `k`,
the slot becomes active with write counter, read counter and underrun count 0
and volume unity, and no other slot changes; right after a successful
`eai_audio_mixer_init` that index is 0; when all `EAI_AUDIO_MIXER_MAX_SLOTS`
slots are active it returns `-ENOMEM` and the state is unchanged. -/
theorem C11_slot_open (st : MixerState) (hinit : st.initialized = true) :
    (∀ k, k < EAI_AUDIO_MIXER_MAX_SLOTS → (st.slots k).active = false →
      (∀ i, i < k → (st.slots i).active = true) →
      (eai_audio_mixer_slot_open true st).1 = 0 ∧
      (eai_audio_mixer_slot_open true st).2.1 = some k ∧
      ((eai_audio_mixer_slot_open true st).2.2.slots k).active = true ∧
      ((eai_audio_mixer_slot_open true st).2.2.slots k).wr = 0 ∧
      ((eai_audio_mixer_slot_open true st).2.2.slots k).rd = 0 ∧
      ((eai_audio_mixer_slot_open true st).2.2.slots k).underruns = 0 ∧
      ((eai_audio_mixer_slot_open true st).2.2.slots k).volume = EAI_AUDIO_MIXER_VOLUME_UNITY ∧
      (∀ i, i ≠ k → (eai_audio_mixer_slot_open true st).2.2.slots i = st.slots i)) ∧
    ((∀ i, i < EAI_AUDIO_MIXER_MAX_SLOTS → (st.slots i).active = true) →
      eai_audio_mixer_slot_open true st = (-ENOMEM, none, st)) ∧
    (∀ (c : eai_audio_mixer_config) (osal : OsalResults) (st0 : MixerState),
      (eai_audio_mixer_init (some c) osal st0).1 = 0 →
      (eai_audio_mixer_slot_open true (eai_audio_mixer_init (some c) osal st0).2).1 = 0 ∧
      (eai_audio_mixer_slot_open true (eai_audio_mixer_init (some c) osal st0).2).2.1
        = some 0) := by
  refine ⟨fun k hk hin hlow => ?_, fun hall => ?_, fun c osal st0 h0 => ?_⟩
  · have hf := slot_open_loop_found st.slots EAI_AUDIO_MIXER_MAX_SLOTS 0 k (Nat.zero_le _)
      (by omega) hin (fun j _ h2 => hlow j h2)
    simp only [eai_audio_mixer_slot_open, hinit, Bool.not_true, Bool.false_eq_true, or_self,
      if_false, hf, store, if_true, true_and]
    intro i hi
    simp [hi]
  · have hn := slot_open_loop_none st.slots EAI_AUDIO_MIXER_MAX_SLOTS 0
      (fun j _ h2 => hall j (by omega))
    simp only [eai_audio_mixer_slot_open, hinit, Bool.not_true, Bool.false_eq_true, or_self,
      if_false, hn]
    rfl
  · simp only [eai_audio_mixer_init] at h0 ⊢
    split_ifs at h0 ⊢ <;> simp at h0
    simp [eai_audio_mixer_slot_open, slot_open_loop, zero_slot, EAI_AUDIO_MIXER_MAX_SLOTS]

/-- Witness for C11: the second open on the test mixer claims slot 1. -/
theorem C11_slot_open_witness :
    (eai_audio_mixer_slot_open true st_open1).1 = 0 ∧
    (eai_audio_mixer_slot_open true st_open1).2.1 = some 1 :=
  ⟨((C11_slot_open st_open1 (by decide)).1 1 (by decide) (by decide) (by decide)).1,
   ((C11_slot_open st_open1 (by decide)).1 1 (by decide) (by decide) (by decide)).2.1⟩

end Mixer

namespace Ipc

/-! ## The table scans -/

theorem scan_some (p : Nat → Bool) (n i k : Nat) (h : scan p i n = some k) :
    i ≤ k ∧ k < i + n ∧ p k = true ∧ ∀ j, i ≤ j → j < k → p j = false := by
  induction n generalizing i with
  | zero => simp [scan] at h
  | succ n ih =>
    simp only [scan] at h
    by_cases hp : p i = true
    · simp only [hp, if_true, Option.some.injEq] at h
      subst h
      exact ⟨le_refl _, by omega, hp, fun j h1 h2 => by omega⟩
    · simp only [hp, if_false] at h
      obtain ⟨h1, h2, h3, h4⟩ := ih (i + 1) h
      refine ⟨by omega, by omega, h3, fun j g1 g2 => ?_⟩
      by_cases hj : j = i
      · subst hj; simpa using hp
      · exact h4 j (by omega) g2

theorem scan_none (p : Nat → Bool) (n i : Nat) (h : scan p i n = none) :
    ∀ j, i ≤ j → j < i + n → p j = false := by
  induction n generalizing i with
  | zero => intro j h1 h2; omega
  | succ n ih =>
    simp only [scan] at h
    by_cases hp : p i = true
    · simp [hp] at h
    · simp only [hp, if_false] at h
      intro j h1 h2
      by_cases hj : j = i
      · subst hj; simpa using hp
      · exact ih (i + 1) h j (by omega) (by omega)

theorem scan_found (p : Nat → Bool) (n i k : Nat) (h1 : i ≤ k) (h2 : k < i + n)
    (hk : p k = true) (hlow : ∀ j, i ≤ j → j < k → p j = false) : scan p i n = some k := by
  induction n generalizing i with
  | zero => omega
  | succ n ih =>
    by_cases hik : i = k
    · subst hik; simp [scan, hk]
    · have hi : p i = false := hlow i (le_refl _) (by omega)
      simp only [scan, hi, Bool.false_eq_true, if_false]
      exact ih (i + 1) (by omega) (by omega) (fun j g1 g2 => hlow j (by omega) g2)

theorem scan_not_found (p : Nat → Bool) (n i : Nat)
    (h : ∀ j, i ≤ j → j < i + n → p j = false) : scan p i n = none := by
  induction n generalizing i with
  | zero => rfl
  | succ n ih =>
    have hi : p i = false := h i (le_refl _) (by omega)
    simp only [scan, hi, Bool.false_eq_true, if_false]
    exact ih (i + 1) (fun j g1 g2 => h j (by omega) (by omega))

theorem scan_congr (p q : Nat → Bool) (n i : Nat)
    (h : ∀ j, i ≤ j → j < i + n → p j = q j) : scan p i n = scan q i n := by
  induction n generalizing i with
  | zero => rfl
  | succ n ih =>
    simp only [scan, h i (le_refl _) (by omega)]
    rw [ih (i + 1) (fun j g1 g2 => h j (by omega) (by omega))]

theorem find_slot_lowest (epts : Nat → loopback_ept) (s : Nat) (hs : s < MAX_ENDPOINTS)
    (hin : (epts s).active = false) (hlow : ∀ i, i < s → (epts i).active = true) :
    find_slot epts = some s := by
  unfold find_slot
  apply scan_found _ _ _ _ (Nat.zero_le _) (by omega)
  · simp [hin]
  · intro j _ h2; simp [hlow j h2]

theorem find_slot_some (epts : Nat → loopback_ept) (s : Nat) (h : find_slot epts = some s) :
    s < MAX_ENDPOINTS ∧ (epts s).active = false := by
  obtain ⟨_, h2, h3, _⟩ := scan_some _ _ _ _ h
  exact ⟨by omega, by simpa using h3⟩

theorem find_slot_full (epts : Nat → loopback_ept)
    (h : ∀ i, i < MAX_ENDPOINTS → (epts i).active = true) : find_slot epts = none := by
  unfold find_slot
  apply scan_not_found
  intro j _ h2
  simp [h j (by omega)]

/-- The peer search of a registration into the free slot `s` sees the table as
it was before: it returns the lowest waiting slot of that name. -/
theorem find_unbound_peer_new (epts : Nat → loopback_ept) (s : Nat) (slot : loopback_ept)
    (name : List Char) (hin : (epts s).active = false) :
    find_unbound_peer (set_at epts s slot) name s =
      scan (fun i => (epts i).active && decide ((epts i).peer = none) &&
        decide ((epts i).name = name)) 0 MAX_ENDPOINTS := by
  unfold find_unbound_peer
  apply scan_congr
  intro j _ _
  by_cases hj : j = s
  · subst hj; simp [set_at, hin]
  · simp [set_at, hj]

theorem find_unbound_peer_lowest (epts : Nat → loopback_ept) (s : Nat) (slot : loopback_ept)
    (name : List Char) (hin : (epts s).active = false) (p : Nat) (hp : p < MAX_ENDPOINTS)
    (hw : waiting epts name p) (hlow : ∀ i, i < p → ¬ waiting epts name i) :
    find_unbound_peer (set_at epts s slot) name s = some p := by
  rw [find_unbound_peer_new epts s slot name hin]
  apply scan_found _ _ _ _ (Nat.zero_le _) (by omega)
  · obtain ⟨h1, h2, h3⟩ := hw
    simp [h1, h2, h3]
  · intro j _ h2
    have := hlow j h2
    unfold waiting at this
    by_cases ha : (epts j).active = true
    · by_cases hb : (epts j).peer = none
      · have hc : (epts j).name ≠ name := fun hc => this ⟨ha, hb, hc⟩
        simp [hc]
      · simp [hb]
    · simp [ha]

theorem find_unbound_peer_none (epts : Nat → loopback_ept) (s : Nat) (slot : loopback_ept)
    (name : List Char) (hin : (epts s).active = false)
    (hnone : ∀ i, i < MAX_ENDPOINTS → ¬ waiting epts name i) :
    find_unbound_peer (set_at epts s slot) name s = none := by
  rw [find_unbound_peer_new epts s slot name hin]
  apply scan_not_found
  intro j _ h2
  have := hnone j (by omega)
  unfold waiting at this
  by_cases ha : (epts j).active = true
  · by_cases hb : (epts j).peer = none
    · have hc : (epts j).name ≠ name := fun hc => this ⟨ha, hb, hc⟩
      simp [hc]
    · simp [hb]
  · simp [ha]

theorem find_unbound_peer_some (epts : Nat → loopback_ept) (name : List Char) (self p : Nat)
    (h : find_unbound_peer epts name self = some p) :
    p < MAX_ENDPOINTS ∧ p ≠ self ∧ (epts p).active = true ∧ (epts p).peer = none ∧
      (epts p).name = name := by
  obtain ⟨_, h2, h3, _⟩ := scan_some _ _ _ _ h
  simp only [Bool.and_eq_true, decide_eq_true_eq] at h3
  exact ⟨by omega, h3.1.1.2, h3.1.1.1, h3.1.2, h3.2⟩

theorem find_by_handle_some (epts : Nat → loopback_ept) (h : Option Nat) (s : Nat)
    (hf : find_by_handle epts h = some s) :
    s < MAX_ENDPOINTS ∧ (epts s).active = true ∧ (epts s).handle = h ∧
      ∀ i, i < s → ¬ ((epts i).active = true ∧ (epts i).handle = h) := by
  obtain ⟨_, h2, h3, h4⟩ := scan_some _ _ _ _ hf
  simp only [Bool.and_eq_true, decide_eq_true_eq] at h3
  refine ⟨by omega, h3.1, h3.2, fun i hi hc => ?_⟩
  have := h4 i (Nat.zero_le _) hi
  simp [hc.1, hc.2] at this

theorem find_by_handle_none (epts : Nat → loopback_ept) (h : Option Nat) :
    find_by_handle epts h = none ↔
      ∀ i, i < MAX_ENDPOINTS → ¬ ((epts i).active = true ∧ (epts i).handle = h) := by
  constructor
  · intro hf i hi hc
    have := scan_none _ _ _ hf i (Nat.zero_le _) (by omega)
    simp [hc.1, hc.2] at this
  · intro hall
    unfold find_by_handle
    apply scan_not_found
    intro j _ h2
    have := hall j (by omega)
    by_cases ha : (epts j).active = true
    · have hc : (epts j).handle ≠ h := fun hc => this ⟨ha, hc⟩
      simp [hc]
    · simp [ha]

theorem find_by_handle_lowest (epts : Nat → loopback_ept) (h : Option Nat) (s : Nat)
    (hs : s < MAX_ENDPOINTS) (ha : (epts s).active = true) (hh : (epts s).handle = h)
    (hlow : ∀ i, i < s → ¬ ((epts i).active = true ∧ (epts i).handle = h)) :
    find_by_handle epts h = some s := by
  unfold find_by_handle
  apply scan_found _ _ _ _ (Nat.zero_le _) (by omega)
  · simp [ha, hh]
  · intro j _ h2
    have := hlow j h2
    by_cases ha : (epts j).active = true
    · have hc : (epts j).handle ≠ h := fun hc => this ⟨ha, hc⟩
      simp [hc]
    · simp [ha]


/-! ## Registration -/

theorem set_at_same {α : Type} (a : Nat → α) (i : Nat) (v : α) : set_at a i v i = v := by
  simp [set_at]

theorem set_at_other {α : Type} (a : Nat → α) (i k : Nat) (v : α) (h : k ≠ i) :
    set_at a i v k = a k := by
  simp [set_at, h]

/-- A registration that finds the free slot `s` and the waiting slot `p`. -/
theorem register_paired (st : IpcState) (e : Nat) (c : eai_ipc_ept_cfg) (nm : List Char)
    (s p : Nat) (hname : c.name = some nm) (hne : nm ≠ [])
    (hs : find_slot st.epts = some s)
    (hp : find_unbound_peer (set_at st.epts s (new_slot e c nm))
      (nm.take (EAI_IPC_EPT_NAME_MAX - 1)) s = some p) :
    (eai_ipc_register_endpoint (some e) (some c) st).1 = 0 ∧
    (eai_ipc_register_endpoint (some e) (some c) st).2.epts s =
      { new_slot e c nm with peer := some p } ∧
    (eai_ipc_register_endpoint (some e) (some c) st).2.epts p =
      { st.epts p with peer := some s } ∧
    (∀ i, i ≠ s → i ≠ p →
      (eai_ipc_register_endpoint (some e) (some c) st).2.epts i = st.epts i) ∧
    (eai_ipc_register_endpoint (some e) (some c) st).2.calls =
      fire_bound c.cb.bound c.ctx (fire_bound (st.epts p).cb.bound (st.epts p).ctx st.calls) ∧
    (eai_ipc_register_endpoint (some e) (some c) st).2.initialized = st.initialized := by
  have hps : p ≠ s := (find_unbound_peer_some _ _ _ _ hp).2.1
  have hsp : s ≠ p := fun h => hps h.symm
  have hnm : (set_at st.epts s (new_slot e c nm) s).name = nm.take (EAI_IPC_EPT_NAME_MAX - 1) := by
    rw [set_at_same]; rfl
  have hp2 : find_unbound_peer (set_at st.epts s (new_slot e c nm))
      (set_at st.epts s (new_slot e c nm) s).name s = some p := by rw [hnm]; exact hp
  have hp3 := hp2
  unfold new_slot at hp3
  simp only [eai_ipc_register_endpoint, hname, hne, if_false, hs, hp3]
  refine ⟨trivial, ?_, ?_, ?_, ?_, trivial⟩
  · simp [set_at, hsp, new_slot]
  · simp [set_at, hps]
  · intro i h1 h2; simp [set_at, h1, h2]
  · simp [set_at, hsp, hps]

/-- A registration that finds the free slot `s` and no waiting slot. -/
theorem register_unpaired (st : IpcState) (e : Nat) (c : eai_ipc_ept_cfg) (nm : List Char)
    (s : Nat) (hname : c.name = some nm) (hne : nm ≠ [])
    (hs : find_slot st.epts = some s)
    (hp : find_unbound_peer (set_at st.epts s (new_slot e c nm))
      (nm.take (EAI_IPC_EPT_NAME_MAX - 1)) s = none) :
    (eai_ipc_register_endpoint (some e) (some c) st).1 = 0 ∧
    (eai_ipc_register_endpoint (some e) (some c) st).2.epts s = new_slot e c nm ∧
    (∀ i, i ≠ s → (eai_ipc_register_endpoint (some e) (some c) st).2.epts i = st.epts i) ∧
    (eai_ipc_register_endpoint (some e) (some c) st).2.calls = st.calls ∧
    (eai_ipc_register_endpoint (some e) (some c) st).2.initialized = st.initialized := by
  have hnm : (set_at st.epts s (new_slot e c nm) s).name = nm.take (EAI_IPC_EPT_NAME_MAX - 1) := by
    rw [set_at_same]; rfl
  have hp2 : find_unbound_peer (set_at st.epts s (new_slot e c nm))
      (set_at st.epts s (new_slot e c nm) s).name s = none := by rw [hnm]; exact hp
  have hp3 := hp2
  unfold new_slot at hp3
  simp only [eai_ipc_register_endpoint, hname, hne, if_false, hs, hp3]
  refine ⟨trivial, ?_, ?_, trivial, trivial⟩
  · simp [set_at, new_slot]
  · intro i h1; simp [set_at, h1]

/-- A rejected registration leaves the state as it was. -/
theorem register_rejected (ept : Option Nat) (cfg : Option eai_ipc_ept_cfg) (st : IpcState)
    (h : (eai_ipc_register_endpoint ept cfg st).1 ≠ 0) :
    (eai_ipc_register_endpoint ept cfg st).2 = st := by
  cases ept with
  | none => rfl
  | some e =>
    cases cfg with
    | none => rfl
    | some c =>
      simp only [eai_ipc_register_endpoint] at h ⊢
      cases hn : c.name with
      | none => rfl
      | some nm =>
        simp only [hn] at h ⊢
        by_cases hne : nm = []
        · simp [hne]
        · simp only [hne, if_false] at h ⊢
          cases hs : find_slot st.epts with
          | none => rfl
          | some s =>
            simp only [hs] at h ⊢
            exfalso
            revert h
            split <;> simp


/-! ## The mutual-peer invariant -/

theorem register_cases (ept : Option Nat) (cfg : Option eai_ipc_ept_cfg) (st : IpcState) :
    (eai_ipc_register_endpoint ept cfg st).2 = st ∨
    ∃ e c nm s, ept = some e ∧ cfg = some c ∧ c.name = some nm ∧ nm ≠ [] ∧
      find_slot st.epts = some s ∧
      ((∃ p, find_unbound_peer (set_at st.epts s (new_slot e c nm))
          (nm.take (EAI_IPC_EPT_NAME_MAX - 1)) s = some p) ∨
        find_unbound_peer (set_at st.epts s (new_slot e c nm))
          (nm.take (EAI_IPC_EPT_NAME_MAX - 1)) s = none) := by
  by_cases h : (eai_ipc_register_endpoint ept cfg st).1 ≠ 0
  · exact Or.inl (register_rejected ept cfg st h)
  · right
    cases ept with
    | none => exfalso; apply h; simp [eai_ipc_register_endpoint, EINVAL]
    | some e =>
      cases cfg with
      | none => exfalso; apply h; simp [eai_ipc_register_endpoint, EINVAL]
      | some c =>
        cases hn : c.name with
        | none =>
          exfalso; apply h
          simp only [eai_ipc_register_endpoint, hn]; decide
        | some nm =>
          by_cases hne : nm = []
          · exfalso; apply h
            simp only [eai_ipc_register_endpoint, hn, hne, if_true]; decide
          · cases hs : find_slot st.epts with
            | none =>
              exfalso; apply h
              simp only [eai_ipc_register_endpoint, hn, hne, if_false, hs]; decide
            | some s =>
              refine ⟨e, c, nm, s, rfl, rfl, hn, hne, rfl, ?_⟩
              cases hp : find_unbound_peer (set_at st.epts s (new_slot e c nm))
                  (nm.take (EAI_IPC_EPT_NAME_MAX - 1)) s with
              | none => exact Or.inr rfl
              | some p => exact Or.inl ⟨p, rfl⟩

theorem PeerInv_register (ept : Option Nat) (cfg : Option eai_ipc_ept_cfg) (st : IpcState)
    (h : PeerInv st) : PeerInv (eai_ipc_register_endpoint ept cfg st).2 := by
  rcases register_cases ept cfg st with hsame | ⟨e, c, nm, s, rfl, rfl, hn, hne, hs, hp⟩
  · rw [hsame]; exact h
  · obtain ⟨hs8, hsin⟩ := find_slot_some _ _ hs
    rcases hp with ⟨p, hp⟩ | hp
    · obtain ⟨_, r2, r3, r4, _, _⟩ := register_paired st e c nm s p hn hne hs hp
      obtain ⟨hp8, hps, hpa, hpp, _⟩ := find_unbound_peer_some _ _ _ _ hp
      rw [set_at_other _ _ _ _ hps] at hpa hpp
      intro i q hi ha hq
      by_cases his : i = s
      · subst his
        rw [r2] at hq
        simp only [Option.some.injEq] at hq
        subst hq
        rw [r3]
        exact ⟨hp8, hps, hpa, rfl⟩
      · by_cases hip : i = p
        · subst hip
          rw [r3] at hq
          simp only [Option.some.injEq] at hq
          subst hq
          rw [r2]
          exact ⟨hs8, fun h => his h.symm, rfl, rfl⟩
        · rw [r4 i his hip] at ha hq
          obtain ⟨g1, g2, g3, g4⟩ := h i q hi ha hq
          have hqs : q ≠ s := fun hqs => by rw [hqs, hsin] at g3; cases g3
          have hqp : q ≠ p := fun hqp => by rw [hqp, hpp] at g4; cases g4
          rw [r4 q hqs hqp]
          exact ⟨g1, g2, g3, g4⟩
    · obtain ⟨_, r2, r3, _, _⟩ := register_unpaired st e c nm s hn hne hs hp
      intro i q hi ha hq
      by_cases his : i = s
      · subst his
        rw [r2] at hq
        simp [new_slot] at hq
      · rw [r3 i his] at ha hq
        obtain ⟨g1, g2, g3, g4⟩ := h i q hi ha hq
        have hqs : q ≠ s := fun hqs => by rw [hqs, hsin] at g3; cases g3
        rw [r3 q hqs]
        exact ⟨g1, g2, g3, g4⟩

theorem PeerInv_deregister (ept : Option Nat) (st : IpcState) (h : PeerInv st) :
    PeerInv (eai_ipc_deregister_endpoint ept st).2 := by
  cases ept with
  | none => exact h
  | some e =>
    simp only [eai_ipc_deregister_endpoint]
    cases hf : find_by_handle st.epts (some e) with
    | none => exact h
    | some s =>
      obtain ⟨hs8, hsa, _, _⟩ := find_by_handle_some _ _ _ hf
      simp only
      cases hsp : (st.epts s).peer with
      | none =>
        simp only
        intro i q hi ha hq
        by_cases his : i = s
        · subst his; simp [set_at, zero_ept] at ha
        · simp only [set_at, his, if_false] at ha hq
          obtain ⟨g1, g2, g3, g4⟩ := h i q hi ha hq
          have hqs : q ≠ s := fun hqs => by rw [hqs, hsp] at g4; cases g4
          simp only [set_at, hqs, if_false]
          exact ⟨g1, g2, g3, g4⟩
      | some p =>
        obtain ⟨p8, pne, pa, pp⟩ := h s p hs8 hsa hsp
        simp only
        intro i q hi ha hq
        by_cases his : i = s
        · subst his; simp [set_at, zero_ept] at ha
        · by_cases hip : i = p
          · subst hip
            simp [set_at, his] at hq
          · simp only [set_at, his, hip, if_false] at ha hq
            obtain ⟨g1, g2, g3, g4⟩ := h i q hi ha hq
            have hqs : q ≠ s := fun hqs => by
              rw [hqs, hsp] at g4
              simp only [Option.some.injEq] at g4
              exact hip g4.symm
            have hqp : q ≠ p := fun hqp => by
              rw [hqp, pp] at g4
              simp only [Option.some.injEq] at g4
              exact his g4.symm
            simp only [set_at, hqs, hqp, if_false]
            exact ⟨g1, g2, g3, g4⟩

theorem send_epts (ept : Option Nat) (data : Option (Nat → Nat)) (len : Nat) (st : IpcState) :
    (eai_ipc_send ept data len st).2.epts = st.epts := by
  cases ept with
  | none => rfl
  | some e =>
    cases data with
    | none => rfl
    | some d =>
      simp only [eai_ipc_send]
      split_ifs
      · rfl
      · rfl
      · cases find_by_handle st.epts (some e) with
        | none => rfl
        | some s =>
          simp only
          cases (st.epts s).peer with
          | none => rfl
          | some p =>
            simp only
            cases (st.epts p).cb.received <;> rfl

theorem PeerInv_of_reachable (st : IpcState) (h : Reachable st) : PeerInv st := by
  induction h with
  | zero => intro i p _ ha _; simp [ipc_zero, zero_ept] at ha
  | init st _ _ => intro i p _ ha _; simp [eai_ipc_init, zero_ept] at ha
  | deinit st _ _ => intro i p _ ha _; simp [eai_ipc_deinit, zero_ept] at ha
  | register ept cfg st _ ih => exact PeerInv_register ept cfg st ih
  | deregister ept st _ ih => exact PeerInv_deregister ept st ih
  | send ept data len st _ ih =>
    intro i p hi ha hp
    rw [send_epts] at ha hp ⊢
    exact ih i p hi ha hp


/-! ## Scenario states -/

theorem reachable_st_ipc_init : Reachable st_ipc_init := Reachable.init _ Reachable.zero

theorem reachable_st_a : Reachable st_a := Reachable.register _ _ _ reachable_st_ipc_init

theorem reachable_st_ab : Reachable st_ab := Reachable.register _ _ _ reachable_st_a

theorem reachable_st_two_waiting : Reachable st_two_waiting :=
  Reachable.deregister _ _ (Reachable.deregister _ _
    (Reachable.register _ _ _ (Reachable.register _ _ _ reachable_st_ab)))

/-! ## C12: pairing at registration -/

/-- C12 (as stated) fails in two ways. With B (slot 1) and D (slot 3) both
registered and unbound under the name `data`, registering E under that name
pairs E (slot 0) with B only: D stays unbound although E's name equals D's.
And registering a 32-byte name while an endpoint waits under its 31-byte
prefix, a different name, fires both bound callbacks and binds the two. -/
theorem C12_counterexample :
    (waiting st_two_waiting.epts name_data 1 ∧ waiting st_two_waiting.epts name_data 3 ∧
      (st_e.epts 0).handle = some 5 ∧ (st_e.epts 0).name = name_data ∧
      (st_e.epts 0).peer = some 1 ∧ (st_e.epts 3).peer = none) ∧
    (name32 ≠ name31 ∧ (∀ i, i < MAX_ENDPOINTS → (st_long1.epts i).name ≠ name32) ∧
      st_long2.calls = [Call.bound 10 100, Call.bound 20 200] ∧
      (st_long2.epts 1).peer = some 0 ∧ (st_long2.epts 0).peer = some 1) := by
  refine ⟨⟨by decide, by decide, by decide, by decide, by decide, by decide⟩,
    ⟨by decide, by decide, by decide, by decide, by decide⟩⟩

/-- C12 (amended): a registration of handle `e` under the non-empty name `nm`
that takes the lowest free slot `s` compares names as stored, that is on their
first `EAI_IPC_EPT_NAME_MAX - 1 = 31` bytes. If registered-unbound endpoints
with that stored name exist, the new endpoint and the lowest-indexed of them,
`p`, become each other's peer, nothing else of `p` and no other slot changes,
and the bound callback of `p` and then that of the new endpoint are each called
once (when not NULL) during the call; if none exists no callback is called and
the new endpoint is left registered and unbound. -/
theorem C12_register_pairs_lowest_waiting (st : IpcState) (e : Nat) (c : eai_ipc_ept_cfg)
    (nm : List Char) (s : Nat) (hname : c.name = some nm) (hne : nm ≠ [])
    (hs : s < MAX_ENDPOINTS) (hsin : (st.epts s).active = false)
    (hslow : ∀ i, i < s → (st.epts i).active = true) :
    (∀ p, p < MAX_ENDPOINTS → waiting st.epts (nm.take (EAI_IPC_EPT_NAME_MAX - 1)) p →
      (∀ i, i < p → ¬ waiting st.epts (nm.take (EAI_IPC_EPT_NAME_MAX - 1)) i) →
      (eai_ipc_register_endpoint (some e) (some c) st).1 = 0 ∧
      (eai_ipc_register_endpoint (some e) (some c) st).2.epts s =
        { new_slot e c nm with peer := some p } ∧
      (eai_ipc_register_endpoint (some e) (some c) st).2.epts p =
        { st.epts p with peer := some s } ∧
      (∀ i, i ≠ s → i ≠ p →
        (eai_ipc_register_endpoint (some e) (some c) st).2.epts i = st.epts i) ∧
      (eai_ipc_register_endpoint (some e) (some c) st).2.calls =
        fire_bound c.cb.bound c.ctx
          (fire_bound (st.epts p).cb.bound (st.epts p).ctx st.calls)) ∧
    ((∀ i, i < MAX_ENDPOINTS → ¬ waiting st.epts (nm.take (EAI_IPC_EPT_NAME_MAX - 1)) i) →
      (eai_ipc_register_endpoint (some e) (some c) st).1 = 0 ∧
      (eai_ipc_register_endpoint (some e) (some c) st).2.epts s = new_slot e c nm ∧
      (new_slot e c nm).active = true ∧ (new_slot e c nm).peer = none ∧
      (∀ i, i ≠ s → (eai_ipc_register_endpoint (some e) (some c) st).2.epts i = st.epts i) ∧
      (eai_ipc_register_endpoint (some e) (some c) st).2.calls = st.calls) := by
  have hfs := find_slot_lowest st.epts s hs hsin hslow
  refine ⟨fun p hp hw hlow => ?_, fun hnone => ?_⟩
  · have hfp := find_unbound_peer_lowest st.epts s (new_slot e c nm) _ hsin p hp hw hlow
    obtain ⟨r1, r2, r3, r4, r5, _⟩ := register_paired st e c nm s p hname hne hfs hfp
    exact ⟨r1, r2, r3, r4, r5⟩
  · have hfp := find_unbound_peer_none st.epts s (new_slot e c nm) _ hsin hnone
    obtain ⟨r1, r2, r3, r4, _⟩ := register_unpaired st e c nm s hname hne hfs hfp
    exact ⟨r1, r2, rfl, rfl, r3, r4⟩

/-- Witness for C12 (amended): E registers while B and D wait. -/
theorem C12_register_pairs_lowest_waiting_witness :
    (st_e.epts 0).peer = some 1 ∧ (st_e.epts 1).peer = some 0 :=
  have h := (C12_register_pairs_lowest_waiting st_two_waiting 5
    (mk_cfg name_data (some 50) (some 51) 500) name_data 0 rfl (by decide) (by decide)
    (by decide) (by decide)).1 1 (by decide) (by decide) (by decide)
  ⟨by rw [show st_e.epts 0 = _ from h.2.1], by rw [show st_e.epts 1 = _ from h.2.2.1]⟩

/-! ## C18: order of the bound callbacks -/

/-- C18 (as stated) fails: A (bound callback 10) registers first and waits, B
(bound callback 20) registers second; the calls made are A's callback first,
then B's. -/
theorem C18_counterexample :
    st_a.calls = [] ∧ st_ab.calls = [Call.bound 10 100, Call.bound 20 200] ∧
    (st_ab.epts 0).handle = some 1 ∧ (st_ab.epts 0).cb.bound = some 10 ∧
    (st_ab.epts 1).handle = some 2 ∧ (st_ab.epts 1).cb.bound = some 20 := by
  refine ⟨by decide, by decide, by decide, by decide, by decide, by decide⟩

/-- C18 (amended): when a registration finds an earlier-registered endpoint
waiting under the same stored name (`p`, the lowest-indexed one), the waiting
endpoint's bound callback is called first and the later-registered endpoint's
bound callback second. -/
theorem C18_waiting_endpoint_bound_first (st : IpcState) (e : Nat) (c : eai_ipc_ept_cfg)
    (nm : List Char) (s p fp fs : Nat) (hname : c.name = some nm) (hne : nm ≠ [])
    (hs : s < MAX_ENDPOINTS) (hsin : (st.epts s).active = false)
    (hslow : ∀ i, i < s → (st.epts i).active = true)
    (hp : p < MAX_ENDPOINTS)
    (hw : waiting st.epts (nm.take (EAI_IPC_EPT_NAME_MAX - 1)) p)
    (hlow : ∀ i, i < p → ¬ waiting st.epts (nm.take (EAI_IPC_EPT_NAME_MAX - 1)) i)
    (hfp : (st.epts p).cb.bound = some fp) (hfs : c.cb.bound = some fs) :
    (eai_ipc_register_endpoint (some e) (some c) st).2.calls =
      st.calls ++ [Call.bound fp (st.epts p).ctx, Call.bound fs c.ctx] := by
  have hfsl := find_slot_lowest st.epts s hs hsin hslow
  have hfpe := find_unbound_peer_lowest st.epts s (new_slot e c nm) _ hsin p hp hw hlow
  obtain ⟨_, _, _, _, r5, _⟩ := register_paired st e c nm s p hname hne hfsl hfpe
  rw [r5, hfp, hfs]
  simp [fire_bound]

/-- Witness for C18 (amended): B registers while A waits. -/
theorem C18_waiting_endpoint_bound_first_witness :
    st_ab.calls = st_a.calls ++ [Call.bound 10 (st_a.epts 0).ctx, Call.bound 20 200] :=
  C18_waiting_endpoint_bound_first st_a 2 (mk_cfg name_data (some 20) (some 21) 200)
    name_data 1 0 10 20 rfl (by decide) (by decide) (by decide) (by decide) (by decide)
    (by decide) (by decide) (by decide) rfl

/-! ## C13: the mutual-peer invariant -/

/-- C13: in every state reachable through `eai_ipc_init`, `register_endpoint`,
`deregister_endpoint`, `send` and `deinit`, every active slot whose peer link
is not NULL has a peer that is a different, active slot of the table whose own
peer link points back to it. -/
theorem C13_mutual_peer (st : IpcState) (h : Reachable st) (i p : Nat)
    (hi : i < MAX_ENDPOINTS) (ha : (st.epts i).active = true)
    (hp : (st.epts i).peer = some p) :
    p < MAX_ENDPOINTS ∧ p ≠ i ∧ (st.epts p).active = true ∧ (st.epts p).peer = some i :=
  PeerInv_of_reachable st h i p hi ha hp

/-- Witness for C13: the bound pair A, B. -/
theorem C13_mutual_peer_witness :
    1 < MAX_ENDPOINTS ∧ 1 ≠ 0 ∧ (st_ab.epts 1).active = true ∧ (st_ab.epts 1).peer = some 0 :=
  C13_mutual_peer st_ab reachable_st_ab 0 1 (by decide) (by decide) (by decide)


/-! ## Sending -/

theorem size_to_int_small (len : Nat) (h : len < 2147483648) : size_to_int len = (len : Int) := by
  unfold size_to_int; omega

/-- The result of `eai_ipc_send` once the parameter checks have passed. -/
theorem send_checked (e : Nat) (d : Nat → Nat) (len : Nat) (st : IpcState) (h0 : len ≠ 0)
    (hsz : ¬ size_to_int len > MAX_PACKET_SIZE) :
    eai_ipc_send (some e) (some d) len st =
      match find_by_handle st.epts (some e) with
      | none => (-ENOENT, st)
      | some s =>
        match (st.epts s).peer with
        | none => (-ENOTCONN, st)
        | some p =>
          match (st.epts p).cb.received with
          | some fn =>
            (0, { st with
                  calls := st.calls ++
                    [Call.received fn ((List.range len).map d) len (st.epts p).ctx] })
          | none => (0, st) := by
  simp only [eai_ipc_send, h0, hsz, if_false]

theorem len_checked (len : Nat) (h1 : 1 ≤ len) (h2 : (len : Int) ≤ MAX_PACKET_SIZE) :
    len ≠ 0 ∧ ¬ size_to_int len > MAX_PACKET_SIZE := by
  unfold MAX_PACKET_SIZE at *
  rw [size_to_int_small len (by omega)]
  omega

/-- A send through the slot `a`, bound to the slot `b`. -/
theorem send_bound (e : Nat) (d : Nat → Nat) (len : Nat) (st : IpcState) (a b : Nat)
    (h0 : len ≠ 0) (hsz : ¬ size_to_int len > MAX_PACKET_SIZE)
    (ha : find_by_handle st.epts (some e) = some a) (hab : (st.epts a).peer = some b) :
    (eai_ipc_send (some e) (some d) len st).1 = 0 ∧
    (eai_ipc_send (some e) (some d) len st).2.epts = st.epts ∧
    (∀ fn, (st.epts b).cb.received = some fn →
      (eai_ipc_send (some e) (some d) len st).2.calls =
        st.calls ++ [Call.received fn ((List.range len).map d) len (st.epts b).ctx]) ∧
    ((st.epts b).cb.received = none →
      (eai_ipc_send (some e) (some d) len st).2.calls = st.calls) := by
  rw [send_checked e d len st h0 hsz]
  simp only [ha, hab]
  cases hr : (st.epts b).cb.received with
  | none => simp
  | some f => simp

/-! ## C14: delivery between a bound pair -/

/-- For lengths above the maximum that fit in an `int`, `eai_ipc_send` returns
`-EMSGSIZE` and leaves the state as it was. -/
theorem send_too_long (e : Nat) (d : Nat → Nat) (len : Nat) (st : IpcState)
    (h1 : MAX_PACKET_SIZE < (len : Int)) (h2 : len < 2147483648) :
    eai_ipc_send (some e) (some d) len st = (-EMSGSIZE, st) := by
  have h0 : len ≠ 0 := by unfold MAX_PACKET_SIZE at h1; omega
  have hsz : size_to_int len > MAX_PACKET_SIZE := by
    rw [size_to_int_small len h2]; exact h1
  simp only [eai_ipc_send, h0, hsz, if_false, if_true]

/-- C15 fails on the code: the length is compared after the cast `(int)len`.
For `len = 0x80000000` the cast is negative, the size check passes, and on the
bound pair the call returns 0 and invokes the peer's received callback, where
`-EMSGSIZE` is due for this length above 496. -/
theorem C15_huge_len_passes_size_check :
    MAX_PACKET_SIZE = 496 ∧ (2147483648 : Int) > MAX_PACKET_SIZE ∧
    size_to_int 2147483648 = -2147483648 ∧
    (eai_ipc_send (some 1) (some demo_payload) 2147483648 st_ab).1 = 0 ∧
    (eai_ipc_send (some 1) (some demo_payload) 2147483648 st_ab).2.calls.length =
      st_ab.calls.length + 1 ∧
    (0 : Int) ≠ -EMSGSIZE := by
  have hb := send_bound 1 demo_payload 2147483648 st_ab 0 1 (by decide) (by decide)
    (by decide) (by decide)
  refine ⟨by decide, by decide, by decide, hb.1, ?_, by decide⟩
  rw [hb.2.2.1 21 (by decide)]
  simp

/-! ## C16: the error codes of send -/

/-- C16: for a non-NULL endpoint and data and `1 <= len <= MAX_PACKET_SIZE`,
`eai_ipc_send` returns `-ENOENT` exactly when no active slot holds the handle,
`-ENOTCONN` exactly when the handle is registered (its slot being the lowest
active slot that holds it) and that slot has no peer, and 0 exactly when the
handle is registered and its slot has a peer. -/
theorem C16_send_error_codes (st : IpcState) (e : Nat) (d : Nat → Nat) (len : Nat)
    (h1 : 1 ≤ len) (h2 : (len : Int) ≤ MAX_PACKET_SIZE) :
    ((eai_ipc_send (some e) (some d) len st).1 = -ENOENT ↔
      ∀ i, i < MAX_ENDPOINTS → ¬ ((st.epts i).active = true ∧ (st.epts i).handle = some e)) ∧
    ((eai_ipc_send (some e) (some d) len st).1 = -ENOTCONN ↔
      ∃ s, find_by_handle st.epts (some e) = some s ∧ (st.epts s).peer = none) ∧
    ((eai_ipc_send (some e) (some d) len st).1 = 0 ↔
      ∃ s p, find_by_handle st.epts (some e) = some s ∧ (st.epts s).peer = some p) := by
  obtain ⟨c1, c2⟩ := len_checked len h1 h2
  rw [send_checked e d len st c1 c2, ← find_by_handle_none]
  cases hf : find_by_handle st.epts (some e) with
  | none => simp [ENOENT, ENOTCONN]
  | some s =>
    simp only
    cases hp : (st.epts s).peer with
    | none => simp [ENOENT, ENOTCONN, hp]
    | some p =>
      simp only
      cases (st.epts p).cb.received <;> simp [ENOENT, ENOTCONN, hp]

/-- Witness for C16: the waiting endpoint A gets `-ENOTCONN`. -/
theorem C16_send_error_codes_witness :
    (eai_ipc_send (some 1) (some demo_payload) 3 st_a).1 = -ENOTCONN :=
  (C16_send_error_codes st_a 1 demo_payload 3 (by decide) (by decide)).2.1.mpr
    ⟨0, by decide, by decide⟩


/-! ## C17: deregistering a bound endpoint -/

/-- Deregistration of the handle found in slot `a` whose peer is slot `b`. -/
theorem deregister_bound (st : IpcState) (A a b : Nat)
    (ha : find_by_handle st.epts (some A) = some a) (hab : (st.epts a).peer = some b)
    (hne : b ≠ a) :
    (eai_ipc_deregister_endpoint (some A) st).1 = 0 ∧
    (eai_ipc_deregister_endpoint (some A) st).2.epts a = zero_ept ∧
    (eai_ipc_deregister_endpoint (some A) st).2.epts b = { st.epts b with peer := none } ∧
    (∀ i, i ≠ a → i ≠ b → (eai_ipc_deregister_endpoint (some A) st).2.epts i = st.epts i) ∧
    (eai_ipc_deregister_endpoint (some A) st).2.calls = st.calls := by
  simp only [eai_ipc_deregister_endpoint, ha, hab]
  refine ⟨trivial, ?_, ?_, ?_, trivial⟩
  · simp [set_at]
  · simp [set_at, hne]
  · intro i h1 h2; simp [set_at, h1, h2]

/-- Deregistration when no second slot holds the handle: let `A` be a
registered handle, held by the slot `a` only, whose slot is bound to the slot
`b` of the handle `B`, in a reachable state. Then
`eai_ipc_deregister_endpoint(A)` returns 0, clears the slot `a`, sets the peer
link of `b` to NULL and leaves `b` otherwise unchanged (still active, same
handle, name, callbacks and context) as well as every other slot; afterwards a
send on `A` returns `-ENOENT` and a send on `B` returns `-ENOTCONN`. -/
theorem deregister_unique_handle (st : IpcState) (hr : Reachable st) (A B a b : Nat)
    (ha : find_by_handle st.epts (some A) = some a)
    (hb : find_by_handle st.epts (some B) = some b)
    (hab : (st.epts a).peer = some b)
    (huniq : ∀ i, i < MAX_ENDPOINTS → i ≠ a → (st.epts i).active = true →
      (st.epts i).handle ≠ some A)
    (d : Nat → Nat) (len : Nat) (h1 : 1 ≤ len) (h2 : (len : Int) ≤ MAX_PACKET_SIZE) :
    (eai_ipc_deregister_endpoint (some A) st).1 = 0 ∧
    (eai_ipc_deregister_endpoint (some A) st).2.epts a = zero_ept ∧
    (eai_ipc_deregister_endpoint (some A) st).2.epts b = { st.epts b with peer := none } ∧
    ((eai_ipc_deregister_endpoint (some A) st).2.epts b).active = true ∧
    ((eai_ipc_deregister_endpoint (some A) st).2.epts b).handle = some B ∧
    (∀ i, i ≠ a → i ≠ b → (eai_ipc_deregister_endpoint (some A) st).2.epts i = st.epts i) ∧
    (eai_ipc_send (some A) (some d) len (eai_ipc_deregister_endpoint (some A) st).2).1
      = -ENOENT ∧
    (eai_ipc_send (some B) (some d) len (eai_ipc_deregister_endpoint (some A) st).2).1
      = -ENOTCONN := by
  obtain ⟨a8, aact, _, _⟩ := find_by_handle_some _ _ _ ha
  obtain ⟨b8, bact, bh, blow⟩ := find_by_handle_some _ _ _ hb
  obtain ⟨_, hne, _, _⟩ := PeerInv_of_reachable st hr a b a8 aact hab
  obtain ⟨r1, r2, r3, r4, _⟩ := deregister_bound st A a b ha hab hne
  obtain ⟨c1, c2⟩ := len_checked len h1 h2
  have hA : find_by_handle (eai_ipc_deregister_endpoint (some A) st).2.epts (some A) = none := by
    rw [find_by_handle_none]
    intro i hi hc
    by_cases hia : i = a
    · subst hia; rw [r2] at hc; simp [zero_ept] at hc
    · by_cases hib : i = b
      · subst hib; rw [r3] at hc
        exact huniq i hi hia bact hc.2
      · rw [r4 i hia hib] at hc
        exact huniq i hi hia hc.1 hc.2
  have hB : find_by_handle (eai_ipc_deregister_endpoint (some A) st).2.epts (some B)
      = some b := by
    apply find_by_handle_lowest _ _ _ b8
    · rw [r3]; exact bact
    · rw [r3]; exact bh
    · intro i hi hc
      by_cases hia : i = a
      · subst hia; rw [r2] at hc; simp [zero_ept] at hc
      · rw [r4 i hia (by omega)] at hc
        exact blow i hi hc
  refine ⟨r1, r2, r3, by rw [r3]; exact bact, by rw [r3]; exact bh, r4, ?_, ?_⟩
  · rw [send_checked A d len _ c1 c2, hA]
  · rw [send_checked B d len _ c1 c2, hB]
    simp only [r3]

/-- The bound pair A, B of `st_ab`: deregistering A. -/
theorem deregister_unique_handle_st_ab :
    (eai_ipc_send (some 1) (some demo_payload) 3
      (eai_ipc_deregister_endpoint (some 1) st_ab).2).1 = -ENOENT ∧
    (eai_ipc_send (some 2) (some demo_payload) 3
      (eai_ipc_deregister_endpoint (some 1) st_ab).2).1 = -ENOTCONN :=
  (deregister_unique_handle st_ab reachable_st_ab 1 2 0 1 (by decide) (by decide)
    (by decide) (by decide) demo_payload 3 (by decide) (by decide)).2.2.2.2.2.2

/-- C17 fails on the code when the handle of A holds a second slot: after
`eai_ipc_init`, A (handle 1) is registered under `data` and again under `y`,
and B (handle 2) is registered under `data`. Then A is a bound endpoint: the
slot found for its handle is slot 0, whose peer is the slot 2 of B, and a send
on A returns 0. `eai_ipc_deregister_endpoint(A)` returns 0, clears slot 0 and
nulls the peer link of B, which stays registered with its name, callbacks and
context; a send on B then returns `-ENOTCONN`, but a send on A also returns
`-ENOTCONN` and not `-ENOENT`, because slot 1 still holds the handle of A. -/
theorem C17_second_slot_survives_deregister :
    Reachable st_a_y_b ∧
    find_by_handle st_a_y_b.epts (some 1) = some 0 ∧
    find_by_handle st_a_y_b.epts (some 2) = some 2 ∧
    ((st_a_y_b.epts 0).peer = some 2 ∧ (st_a_y_b.epts 2).peer = some 0) ∧
    (eai_ipc_send (some 1) (some demo_payload) 3 st_a_y_b).1 = 0 ∧
    (eai_ipc_deregister_endpoint (some 1) st_a_y_b).1 = 0 ∧
    st_a_y_b_dereg.epts 0 = zero_ept ∧
    st_a_y_b_dereg.epts 2 = { st_a_y_b.epts 2 with peer := none } ∧
    ((st_a_y_b_dereg.epts 2).active = true ∧ (st_a_y_b_dereg.epts 2).handle = some 2 ∧
      (st_a_y_b_dereg.epts 2).name = name_data) ∧
    ((st_a_y_b_dereg.epts 1).active = true ∧ (st_a_y_b_dereg.epts 1).handle = some 1) ∧
    (eai_ipc_send (some 1) (some demo_payload) 3 st_a_y_b_dereg).1 = -ENOTCONN ∧
    (eai_ipc_send (some 1) (some demo_payload) 3 st_a_y_b_dereg).1 ≠ -ENOENT ∧
    (eai_ipc_send (some 2) (some demo_payload) 3 st_a_y_b_dereg).1 = -ENOTCONN :=
  ⟨Reachable.register _ _ _ (Reachable.register _ _ _ reachable_st_a), by decide, by decide,
    by decide, by decide, by decide, by decide, by decide, by decide, by decide, by decide,
    by decide, by decide⟩

end Ipc

namespace WifiProv

open wifi_prov_state wifi_prov_event

/-! ## C19: the provisioning state machine -/

/-- One step of the state machine from an arbitrary state. -/
theorem process_event_step (s : wifi_prov_state)
    (f : List (wifi_prov_state × wifi_prov_state)) (e : wifi_prov_event) :
    (∀ t, (some s, e, t) ∈ transition_table →
      wifi_prov_sm_process_event e { state := s, fired := f } =
        (0, { state := t, fired := f ++ [(s, t)] })) ∧
    (e = FACTORY_RESET →
      wifi_prov_sm_process_event e { state := s, fired := f } =
        (0, { state := IDLE, fired := f ++ [(s, IDLE)] })) ∧
    ((∀ t, (some s, e, t) ∉ transition_table) → e ≠ FACTORY_RESET →
      wifi_prov_sm_process_event e { state := s, fired := f } =
        (-EPERM, { state := s, fired := f })) := by
  refine ⟨fun t ht => ?_, fun he => ?_, fun hn he => ?_⟩
  · cases s <;> cases e <;> cases t <;>
      first
      | (exfalso; revert ht; decide)
      | rfl
  · subst he
    cases s <;> rfl
  · cases s <;> cases e <;>
      first
      | rfl
      | (exfalso; exact he rfl)
      | (exfalso; exact hn SCANNING (by decide))
      | (exfalso; exact hn SCAN_COMPLETE (by decide))
      | (exfalso; exact hn PROVISIONING (by decide))
      | (exfalso; exact hn CONNECTING (by decide))
      | (exfalso; exact hn CONNECTED (by decide))
      | (exfalso; exact hn IDLE (by decide))

/-- C19: for every event sequence processed after `wifi_prov_sm_init` (initial
state IDLE) and every next event: a (state, event) pair listed in the
transition table returns 0, moves to the table's target state and fires the
state-change callback exactly once with (old, new); FACTORY_RESET returns 0
and leads to IDLE from every state; every other pair returns `-EPERM`, leaves
the state unchanged and fires no callback. -/
theorem C19_state_machine (es : List wifi_prov_event) (e : wifi_prov_event) :
    wifi_prov_sm_get_state wifi_prov_sm_init = IDLE ∧
    (∀ t, (some (process_all es wifi_prov_sm_init).state, e, t) ∈ transition_table →
      (wifi_prov_sm_process_event e (process_all es wifi_prov_sm_init)).1 = 0 ∧
      (wifi_prov_sm_process_event e (process_all es wifi_prov_sm_init)).2.state = t ∧
      (wifi_prov_sm_process_event e (process_all es wifi_prov_sm_init)).2.fired =
        (process_all es wifi_prov_sm_init).fired ++
          [((process_all es wifi_prov_sm_init).state, t)]) ∧
    (e = FACTORY_RESET →
      (wifi_prov_sm_process_event e (process_all es wifi_prov_sm_init)).1 = 0 ∧
      (wifi_prov_sm_process_event e (process_all es wifi_prov_sm_init)).2.state = IDLE) ∧
    ((∀ t, (some (process_all es wifi_prov_sm_init).state, e, t) ∉ transition_table) →
      e ≠ FACTORY_RESET →
      (wifi_prov_sm_process_event e (process_all es wifi_prov_sm_init)).1 = -EPERM ∧
      (wifi_prov_sm_process_event e (process_all es wifi_prov_sm_init)).2 =
        process_all es wifi_prov_sm_init) := by
  obtain ⟨h1, h2, h3⟩ := process_event_step (process_all es wifi_prov_sm_init).state
    (process_all es wifi_prov_sm_init).fired e
  refine ⟨rfl, fun t ht => ?_, fun he => ?_, fun hn he => ?_⟩
  · have := h1 t ht
    simp only [this, and_self]
  · have := h2 he
    simp only [this, and_self]
  · have := h3 hn he
    simp only [this, and_self]

/-- Witness for C19: the provisioning flow of the tests, then WIFI_CONNECTED. -/
theorem C19_state_machine_witness :
    (wifi_prov_sm_process_event WIFI_CONNECTED
      (process_all [SCAN_TRIGGER, SCAN_DONE, CREDENTIALS_RX, WIFI_CONNECTING]
        wifi_prov_sm_init)).2.state = CONNECTED ∧
    (wifi_prov_sm_process_event SCAN_DONE (process_all [] wifi_prov_sm_init)).1 = -EPERM :=
  ⟨((C19_state_machine [SCAN_TRIGGER, SCAN_DONE, CREDENTIALS_RX, WIFI_CONNECTING]
      WIFI_CONNECTED).2.1 CONNECTED (by decide)).2.1,
   ((C19_state_machine [] SCAN_DONE).2.2.2 (fun t => by cases t <;> decide) (by decide)).1⟩

end WifiProv

namespace Osal

open eai_osal_status_t

/-! ## C20: NULL handles -/

/-- C20: every status-returning operation of the FreeRTOS backend (mutex
create/destroy/lock/unlock, semaphore create/destroy/give/take, queue
create/destroy/send/recv, timer create/destroy/start/stop, event
create/destroy/set/wait/clear, thread create/join) called with a NULL handle
returns `EAI_OSAL_INVALID_PARAM` without having made any kernel call, whatever
its other arguments and whatever the kernel would have answered. -/
theorem C20_null_handle_invalid_param (k : KernelConfig) :
    (∀ created, eai_osal_mutex_create none created = (EAI_OSAL_INVALID_PARAM, [], none)) ∧
    eai_osal_mutex_destroy none = (EAI_OSAL_INVALID_PARAM, [], none) ∧
    (∀ ms taken, eai_osal_mutex_lock k none ms taken = (EAI_OSAL_INVALID_PARAM, [], none)) ∧
    (∀ given, eai_osal_mutex_unlock none given = (EAI_OSAL_INVALID_PARAM, [], none)) ∧
    (∀ initial limit created,
      eai_osal_sem_create none initial limit created = (EAI_OSAL_INVALID_PARAM, [], none)) ∧
    eai_osal_sem_destroy none = (EAI_OSAL_INVALID_PARAM, [], none) ∧
    (∀ given, eai_osal_sem_give none given = (EAI_OSAL_INVALID_PARAM, [], none)) ∧
    (∀ ms taken, eai_osal_sem_take k none ms taken = (EAI_OSAL_INVALID_PARAM, [], none)) ∧
    (∀ msg_size max_msgs buffer created,
      eai_osal_queue_create none msg_size max_msgs buffer created =
        (EAI_OSAL_INVALID_PARAM, [], none)) ∧
    eai_osal_queue_destroy none = (EAI_OSAL_INVALID_PARAM, [], none) ∧
    (∀ msg ms sent,
      eai_osal_queue_send k none msg ms sent = (EAI_OSAL_INVALID_PARAM, [], none)) ∧
    (∀ msg ms received,
      eai_osal_queue_recv k none msg ms received = (EAI_OSAL_INVALID_PARAM, [], none)) ∧
    (∀ callback arg created,
      eai_osal_timer_create none callback arg created = (EAI_OSAL_INVALID_PARAM, [], none)) ∧
    eai_osal_timer_destroy none = (EAI_OSAL_INVALID_PARAM, [], none) ∧
    (∀ initial_ms period_ms,
      eai_osal_timer_start k none initial_ms period_ms = (EAI_OSAL_INVALID_PARAM, [], none)) ∧
    eai_osal_timer_stop none = (EAI_OSAL_INVALID_PARAM, [], none) ∧
    (∀ created, eai_osal_event_create none created = (EAI_OSAL_INVALID_PARAM, [], none)) ∧
    eai_osal_event_destroy none = (EAI_OSAL_INVALID_PARAM, [], none) ∧
    (∀ bits, eai_osal_event_set none bits = (EAI_OSAL_INVALID_PARAM, [], none)) ∧
    (∀ bits wait_all actual ms result,
      eai_osal_event_wait k none bits wait_all actual ms result =
        (EAI_OSAL_INVALID_PARAM, [], none, none)) ∧
    (∀ bits, eai_osal_event_clear none bits = (EAI_OSAL_INVALID_PARAM, [], none)) ∧
    (∀ entry arg stack stack_size priority join_sem task,
      eai_osal_thread_create k none entry arg stack stack_size priority join_sem task =
        (EAI_OSAL_INVALID_PARAM, [], none)) ∧
    (∀ ms taken, eai_osal_thread_join k none ms taken = (EAI_OSAL_INVALID_PARAM, [], none)) := by
  refine ⟨fun _ => rfl, rfl, fun _ _ => rfl, fun _ => rfl, fun _ _ _ => rfl, rfl,
    fun _ => rfl, fun _ _ => rfl, fun _ _ _ _ => rfl, rfl, fun _ _ _ => rfl,
    fun _ _ _ => rfl, fun _ _ _ => rfl, rfl, fun _ _ => rfl, rfl, fun _ => rfl, rfl,
    fun _ => rfl, fun _ _ _ _ _ => rfl, fun _ => rfl, fun _ _ _ _ _ _ _ => rfl,
    fun _ _ => rfl⟩

/-! ## C21: waiting on an event group -/

/-- C21: `eai_osal_event_wait` on a non-NULL event. With `bits = 0` it returns
`EAI_OSAL_INVALID_PARAM` without any kernel call and without storing through
`actual`. With `bits ≠ 0` it makes exactly one `xEventGroupWaitBits` call, with
`xClearOnExit` false, and with `observed` the mask this call returns: the
status is `EAI_OSAL_OK` exactly when `observed & bits = bits` (all mode) or
`observed & bits ≠ 0` (any mode), and then the value stored through a non-NULL
`actual` is `observed & bits`; otherwise the status is `EAI_OSAL_TIMEOUT` and
nothing is stored. -/
theorem C21_event_wait (k : KernelConfig) (ev : eai_osal_event_t) (bits : Nat)
    (wait_all actual : Bool) (timeout_ms observed : Nat) :
    (bits = 0 →
      eai_osal_event_wait k (some ev) bits wait_all actual timeout_ms observed =
        (EAI_OSAL_INVALID_PARAM, [], some ev, none)) ∧
    (bits ≠ 0 →
      (eai_osal_event_wait k (some ev) bits wait_all actual timeout_ms observed).2.1 =
        [KCall.xEventGroupWaitBits ev._handle bits false wait_all (osal_ticks k timeout_ms)] ∧
      ((eai_osal_event_wait k (some ev) bits wait_all actual timeout_ms observed).1 = EAI_OSAL_OK ↔
        (if wait_all then observed &&& bits = bits else observed &&& bits ≠ 0)) ∧
      ((if wait_all then observed &&& bits = bits else observed &&& bits ≠ 0) →
        (eai_osal_event_wait k (some ev) bits wait_all actual timeout_ms observed).2.2.2 =
          (if actual then some (observed &&& bits) else none)) ∧
      (¬ (if wait_all then observed &&& bits = bits else observed &&& bits ≠ 0) →
        (eai_osal_event_wait k (some ev) bits wait_all actual timeout_ms observed).1 =
          EAI_OSAL_TIMEOUT ∧
        (eai_osal_event_wait k (some ev) bits wait_all actual timeout_ms observed).2.2.2 =
          none)) := by
  refine ⟨fun h => by simp [eai_osal_event_wait, h], fun h => ?_⟩
  cases wait_all
  · by_cases hz : observed &&& bits = 0 <;> simp [eai_osal_event_wait, h, hz]
  · by_cases hz : observed &&& bits = bits <;> simp [eai_osal_event_wait, h, hz]

/-- Witness for C21: bits 0x05 requested in any mode while the kernel reports
0x0D, and the rejected call with no bits. -/
theorem C21_event_wait_witness :
    eai_osal_event_wait esp_idf_config (some { _handle := some 7 }) 0 false true 100 13 =
      (EAI_OSAL_INVALID_PARAM, [], some { _handle := some 7 }, none) ∧
    eai_osal_event_wait esp_idf_config (some { _handle := some 7 }) 5 false true 100 13 =
      (EAI_OSAL_OK, [KCall.xEventGroupWaitBits (some 7) 5 false false 10],
        some { _handle := some 7 }, some 5) ∧
    (eai_osal_event_wait esp_idf_config (some { _handle := some 7 }) 5 false true 100 13).2.2.2 =
      (if true then some (13 &&& 5) else none) :=
  ⟨(C21_event_wait esp_idf_config { _handle := some 7 } 0 false true 100 13).1 rfl,
   by decide,
   ((C21_event_wait esp_idf_config { _handle := some 7 } 5 false true 100 13).2
      (by decide)).2.2.1 (by decide)⟩

/-! ## C22: the range of the native priority -/

/-- The native priority as an integer, when the product fits an `int`. -/
theorem osal_priority_eq (k : KernelConfig) (p : Nat) (hp : p ≤ 31)
    (hM : 2 ≤ k.configMAX_PRIORITIES) (hint : 31 * (k.configMAX_PRIORITIES - 2) ≤ 2147483647) :
    (osal_priority k p : Int) = 1 + ((p : Int) * (k.configMAX_PRIORITIES - 2)) / 31 := by
  have hm : (0 : Int) ≤ k.configMAX_PRIORITIES - 2 := by omega
  have hx0 : (0 : Int) ≤ (p : Int) * (k.configMAX_PRIORITIES - 2) :=
    Int.mul_nonneg (by omega) hm
  have hx1 : (p : Int) * (k.configMAX_PRIORITIES - 2) ≤ 31 * (k.configMAX_PRIORITIES - 2) :=
    Int.mul_le_mul_of_nonneg_right (by omega) hm
  unfold osal_priority
  have hif : (if p > 31 then (31 : Int) else (p : Int)) = (p : Int) := by
    rw [if_neg (by omega)]
  simp only [hif]
  rw [Int.tdiv_eq_ediv hx0 (by decide)]
  generalize (p : Int) * (k.configMAX_PRIORITIES - 2) = x at hx0 hx1
  rw [Int.toNat_of_nonneg (Int.emod_nonneg _ (by decide))]
  omega

/-- C22: for every OSAL priority `p` in 0..31 and every `configMAX_PRIORITIES`
from 2 on (small enough for `31 * (configMAX_PRIORITIES - 2)` to be an `int`),
the native priority `osal_priority p` equals
`1 + (p * (configMAX_PRIORITIES - 2)) / 31`, lies in
`[1, configMAX_PRIORITIES - 1]`, is not the idle priority 0, and is 1 for
`p = 0` and `configMAX_PRIORITIES - 1` for `p = 31`. -/
theorem C22_priority_range (k : KernelConfig) (p : Nat) (hp : p ≤ 31)
    (hM : 2 ≤ k.configMAX_PRIORITIES) (hint : 31 * (k.configMAX_PRIORITIES - 2) ≤ 2147483647) :
    (osal_priority k p : Int) = 1 + ((p : Int) * (k.configMAX_PRIORITIES - 2)) / 31 ∧
    1 ≤ osal_priority k p ∧
    (osal_priority k p : Int) ≤ k.configMAX_PRIORITIES - 1 ∧
    osal_priority k p ≠ 0 ∧
    osal_priority k 0 = 1 ∧
    (osal_priority k 31 : Int) = k.configMAX_PRIORITIES - 1 := by
  have hm : (0 : Int) ≤ k.configMAX_PRIORITIES - 2 := by omega
  have hx0 : (0 : Int) ≤ (p : Int) * (k.configMAX_PRIORITIES - 2) :=
    Int.mul_nonneg (by omega) hm
  have hx1 : (p : Int) * (k.configMAX_PRIORITIES - 2) ≤ 31 * (k.configMAX_PRIORITIES - 2) :=
    Int.mul_le_mul_of_nonneg_right (by omega) hm
  have e := osal_priority_eq k p hp hM hint
  have e0 := osal_priority_eq k 0 (by omega) hM hint
  have e31 := osal_priority_eq k 31 (by omega) hM hint
  generalize (p : Int) * (k.configMAX_PRIORITIES - 2) = x at e hx0 hx1
  refine ⟨e, ?_, ?_, ?_, ?_, ?_⟩
  · omega
  · omega
  · omega
  · simp at e0; omega
  · push_cast at e31; omega

/-- Witness for C22: OSAL priority 20 with the 25 priorities of ESP-IDF is
native priority 15. -/
theorem C22_priority_range_witness :
    osal_priority esp_idf_config 20 = 15 ∧
    (osal_priority esp_idf_config 20 : Int) ≤ esp_idf_config.configMAX_PRIORITIES - 1 :=
  ⟨by decide,
   (C22_priority_range esp_idf_config 20 (by decide) (by decide) (by decide)).2.2.1⟩

/-! ## C23: the order of the native priorities -/

/-- The priority that `eai_osal_thread_create` hands to `xTaskCreate`. -/
theorem thread_create_priority (k : KernelConfig) (t : eai_osal_thread_t) (entry arg : Nat)
    (stack_size q : Nat) (hq : q ≤ 31) (join_sem : Nat) (task : Option Nat) :
    created_priority (eai_osal_thread_create k (some t) (some entry) arg true stack_size q
      (some join_sem) task).2.1 = some (osal_priority k q) := by
  have h : ¬ q > 31 := by omega
  cases task <;> simp [eai_osal_thread_create, h, created_priority]

/-- Counterexample to C23 as stated: with the 25 priorities of ESP-IDF, threads
created with the OSAL priorities 0 and 1 both get the native priority 1. -/
theorem C23_counterexample :
    (0 : Nat) < 1 ∧ (1 : Nat) ≤ 31 ∧
    created_priority (eai_osal_thread_create esp_idf_config
      (some { _handle := none, _join_sem := none, _entry := none, _entry_arg := 0 })
      (some 0) 0 true 2048 0 (some 1) (some 2)).2.1 = some 1 ∧
    created_priority (eai_osal_thread_create esp_idf_config
      (some { _handle := none, _join_sem := none, _entry := none, _entry_arg := 0 })
      (some 0) 0 true 2048 1 (some 3) (some 4)).2.1 = some 1 ∧
    ¬ (osal_priority esp_idf_config 0 < osal_priority esp_idf_config 1) := by
  decide

/-- C23 (amended): for all OSAL priorities `p < q ≤ 31` (and
`configMAX_PRIORITIES ≥ 2` with `31 * (configMAX_PRIORITIES - 2)` an `int`), a
thread created with priority `q` gets a FreeRTOS priority that is at least the
one of a thread created with priority `p`, and strictly greater when
`(q - p) * (configMAX_PRIORITIES - 2) ≥ 31`. -/
theorem C23_priority_monotone (k : KernelConfig) (p q : Nat) (hpq : p < q) (hq : q ≤ 31)
    (hM : 2 ≤ k.configMAX_PRIORITIES) (hint : 31 * (k.configMAX_PRIORITIES - 2) ≤ 2147483647) :
    (∀ t entry arg stack_size join_sem task,
      created_priority (eai_osal_thread_create k (some t) (some entry) arg true stack_size p
        (some join_sem) task).2.1 = some (osal_priority k p) ∧
      created_priority (eai_osal_thread_create k (some t) (some entry) arg true stack_size q
        (some join_sem) task).2.1 = some (osal_priority k q)) ∧
    osal_priority k p ≤ osal_priority k q ∧
    (31 ≤ ((q : Int) - p) * (k.configMAX_PRIORITIES - 2) →
      osal_priority k p < osal_priority k q) := by
  have hm : (0 : Int) ≤ k.configMAX_PRIORITIES - 2 := by omega
  have ep := osal_priority_eq k p (by omega) hM hint
  have eq := osal_priority_eq k q hq hM hint
  have hle : (p : Int) * (k.configMAX_PRIORITIES - 2) ≤ (q : Int) * (k.configMAX_PRIORITIES - 2) :=
    Int.mul_le_mul_of_nonneg_right (by omega) hm
  have hsub : ((q : Int) - p) * (k.configMAX_PRIORITIES - 2) =
      (q : Int) * (k.configMAX_PRIORITIES - 2) - (p : Int) * (k.configMAX_PRIORITIES - 2) := by
    ring
  rw [hsub]
  generalize (p : Int) * (k.configMAX_PRIORITIES - 2) = x at ep hle
  generalize (q : Int) * (k.configMAX_PRIORITIES - 2) = y at eq hle
  refine ⟨fun t entry arg stack_size join_sem task =>
      ⟨thread_create_priority k t entry arg stack_size p (by omega) join_sem task,
       thread_create_priority k t entry arg stack_size q hq join_sem task⟩, ?_, ?_⟩
  · omega
  · intro h; omega

/-- Witness for C23 (amended): the priorities 5 and 20 of `test_thread_priority`
with the 25 priorities of ESP-IDF. -/
theorem C23_priority_monotone_witness :
    osal_priority esp_idf_config 5 = 4 ∧ osal_priority esp_idf_config 20 = 15 ∧
    osal_priority esp_idf_config 5 < osal_priority esp_idf_config 20 :=
  ⟨by decide, by decide,
   (C23_priority_monotone esp_idf_config 5 20 (by decide) (by decide) (by decide)
      (by decide)).2.2 (by decide)⟩

/-! ## C24: the millisecond clock -/

/-- Counterexample to C24 as stated: with the 10 ms tick of ESP-IDF the
millisecond value is 4294967290 at tick 429496729 and 4 one tick later. -/
theorem C24_counterexample :
    (429496729 : Nat) ≤ 429496730 ∧
    eai_osal_time_get_ms esp_idf_config 429496729 = 4294967290 ∧
    eai_osal_time_get_ms esp_idf_config 429496730 = 4 ∧
    ¬ (eai_osal_time_get_ms esp_idf_config 429496729 ≤
        eai_osal_time_get_ms esp_idf_config 429496730) := by
  decide

/-- C24 (amended): as long as the millisecond count fits 32 bits, that is for
all tick counts `t1 ≤ t2` with `t2 * portTICK_PERIOD_MS < 2^32`, the value of
`eai_osal_time_get_ms` computed at `t1` is at most the value computed at
`t2`. -/
theorem C24_time_monotone_before_wrap (k : KernelConfig) (t1 t2 : Nat) (h : t1 ≤ t2)
    (hfit : t2 * k.portTICK_PERIOD_MS < 4294967296) :
    eai_osal_time_get_ms k t1 ≤ eai_osal_time_get_ms k t2 := by
  have h1 : t1 * k.portTICK_PERIOD_MS ≤ t2 * k.portTICK_PERIOD_MS :=
    Nat.mul_le_mul_right _ h
  unfold eai_osal_time_get_ms
  rw [Nat.mod_eq_of_lt hfit, Nat.mod_eq_of_lt (by omega)]
  exact h1

/-- Witness for C24 (amended): ticks 100 and 101 with the 10 ms tick. -/
theorem C24_time_monotone_before_wrap_witness :
    eai_osal_time_get_ms esp_idf_config 100 ≤ eai_osal_time_get_ms esp_idf_config 101 :=
  C24_time_monotone_before_wrap esp_idf_config 100 101 (by decide) (by decide)

end Osal

namespace WifiCred

/-! ## The credential store -/

/-- Once `cred_loaded` is set, `load_from_storage` does nothing. -/
theorem load_from_storage_loaded (st : CredState) (h : st.cred_loaded = true)
    (a_ssid a_psk a_sec : GetAnswer) :
    load_from_storage st a_ssid a_psk a_sec = (st, []) := by
  simp [load_from_storage, h]

/-- The state after an accepted store. -/
theorem store_accepted (st : CredState) (c : wifi_prov_cred) (h1 : 1 ≤ c.ssid_len)
    (h2 : c.ssid_len ≤ WIFI_PROV_SSID_MAX_LEN) (r_ssid r_psk r_sec : Int) :
    (wifi_prov_cred_store st (some c) r_ssid r_psk r_sec).1 = 0 ∧
    (wifi_prov_cred_store st (some c) r_ssid r_psk r_sec).2.1 =
      { stored_cred := c, cred_loaded := true } := by
  have h : ¬ (c.ssid_len = 0 ∨ c.ssid_len > WIFI_PROV_SSID_MAX_LEN) := by omega
  simp only [wifi_prov_cred_store, if_neg h, and_self]

/-- A load in a state that holds a credential with a non-empty SSID. -/
theorem load_present (c : wifi_prov_cred) (h1 : 1 ≤ c.ssid_len) (out : wifi_prov_cred)
    (a_ssid a_psk a_sec : GetAnswer) :
    wifi_prov_cred_load { stored_cred := c, cred_loaded := true } (some out) a_ssid a_psk a_sec =
      (0, { stored_cred := c, cred_loaded := true }, [], some c) := by
  have h : ¬ c.ssid_len = 0 := by omega
  simp [wifi_prov_cred_load, load_from_storage, h]

/-! ## C25: store, then load -/

/-- C25: for every credential `c` with `1 ≤ ssid_len ≤ WIFI_PROV_SSID_MAX_LEN`,
from every state of the module and whatever the settings backend answers,
`wifi_prov_cred_store(c)` returns 0 and a following `wifi_prov_cred_load`
returns 0 without consulting the settings backend and leaves in the caller's
structure a credential equal to `c` (in `ssid`, `ssid_len`, `psk`, `psk_len`
and `security`); after the stores of `c` and then of a second such credential
`d` the load returns `d`. -/
theorem C25_store_then_load (st : CredState) (c d out : wifi_prov_cred)
    (hc1 : 1 ≤ c.ssid_len) (hc2 : c.ssid_len ≤ WIFI_PROV_SSID_MAX_LEN)
    (hd1 : 1 ≤ d.ssid_len) (hd2 : d.ssid_len ≤ WIFI_PROV_SSID_MAX_LEN)
    (r1 r2 r3 r4 r5 r6 : Int) (a_ssid a_psk a_sec : GetAnswer) :
    (wifi_prov_cred_store st (some c) r1 r2 r3).1 = 0 ∧
    (wifi_prov_cred_load (wifi_prov_cred_store st (some c) r1 r2 r3).2.1 (some out)
      a_ssid a_psk a_sec).1 = 0 ∧
    (wifi_prov_cred_load (wifi_prov_cred_store st (some c) r1 r2 r3).2.1 (some out)
      a_ssid a_psk a_sec).2.2.1 = [] ∧
    (wifi_prov_cred_load (wifi_prov_cred_store st (some c) r1 r2 r3).2.1 (some out)
      a_ssid a_psk a_sec).2.2.2 = some c ∧
    (wifi_prov_cred_store (wifi_prov_cred_store st (some c) r1 r2 r3).2.1 (some d)
      r4 r5 r6).1 = 0 ∧
    (wifi_prov_cred_load
      (wifi_prov_cred_store (wifi_prov_cred_store st (some c) r1 r2 r3).2.1 (some d)
        r4 r5 r6).2.1 (some out) a_ssid a_psk a_sec).1 = 0 ∧
    (wifi_prov_cred_load
      (wifi_prov_cred_store (wifi_prov_cred_store st (some c) r1 r2 r3).2.1 (some d)
        r4 r5 r6).2.1 (some out) a_ssid a_psk a_sec).2.2.2 = some d := by
  have sc := store_accepted st c hc1 hc2 r1 r2 r3
  have sd := store_accepted (wifi_prov_cred_store st (some c) r1 r2 r3).2.1 d hd1 hd2 r4 r5 r6
  have lc := load_present c hc1 out a_ssid a_psk a_sec
  have ld := load_present d hd1 out a_ssid a_psk a_sec
  rw [sd.2, ld]
  rw [sc.2] at sd ⊢
  rw [lc]
  exact ⟨sc.1, rfl, rfl, rfl, sd.1, rfl, rfl⟩

/-- Witness for C25: the credentials of `test_cred_store_and_load` and
`test_cred_overwrite`, stored at boot with a settings backend that fails every
call. -/
theorem C25_store_then_load_witness :
    (wifi_prov_cred_load (wifi_prov_cred_store cred_boot (some test_cred) (-5) (-5) (-5)).2.1
      (some cred_zero) get_fails get_fails get_fails).2.2.2 = some test_cred ∧
    (wifi_prov_cred_load
      (wifi_prov_cred_store (wifi_prov_cred_store cred_boot (some test_cred) (-5) (-5) (-5)).2.1
        (some second_cred) (-5) (-5) (-5)).2.1 (some cred_zero)
      get_fails get_fails get_fails).2.2.2 = some second_cred :=
  ⟨(C25_store_then_load cred_boot test_cred second_cred cred_zero (by decide) (by decide)
      (by decide) (by decide) (-5) (-5) (-5) (-5) (-5) (-5) get_fails get_fails get_fails).2.2.2.1,
   (C25_store_then_load cred_boot test_cred second_cred cred_zero (by decide) (by decide)
      (by decide) (by decide) (-5) (-5) (-5) (-5) (-5) (-5) get_fails get_fails
      get_fails).2.2.2.2.2.2⟩

/-! ## C26: after an erase -/

/-- The erased state is kept by every call that is not a successful store. -/
theorem erased_kept (op : CredOp)
    (h : is_successful_store { stored_cred := cred_zero, cred_loaded := true } op = false) :
    apply_op { stored_cred := cred_zero, cred_loaded := true } op =
      { stored_cred := cred_zero, cred_loaded := true } := by
  cases op with
  | store cred r_ssid r_psk r_sec =>
    cases cred with
    | none => rfl
    | some c =>
      by_cases hc : c.ssid_len = 0 ∨ c.ssid_len > WIFI_PROV_SSID_MAX_LEN
      · simp only [apply_op, wifi_prov_cred_store, if_pos hc]
      · exfalso
        simp [is_successful_store, wifi_prov_cred_store, hc] at h
  | load cred a_ssid a_psk a_sec =>
    cases cred with
    | none => rfl
    | some out => rfl
  | erase r_ssid r_psk r_sec => rfl
  | query a_ssid a_psk a_sec => rfl

/-- The erased state is kept by every sequence of calls without a successful
store. -/
theorem erased_kept_run (ops : List CredOp)
    (h : no_successful_store { stored_cred := cred_zero, cred_loaded := true } ops = true) :
    run_ops { stored_cred := cred_zero, cred_loaded := true } ops =
      { stored_cred := cred_zero, cred_loaded := true } := by
  induction ops with
  | nil => rfl
  | cons op rest ih =>
    simp only [no_successful_store, Bool.and_eq_true, Bool.not_eq_true'] at h
    have e := erased_kept op h.1
    rw [run_ops, e]
    rw [e] at h
    exact ih h.2

/-- C26: from every state of the module, `wifi_prov_cred_erase` returns 0
whatever the settings backend reports for the three deletes; after it, and
after any further calls of the module none of which is a successful
`wifi_prov_cred_store`, `wifi_prov_cred_exists` is false and
`wifi_prov_cred_load` returns `-ENOENT`, consults no settings and leaves the
caller's output structure as it was. -/
theorem C26_erase_then_absent (st : CredState) (r1 r2 r3 : Int) (ops : List CredOp)
    (hops : no_successful_store (wifi_prov_cred_erase st r1 r2 r3).2.1 ops = true)
    (out : wifi_prov_cred) (a_ssid a_psk a_sec : GetAnswer) :
    (wifi_prov_cred_erase st r1 r2 r3).1 = 0 ∧
    (wifi_prov_cred_exists (run_ops (wifi_prov_cred_erase st r1 r2 r3).2.1 ops)
      a_ssid a_psk a_sec).1 = false ∧
    (wifi_prov_cred_load (run_ops (wifi_prov_cred_erase st r1 r2 r3).2.1 ops) (some out)
      a_ssid a_psk a_sec).1 = -ENOENT ∧
    (wifi_prov_cred_load (run_ops (wifi_prov_cred_erase st r1 r2 r3).2.1 ops) (some out)
      a_ssid a_psk a_sec).2.2.1 = [] ∧
    (wifi_prov_cred_load (run_ops (wifi_prov_cred_erase st r1 r2 r3).2.1 ops) (some out)
      a_ssid a_psk a_sec).2.2.2 = some out := by
  have e : (wifi_prov_cred_erase st r1 r2 r3).2.1 =
      { stored_cred := cred_zero, cred_loaded := true } := rfl
  rw [e] at hops ⊢
  rw [erased_kept_run ops hops]
  exact ⟨rfl, rfl, rfl, rfl, rfl⟩

/-- Witness for C26: `test_cred` is stored and erased (the deletes fail), then
the module is queried, loaded from, given a credential with an empty SSID and
erased again; a load into a structure that holds `second_cred` leaves it
there. -/
theorem C26_erase_then_absent_witness :
    (wifi_prov_cred_load
      (run_ops (wifi_prov_cred_erase
          (wifi_prov_cred_store cred_boot (some test_cred) 0 0 0).2.1 (-5) (-5) (-5)).2.1
        [CredOp.query get_fails get_fails get_fails,
         CredOp.load (some cred_zero) get_fails get_fails get_fails,
         CredOp.store (some cred_zero) 0 0 0,
         CredOp.erase 0 0 0])
      (some second_cred) get_fails get_fails get_fails).1 = -ENOENT ∧
    (wifi_prov_cred_load
      (run_ops (wifi_prov_cred_erase
          (wifi_prov_cred_store cred_boot (some test_cred) 0 0 0).2.1 (-5) (-5) (-5)).2.1
        [CredOp.query get_fails get_fails get_fails,
         CredOp.load (some cred_zero) get_fails get_fails get_fails,
         CredOp.store (some cred_zero) 0 0 0,
         CredOp.erase 0 0 0])
      (some second_cred) get_fails get_fails get_fails).2.2.2 = some second_cred :=
  ⟨(C26_erase_then_absent (wifi_prov_cred_store cred_boot (some test_cred) 0 0 0).2.1
      (-5) (-5) (-5) _ (by decide) second_cred get_fails get_fails get_fails).2.2.1,
   (C26_erase_then_absent (wifi_prov_cred_store cred_boot (some test_cred) 0 0 0).2.1
      (-5) (-5) (-5) _ (by decide) second_cred get_fails get_fails get_fails).2.2.2.2⟩

end WifiCred

namespace Sensor

/-! ## C27: one open session per device -/

/-- A device marked as having a session is refused by `eai_sensor_session_open`,
which then changes nothing. -/
theorem open_busy (st : SensorState) (h : Nat) (device_id : Nat) (cfg : eai_sensor_config)
    (hinit : st.initialized = true) (i : Nat) (hdev : find_device_by_id st device_id = some i)
    (hbusy : st.device_has_session device_id = true) :
    eai_sensor_session_open st (some h) device_id (some cfg) = (-EBUSY, st) := by
  simp [eai_sensor_session_open, hinit, hdev, hbusy]

/-- C27 fails on the code: after `eai_sensor_init`, session `s1` is opened on
device 0 and closed, session `s2` is opened on device 0, and `s1` is closed a
second time; this second close returns 0 and clears the mark of device 0, so
that opening `s3` on device 0 returns 0 instead of `-EBUSY` while `s2` is
still open: two open sessions exist on device 0. `eai_sensor_session_start`
on the closed `s1` is refused with `-EINVAL`. -/
theorem C27_second_close_frees_device :
    (eai_sensor_init sensor_boot).1 = 0 ∧
    (eai_sensor_session_open st_sensor_init (some 1) 0 (some test_config)).1 = 0 ∧
    (eai_sensor_session_close st_s1_open (some 1)).1 = 0 ∧
    (st_s1_closed.sessions 1).opened = false ∧
    (eai_sensor_session_start st_s1_closed (some 1) none 0).1 = -EINVAL ∧
    (eai_sensor_session_open st_s1_closed (some 2) 0 (some test_config)).1 = 0 ∧
    (eai_sensor_session_open st_s2_open (some 3) 0 (some test_config)).1 = -EBUSY ∧
    (eai_sensor_session_close st_s2_open (some 1)).1 = 0 ∧
    st_s1_closed_again.device_has_session 0 = false ∧
    (st_s1_closed_again.sessions 2).opened = true ∧
    (st_s1_closed_again.sessions 2).device_id = 0 ∧
    (eai_sensor_session_open st_s1_closed_again (some 3) 0 (some test_config)).1 = 0 ∧
    (st_s3_open.sessions 2).opened = true ∧ (st_s3_open.sessions 2).device_id = 0 ∧
    (st_s3_open.sessions 3).opened = true ∧ (st_s3_open.sessions 3).device_id = 0 := by
  decide

end Sensor

namespace Audio

/-! ## C28: starting a stream -/

/-- Evaluation for C28: on an initialised module `eai_audio_stream_start`
returns `-EINVAL` for NULL, but after `eai_audio_stream_open` on the speaker
port and `eai_audio_stream_close` (both returning 0) the start of the closed
stream returns 0 and marks it active, although no port holds a stream; so does
the start of a structure that was never opened. -/
theorem C28_start_after_close :
    (eai_audio_init audio_boot).1 = 0 ∧
    (eai_audio_stream_start st_audio_init none).1 = -EINVAL ∧
    (eai_audio_stream_open st_audio_init (some 1) 0 (some test_config)).1 = 0 ∧
    (eai_audio_stream_close st_speaker_open (some 1)).1 = 0 ∧
    (st_speaker_closed.port_has_stream 0 = false ∧ (st_speaker_closed.streams 1).active = false) ∧
    (eai_audio_stream_start st_speaker_closed (some 1)).1 = 0 ∧
    (st_closed_started.streams 1).active = true ∧
    (∀ i, i < CONFIG_EAI_AUDIO_MAX_PORTS → st_closed_started.port_has_stream i = false) ∧
    (eai_audio_stream_start st_audio_init (some 5)).1 = 0 := by
  refine ⟨by decide, by decide, by decide, by decide, by decide, by decide, by decide, ?_,
    by decide⟩
  intro i hi
  have h : i = 0 ∨ i = 1 ∨ i = 2 ∨ i = 3 := by
    unfold CONFIG_EAI_AUDIO_MAX_PORTS at hi; omega
  rcases h with h | h | h | h <;> subst h <;> decide

/-! ## C29: direction and not-started errors -/

/-- What `eai_audio_stream_open` leaves in the stream when it returns 0. -/
theorem open_ok_stream (st : AudioState) (h port_id : Nat) (cfg : eai_audio_config)
    (hok : (eai_audio_stream_open st (some h) port_id (some cfg)).1 = 0) :
    ∃ i, find_port_by_id st port_id = some i ∧
      ((eai_audio_stream_open st (some h) port_id (some cfg)).2.streams h).direction =
        (st.ports i).direction ∧
      ((eai_audio_stream_open st (some h) port_id (some cfg)).2.streams h).active = false ∧
      ((eai_audio_stream_open st (some h) port_id (some cfg)).2.streams h).frame_position = 0 := by
  unfold eai_audio_stream_open at hok ⊢
  by_cases hi : st.initialized = true
  · cases hf : find_port_by_id st port_id with
    | none => simp [hi, hf, ENODEV] at hok
    | some i =>
      by_cases hb : st.port_has_stream port_id = true
      · simp [hi, hf, hb, EBUSY] at hok
      · simp [hi, hf, hb, store]
  · simp [hi, EINVAL] at hok

/-- C29: on an initialised module, for a stream structure, non-NULL data and
`frames ≠ 0`: `eai_audio_stream_write` returns `-ENOTSUP` when the direction
of the stream is not output, whether the stream is started or not, and
`-EINVAL` when it is an output stream that is not active;
`eai_audio_stream_read` returns `-ENOTSUP` when the direction is not input and
`-EINVAL` when it is an input stream that is not active. In all four cases the
whole state (captured output, input read position, stream position) and the
caller's buffer are unchanged. The direction of a stream is the one of its
port and a stream is not active after a successful `eai_audio_stream_open` and
after `eai_audio_stream_pause`, and `eai_audio_stream_start` and
`eai_audio_stream_pause` keep the direction. -/
theorem C29_direction_and_not_started (st : AudioState) (h : Nat) (data : Nat → Nat)
    (frames timeout_ms : Nat) (hinit : st.initialized = true) (hframes : frames ≠ 0) :
    ((st.streams h).direction ≠ EAI_AUDIO_OUTPUT →
      eai_audio_stream_write st (some h) (some data) frames timeout_ms = (-ENOTSUP, st)) ∧
    ((st.streams h).direction = EAI_AUDIO_OUTPUT → (st.streams h).active = false →
      eai_audio_stream_write st (some h) (some data) frames timeout_ms = (-EINVAL, st)) ∧
    ((st.streams h).direction ≠ EAI_AUDIO_INPUT →
      eai_audio_stream_read st (some h) (some data) frames timeout_ms =
        (-ENOTSUP, st, some data)) ∧
    ((st.streams h).direction = EAI_AUDIO_INPUT → (st.streams h).active = false →
      eai_audio_stream_read st (some h) (some data) frames timeout_ms =
        (-EINVAL, st, some data)) ∧
    (∀ port_id cfg, (eai_audio_stream_open st (some h) port_id (some cfg)).1 = 0 →
      ∃ i, find_port_by_id st port_id = some i ∧
        ((eai_audio_stream_open st (some h) port_id (some cfg)).2.streams h).direction =
          (st.ports i).direction ∧
        ((eai_audio_stream_open st (some h) port_id (some cfg)).2.streams h).active = false) ∧
    (((eai_audio_stream_start st (some h)).2.streams h).direction = (st.streams h).direction ∧
     ((eai_audio_stream_start st (some h)).2.streams h).active = true) ∧
    (((eai_audio_stream_pause st (some h)).2.streams h).direction = (st.streams h).direction ∧
     ((eai_audio_stream_pause st (some h)).2.streams h).active = false) := by
  refine ⟨?_, ?_, ?_, ?_, ?_, ?_, ?_⟩
  · intro hd
    simp [eai_audio_stream_write, hinit, hframes, hd]
  · intro hd ha
    simp [eai_audio_stream_write, hinit, hframes, hd, ha]
  · intro hd
    simp [eai_audio_stream_read, hinit, hframes, hd]
  · intro hd ha
    simp [eai_audio_stream_read, hinit, hframes, hd, ha]
  · intro port_id cfg hok
    obtain ⟨i, h1, h2, h3, _⟩ := open_ok_stream st h port_id cfg hok
    exact ⟨i, h1, h2, h3⟩
  · simp [eai_audio_stream_start, hinit, store]
  · simp [eai_audio_stream_pause, hinit, store]

/-- Witness for C29: the streams of `test_stream_write_input_stream` (started,
on the microphone) and `test_stream_write_not_started` (on the speaker). -/
theorem C29_direction_and_not_started_witness :
    (eai_audio_stream_write st_mic_started (some 2) (some one_sample) 1 0).1 = -ENOTSUP ∧
    (eai_audio_stream_write st_speaker_open (some 1) (some one_sample) 1 0).1 = -EINVAL ∧
    (eai_audio_stream_write st_speaker_paused (some 1) (some one_sample) 1 0).1 = -EINVAL ∧
    (eai_audio_stream_read st_speaker_open (some 1) (some one_sample) 1 0).1 = -ENOTSUP ∧
    (eai_audio_stream_read st_mic_open (some 2) (some one_sample) 1 0).1 = -EINVAL :=
  ⟨congrArg Prod.fst
      ((C29_direction_and_not_started st_mic_started 2 one_sample 1 0 (by decide)
        (by decide)).1 (by decide)),
   congrArg Prod.fst
      ((C29_direction_and_not_started st_speaker_open 1 one_sample 1 0 (by decide)
        (by decide)).2.1 (by decide) (by decide)),
   congrArg Prod.fst
      ((C29_direction_and_not_started st_speaker_paused 1 one_sample 1 0 (by decide)
        (by decide)).2.1 (by decide) (by decide)),
   congrArg Prod.fst
      ((C29_direction_and_not_started st_speaker_open 1 one_sample 1 0 (by decide)
        (by decide)).2.2.1 (by decide)),
   congrArg Prod.fst
      ((C29_direction_and_not_started st_mic_open 2 one_sample 1 0 (by decide)
        (by decide)).2.2.2.1 (by decide) (by decide))⟩

/-! ## C30: initialising again after a deinit -/

/-- The tables after `eai_audio_init`, from any state. -/
theorem init_tables (st : AudioState) :
    (eai_audio_init st).1 = 0 ∧
    (eai_audio_init st).2.initialized = true ∧
    (eai_audio_init st).2.port_count = 2 ∧
    (eai_audio_init st).2.ports 0 = speaker_port ∧
    (eai_audio_init st).2.ports 1 = mic_port ∧
    (∀ i, i < CONFIG_EAI_AUDIO_MAX_PORTS → (eai_audio_init st).2.port_has_stream i = false) ∧
    (eai_audio_init st).2.route_count = 0 ∧
    (eai_audio_init st).2.output_frames = 0 ∧
    (∀ i, i < TEST_BUF_BYTES → (eai_audio_init st).2.output_buf i = 0) ∧
    (eai_audio_init st).2.input_frames = 0 ∧
    (eai_audio_init st).2.input_read_pos = 0 ∧
    (∀ i, i < TEST_BUF_BYTES → (eai_audio_init st).2.input_buf i = 0) := by
  refine ⟨rfl, rfl, rfl, rfl, rfl, ?_, rfl, rfl, ?_, rfl, rfl, ?_⟩
  · intro i hi
    simp [eai_audio_init, setup_default_ports, clear_has_stream, hi]
  · intro i hi
    simp [eai_audio_init, setup_default_ports, memset0, hi]
  · intro i hi
    simp [eai_audio_init, setup_default_ports, memset0, hi]

/-- After `eai_audio_init` the two default ports are found by their ids. -/
theorem init_find_port (st : AudioState) :
    find_port_by_id (eai_audio_init st).2 0 = some 0 ∧
    find_port_by_id (eai_audio_init st).2 1 = some 1 := by
  constructor <;> rfl

/-- The state `st_in_use` differs from the state after the first init in its
gain, its route count, its stream marks and its captured output. -/
theorem st_in_use_tables :
    st_in_use.initialized = true ∧
    (st_in_use.ports 0).gain.current_cb = -1000 ∧
    st_in_use.route_count = 1 ∧
    st_in_use.port_has_stream 0 = true ∧
    st_in_use.output_frames = 1 ∧
    st_in_use.output_buf 0 = 100 ∧
    (eai_audio_deinit st_in_use).1 = 0 := by
  decide

/-- C30: from every state of the module (so after any sequence of
operations), `eai_audio_deinit` followed by `eai_audio_init` ends with an init
that returns 0 and leaves the tables of the first init: two ports, the default
speaker (gain 0 cB) and microphone, no port marked as having a stream, route
count 0, no captured output frame and a zeroed output buffer, no injected
input frame, read position 0 and a zeroed input buffer; `eai_audio_stream_open`
then returns 0 on each of the two ports. -/
theorem C30_init_after_deinit_resets (st : AudioState) :
    (eai_audio_init (eai_audio_deinit st).2).1 = 0 ∧
    same_tables (eai_audio_init (eai_audio_deinit st).2).2 (eai_audio_init audio_boot).2 ∧
    (eai_audio_init (eai_audio_deinit st).2).2.initialized = true ∧
    eai_audio_get_port_count (eai_audio_init (eai_audio_deinit st).2).2 = 2 ∧
    (eai_audio_init (eai_audio_deinit st).2).2.ports 0 = speaker_port ∧
    (eai_audio_init (eai_audio_deinit st).2).2.ports 1 = mic_port ∧
    eai_audio_get_gain (eai_audio_init (eai_audio_deinit st).2).2 0 true = (0, some 0) ∧
    (∀ i, i < CONFIG_EAI_AUDIO_MAX_PORTS →
      (eai_audio_init (eai_audio_deinit st).2).2.port_has_stream i = false) ∧
    eai_audio_get_route_count (eai_audio_init (eai_audio_deinit st).2).2 = 0 ∧
    (eai_audio_init (eai_audio_deinit st).2).2.output_frames = 0 ∧
    (∀ i, i < TEST_BUF_BYTES → (eai_audio_init (eai_audio_deinit st).2).2.output_buf i = 0) ∧
    (eai_audio_init (eai_audio_deinit st).2).2.input_frames = 0 ∧
    (eai_audio_init (eai_audio_deinit st).2).2.input_read_pos = 0 ∧
    (∀ i, i < TEST_BUF_BYTES → (eai_audio_init (eai_audio_deinit st).2).2.input_buf i = 0) ∧
    (∀ h cfg,
      (eai_audio_stream_open (eai_audio_init (eai_audio_deinit st).2).2 (some h) 0
        (some cfg)).1 = 0 ∧
      (eai_audio_stream_open (eai_audio_init (eai_audio_deinit st).2).2 (some h) 1
        (some cfg)).1 = 0) := by
  generalize (eai_audio_deinit st).2 = s
  obtain ⟨t1, t2, t3, t4, t5, t6, t7, t8, t9, t10, t11, t12⟩ := init_tables s
  obtain ⟨b1, b2, b3, b4, b5, b6, b7, b8, b9, b10, b11, b12⟩ := init_tables audio_boot
  obtain ⟨f0, f1⟩ := init_find_port s
  have hs0 := t6 0 (by decide)
  have hs1 := t6 1 (by decide)
  refine ⟨t1, ⟨?_, ?_, ?_, ?_, ?_, ?_, ?_, ?_, ?_, ?_⟩, t2, ?_, t4, t5, ?_, t6, ?_, t8, t9, t10,
    t11, t12, ?_⟩
  · rw [t2, b2]
  · rw [t3, b3]
  · intro i hi
    rw [t3] at hi
    have h : i = 0 ∨ i = 1 := by omega
    rcases h with h | h <;> subst h
    · rw [t4, b4]
    · rw [t5, b5]
  · intro i hi; rw [t6 i hi, b6 i hi]
  · rw [t7, b7]
  · rw [t8, b8]
  · intro i hi; rw [t9 i hi, b9 i hi]
  · rw [t10, b10]
  · rw [t11, b11]
  · intro i hi; rw [t12 i hi, b12 i hi]
  · simp [eai_audio_get_port_count, t2, t3]
  · simp [eai_audio_get_gain, t2, f0, t4, speaker_port]
  · simp [eai_audio_get_route_count, t2, t7]
  · intro h cfg
    constructor
    · simp [eai_audio_stream_open, t2, f0, hs0]
    · simp [eai_audio_stream_open, t2, f1, hs1]

end Audio

namespace Mixer

/-! ## C34: the period of the mixer thread -/

/-- With a sample rate that is not zero the period is defined and at least
1 ms. -/
theorem period_ms_defined (c : eai_audio_mixer_config) (h : c.sample_rate ≠ 0) :
    ∃ p, period_ms c = some p ∧ 1 ≤ p := by
  unfold period_ms
  rw [if_neg h]
  by_cases h0 : (c.period_frames * 1000) % U32 / c.sample_rate = 0
  · exact ⟨1, by simp [h0], le_refl _⟩
  · exact ⟨(c.period_frames * 1000) % U32 / c.sample_rate, by simp [h0],
      Nat.pos_of_ne_zero h0⟩

/-- Evaluation for C34: `eai_audio_mixer_init` accepts a configuration whose
`sample_rate` is 0 (it returns 0 and starts the mixer thread), and for this
configuration the division `(period_frames * 1000) / sample_rate` of the
thread is a division by zero; for the configuration of the tests and for one
with a period below a millisecond the timeout is 4 ms and 1 ms. -/
theorem C34_zero_sample_rate_accepted :
    (eai_audio_mixer_init (some zero_rate_config) osal_ok mixer_zero).1 = 0 ∧
    (eai_audio_mixer_init (some zero_rate_config) osal_ok mixer_zero).2.running = true ∧
    (eai_audio_mixer_init (some zero_rate_config) osal_ok mixer_zero).2.config.sample_rate = 0 ∧
    period_ms (eai_audio_mixer_init (some zero_rate_config) osal_ok mixer_zero).2.config = none ∧
    period_ms mono_config = some 4 ∧
    period_ms short_period_config = some 1 := by
  decide

/-! ## C35: whole frames in the rings -/

/-- The count of a slot after a ring write that fits. -/
theorem ring_count_ring_write (s : mixer_slot) (d : Nat → Int) (n : Nat) (h : slot_ok s)
    (hn : n ≤ RING_CAP_SAMPLES - ring_count s) :
    ring_count (ring_write s d n) = ring_count s + n := by
  obtain ⟨h1, h2, h3⟩ := h
  obtain ⟨f1, f2, _, _, _⟩ := ring_write_fields s d n h1
  unfold ring_count at *
  rw [f1, f2]
  rw [cap_eq] at *
  unfold U32 at *
  omega

/-- The count of a slot after one pass over it. -/
theorem ring_count_drain (ps : Nat) (s : mixer_slot) (h : slot_ok s) :
    ring_count (drain ps s) = if ring_count s < ps then 0 else ring_count s - ps := by
  obtain ⟨h1, h2, h3⟩ := h
  unfold drain
  split_ifs with hu
  · unfold ring_count at *
    simp only
    rw [cap_eq] at *
    unfold U32 at *
    omega
  · unfold ring_count at *
    simp only
    rw [cap_eq] at *
    unfold U32 at *
    omega

/-- The number of samples a write stores is a whole number of frames. -/
theorem to_write_of_frames (c : eai_audio_mixer_config) (s : mixer_slot) (frames : Nat)
    (h : slot_ok s) :
    to_write_of c s frames =
      (if (frames * c.channels) % U32 < ring_space s then (frames * c.channels) % U32
        else ring_space s) / c.channels * c.channels := by
  have hsp := ring_space_eq s h.2.2
  unfold to_write_of
  apply Nat.mod_eq_of_lt
  refine lt_of_le_of_lt (Nat.div_mul_le_self _ _) ?_
  have : ring_space s < U32 := by
    rw [hsp, cap_eq]; unfold U32; omega
  split_ifs <;> omega

/-- A write adds a whole number of frames to the slot it is given and leaves
the configuration and the other slots alone. -/
theorem write_count (slot : Nat) (data : Option (Nat → Int)) (frames : Nat) (st : MixerState)
    (h : Inv st) :
    (eai_audio_mixer_write slot data frames st).2.config = st.config ∧
    (∀ i, i ≠ slot → (eai_audio_mixer_write slot data frames st).2.slots i = st.slots i) ∧
    ∃ k, ring_count ((eai_audio_mixer_write slot data frames st).2.slots slot) =
      ring_count (st.slots slot) + k * st.config.channels := by
  by_cases hrej : data = none ∨ st.initialized = false ∨ frames = 0 ∨
      slot ≥ EAI_AUDIO_MIXER_MAX_SLOTS ∨ (st.slots slot).active = false
  · rw [write_state_rejected slot data frames st hrej]
    exact ⟨rfl, fun _ _ => rfl, 0, by simp⟩
  · obtain ⟨h1, h2, h3⟩ := h
    simp only [not_or] at hrej
    obtain ⟨g0, _, g2, g3, g4⟩ := hrej
    cases data with
    | none => exact absurd rfl g0
    | some d =>
      rw [write_state slot d frames st h1 g2 (by omega) (by simpa using g4)]
      refine ⟨rfl, fun i hi => by simp [store, hi], ?_⟩
      simp only [store, if_true]
      rw [ring_count_ring_write _ _ _ (h3 slot)
        (by rw [← ring_space_eq _ (h3 slot).2.2]; exact to_write_of_le _ _ _)]
      exact ⟨_, by rw [to_write_of_frames _ _ _ (h3 slot)]⟩

/-- A pass leaves the count of a slot alone, or removes everything, or removes
one period. -/
theorem pass_count (st : MixerState) (h : Inv st) (i : Nat) :
    ring_count ((mixer_pass st).slots i) = ring_count (st.slots i) ∨
    ring_count ((mixer_pass st).slots i) = 0 ∨
    ring_count ((mixer_pass st).slots i) + st.config.period_frames * st.config.channels =
      ring_count (st.slots i) := by
  obtain ⟨h1, h2, h3⟩ := h
  rw [mixer_pass_slots st (fun i => (h3 i).2.1)]
  split_ifs with hact
  · rw [ring_count_drain _ _ (h3 i)]
    have hps : period_samples st.config = st.config.period_frames * st.config.channels := by
      obtain ⟨_, c1, c2, c3, c4⟩ := h2
      unfold period_samples
      apply Nat.mod_eq_of_lt
      have : st.config.period_frames * st.config.channels ≤ 1024 * 2 :=
        Nat.mul_le_mul c2 c4
      unfold U32; omega
    rw [hps]
    split_ifs with hu
    · right; left; rfl
    · right; right; omega
  · left; rfl

/-- In every reachable state the count of every slot is a whole number of
frames. -/
theorem whole_frames_of_reachable (st : MixerState) (h : Reachable st) (i : Nat) :
    st.config.channels ∣ ring_count (st.slots i) := by
  induction h generalizing i with
  | init c osal st0 _ h0 =>
    have hz : ring_count ((eai_audio_mixer_init (some c) osal st0).2.slots i) = 0 := by
      simp only [eai_audio_mixer_init] at h0 ⊢
      split_ifs at h0 ⊢ <;> simp at h0
      simp [zero_slot, ring_count, U32]
    rw [hz]; exact dvd_zero _
  | slot_open p st _ ih =>
    simp only [eai_audio_mixer_slot_open]
    split_ifs
    · exact ih i
    · cases slot_open_loop st.slots 0 EAI_AUDIO_MIXER_MAX_SLOTS with
      | none => exact ih i
      | some k =>
        simp only [store]
        split_ifs
        · simp [ring_count, U32]
        · exact ih i
  | slot_close k st _ ih =>
    simp only [eai_audio_mixer_slot_close]
    split_ifs
    · exact ih i
    · simp only [store]
      split_ifs
      · simp [ring_count, U32]
      · exact ih i
  | write k d f st _ hr ih =>
    obtain ⟨w1, w2, n, w3⟩ := write_count k d f st (Inv_of_reachable st hr)
    rw [w1]
    by_cases hi : i = k
    · subst hi
      rw [w3]
      exact Nat.dvd_add (ih i) (Nat.dvd_mul_left _ _)
    · rw [w2 i hi]; exact ih i
  | set_volume k v st _ _ ih =>
    simp only [eai_audio_mixer_set_volume]
    split_ifs
    · exact ih i
    · simp only [store]
      split_ifs with hi
      · subst hi; exact ih i
      · exact ih i
  | pass st hr ih =>
    rw [mixer_pass_config]
    rcases pass_count st (Inv_of_reachable st hr) i with h | h | h
    · rw [h]; exact ih i
    · rw [h]; exact dvd_zero _
    · have h1 := ih i
      rw [← h] at h1
      exact (Nat.dvd_add_left (Nat.dvd_mul_left _ _)).mp h1

/-- C35: in every reachable mixer state the buffered sample count
(`write - read`) of every slot is a multiple of the configured channel count;
a write adds a whole number of frames to its slot, and a mixer pass leaves the
count of a slot as it is (inactive slot), or removes everything buffered, or
removes one whole period of `period_frames * channels` samples. -/
theorem C35_whole_frames (st : MixerState) (hr : Reachable st) :
    (∀ i, st.config.channels ∣ ring_count (st.slots i)) ∧
    (∀ slot data frames, ∃ k,
      ring_count ((eai_audio_mixer_write slot data frames st).2.slots slot) =
        ring_count (st.slots slot) + k * st.config.channels) ∧
    (∀ i, ring_count ((mixer_pass st).slots i) = ring_count (st.slots i) ∨
      ring_count ((mixer_pass st).slots i) = 0 ∨
      ring_count ((mixer_pass st).slots i) + st.config.period_frames * st.config.channels =
        ring_count (st.slots i)) :=
  ⟨whole_frames_of_reachable st hr,
   fun slot data frames => (write_count slot data frames st (Inv_of_reachable st hr)).2.2,
   pass_count st (Inv_of_reachable st hr)⟩

/-- Witness for C35: the opened stereo stream (2 channels) before and after
a write of 3 frames. -/
theorem C35_whole_frames_witness :
    st_stereo_open.config.channels = 2 ∧
    (∀ i, st_stereo_open.config.channels ∣ ring_count (st_stereo_open.slots i)) ∧
    (∃ k, ring_count
        ((eai_audio_mixer_write 0 (some (const_data 1)) 3 st_stereo_open).2.slots 0) =
      ring_count (st_stereo_open.slots 0) + k * st_stereo_open.config.channels) :=
  ⟨rfl, (C35_whole_frames st_stereo_open reachable_st_stereo_open).1,
   (C35_whole_frames st_stereo_open reachable_st_stereo_open).2.1 0 (some (const_data 1)) 3⟩

end Mixer

namespace Ipc

/-! ## C36: one slot per handle -/

/-- Evaluation for C36: after `eai_ipc_init` and the registration of endpoint A
(handle 1) under the name `data`, a second `eai_ipc_register_endpoint` with the
same handle and name returns 0; in the resulting reachable state the slots 0
and 1 are both active with handle 1 and are each other's peer, so A is paired
with itself and its bound callback has fired twice; one
`eai_ipc_deregister_endpoint` of A then returns 0 and leaves slot 1 active with
handle 1, where `find_by_handle` still finds it. -/
theorem C36_handle_registered_twice :
    Reachable st_a_twice ∧
    (eai_ipc_register_endpoint (some 1) (some (mk_cfg name_data (some 10) (some 11) 100))
      st_a).1 = 0 ∧
    ((st_a_twice.epts 0).active = true ∧ (st_a_twice.epts 0).handle = some 1) ∧
    ((st_a_twice.epts 1).active = true ∧ (st_a_twice.epts 1).handle = some 1) ∧
    ((st_a_twice.epts 0).peer = some 1 ∧ (st_a_twice.epts 1).peer = some 0) ∧
    st_a_twice.calls = [Call.bound 10 100, Call.bound 10 100] ∧
    (eai_ipc_deregister_endpoint (some 1) st_a_twice).1 = 0 ∧
    ((st_a_twice_dereg.epts 1).active = true ∧ (st_a_twice_dereg.epts 1).handle = some 1) ∧
    find_by_handle st_a_twice_dereg.epts (some 1) = some 1 :=
  ⟨Reachable.register _ _ _ reachable_st_a, by decide, by decide, by decide, by decide,
    by decide, by decide, by decide, by decide⟩

/-! ## C37: names are compared on 31 bytes -/

/-- A registration with a non-empty name into a table with a free slot returns
0 and stores the first 31 bytes of the name. -/
theorem register_stores_prefix (st : IpcState) (e : Nat) (c : eai_ipc_ept_cfg) (nm : List Char)
    (s : Nat) (hname : c.name = some nm) (hne : nm ≠ []) (hs : find_slot st.epts = some s) :
    (eai_ipc_register_endpoint (some e) (some c) st).1 = 0 ∧
    ((eai_ipc_register_endpoint (some e) (some c) st).2.epts s).name =
      nm.take (EAI_IPC_EPT_NAME_MAX - 1) ∧
    ((eai_ipc_register_endpoint (some e) (some c) st).2.epts s).active = true := by
  cases hp : find_unbound_peer (set_at st.epts s (new_slot e c nm))
      (nm.take (EAI_IPC_EPT_NAME_MAX - 1)) s with
  | none =>
    obtain ⟨r1, r2, _⟩ := register_unpaired st e c nm s hname hne hs hp
    exact ⟨r1, by rw [r2]; rfl, by rw [r2]; rfl⟩
  | some p =>
    obtain ⟨r1, r2, _⟩ := register_paired st e c nm s p hname hne hs hp
    exact ⟨r1, by rw [r2]; rfl, by rw [r2]; rfl⟩

/-- Two registrations into an empty table: the endpoints land in the slots 0
and 1 and are paired exactly when the stored names are equal. -/
theorem register_two (st : IpcState)
    (hempty : ∀ i, i < MAX_ENDPOINTS → (st.epts i).active = false)
    (ea eb : Nat) (ca cb : eai_ipc_ept_cfg) (a b : List Char)
    (ha : ca.name = some a) (hb : cb.name = some b) (hane : a ≠ []) (hbne : b ≠ []) :
    (eai_ipc_register_endpoint (some ea) (some ca) st).1 = 0 ∧
    (eai_ipc_register_endpoint (some eb) (some cb) (after_a st ea ca)).1 = 0 ∧
    ((after_ab st ea ca eb cb).epts 0).name = a.take (EAI_IPC_EPT_NAME_MAX - 1) ∧
    ((after_ab st ea ca eb cb).epts 1).name = b.take (EAI_IPC_EPT_NAME_MAX - 1) ∧
    (a.take (EAI_IPC_EPT_NAME_MAX - 1) = b.take (EAI_IPC_EPT_NAME_MAX - 1) →
      paired01 (after_ab st ea ca eb cb)) ∧
    (a.take (EAI_IPC_EPT_NAME_MAX - 1) ≠ b.take (EAI_IPC_EPT_NAME_MAX - 1) →
      ((after_ab st ea ca eb cb).epts 0).peer = none ∧
      ((after_ab st ea ca eb cb).epts 1).peer = none) := by
  have hs0 : find_slot st.epts = some 0 :=
    find_slot_lowest st.epts 0 (by decide) (hempty 0 (by decide)) (fun i hi => by omega)
  have hp0 : find_unbound_peer (set_at st.epts 0 (new_slot ea ca a))
      (a.take (EAI_IPC_EPT_NAME_MAX - 1)) 0 = none :=
    find_unbound_peer_none st.epts 0 _ _ (hempty 0 (by decide))
      (fun i hi hw => by have := hw.1; rw [hempty i hi] at this; cases this)
  obtain ⟨r1, r2, r3, _, _⟩ := register_unpaired st ea ca a 0 ha hane hs0 hp0
  have h1 : ∀ i, i ≠ 0 → (after_a st ea ca).epts i = st.epts i := r3
  have h0 : (after_a st ea ca).epts 0 = new_slot ea ca a := r2
  have hs1 : find_slot (after_a st ea ca).epts = some 1 :=
    find_slot_lowest _ 1 (by decide) (by rw [h1 1 (by decide)]; exact hempty 1 (by decide))
      (fun i hi => by
        have : i = 0 := by omega
        subst this; rw [h0]; rfl)
  have hwait : ∀ name i, i < MAX_ENDPOINTS →
      (waiting (after_a st ea ca).epts name i ↔
        i = 0 ∧ a.take (EAI_IPC_EPT_NAME_MAX - 1) = name) := by
    intro name i hi
    by_cases hi0 : i = 0
    · subst hi0
      unfold waiting
      rw [h0]
      simp [new_slot]
    · unfold waiting
      rw [h1 i hi0, hempty i hi]
      simp [hi0]
  by_cases heq : a.take (EAI_IPC_EPT_NAME_MAX - 1) = b.take (EAI_IPC_EPT_NAME_MAX - 1)
  · have hp1 : find_unbound_peer (set_at (after_a st ea ca).epts 1 (new_slot eb cb b))
        (b.take (EAI_IPC_EPT_NAME_MAX - 1)) 1 = some 0 :=
      find_unbound_peer_lowest _ 1 _ _
        (by rw [h1 1 (by decide)]; exact hempty 1 (by decide)) 0 (by decide)
        ((hwait _ 0 (by decide)).mpr ⟨rfl, heq⟩) (fun i hi => by omega)
    obtain ⟨q1, q2, q3, _, _⟩ := register_paired (after_a st ea ca) eb cb b 1 0 hb hbne hs1 hp1
    have e1 : (after_ab st ea ca eb cb).epts 1 = { new_slot eb cb b with peer := some 0 } := q2
    have e0 : (after_ab st ea ca eb cb).epts 0 =
        { (after_a st ea ca).epts 0 with peer := some 1 } := q3
    refine ⟨r1, q1, ?_, ?_, ?_, ?_⟩
    · rw [e0, h0]; rfl
    · rw [e1]; rfl
    · intro _; exact ⟨by rw [e0], by rw [e1]⟩
    · intro hne; exact absurd heq hne
  · have hp1 : find_unbound_peer (set_at (after_a st ea ca).epts 1 (new_slot eb cb b))
        (b.take (EAI_IPC_EPT_NAME_MAX - 1)) 1 = none :=
      find_unbound_peer_none _ 1 _ _
        (by rw [h1 1 (by decide)]; exact hempty 1 (by decide))
        (fun i hi hw => heq ((hwait _ i hi).mp hw).2)
    obtain ⟨q1, q2, q3, _, _⟩ := register_unpaired (after_a st ea ca) eb cb b 1 hb hbne hs1 hp1
    have e1 : (after_ab st ea ca eb cb).epts 1 = new_slot eb cb b := q2
    have e0 : (after_ab st ea ca eb cb).epts 0 = (after_a st ea ca).epts 0 :=
      q3 0 (by decide)
    refine ⟨r1, q1, ?_, ?_, ?_, ?_⟩
    · rw [e0, h0]; rfl
    · rw [e1]; rfl
    · intro h; exact absurd h heq
    · intro _; exact ⟨by rw [e0, h0]; rfl, by rw [e1]; rfl⟩

/-- C37: `eai_ipc_register_endpoint` accepts a non-empty name of any length
(it returns 0 whenever a slot is free) and stores its first
`EAI_IPC_EPT_NAME_MAX - 1` = 31 bytes; two endpoints registered one after the
other into an empty table become each other's peer exactly when their names
agree on their first 31 bytes, and stay unbound otherwise; for names of at
most 31 characters this is equality of the names. -/
theorem C37_names_compared_on_31_bytes (st : IpcState)
    (hempty : ∀ i, i < MAX_ENDPOINTS → (st.epts i).active = false)
    (ea eb : Nat) (ca cb : eai_ipc_ept_cfg) (a b : List Char)
    (ha : ca.name = some a) (hb : cb.name = some b) (hane : a ≠ []) (hbne : b ≠ []) :
    EAI_IPC_EPT_NAME_MAX - 1 = 31 ∧
    (∀ st0 e c nm s, c.name = some nm → nm ≠ [] → find_slot st0.epts = some s →
      (eai_ipc_register_endpoint (some e) (some c) st0).1 = 0 ∧
      ((eai_ipc_register_endpoint (some e) (some c) st0).2.epts s).name = nm.take 31) ∧
    (eai_ipc_register_endpoint (some ea) (some ca) st).1 = 0 ∧
    (eai_ipc_register_endpoint (some eb) (some cb) (after_a st ea ca)).1 = 0 ∧
    ((after_ab st ea ca eb cb).epts 0).name = a.take 31 ∧
    ((after_ab st ea ca eb cb).epts 1).name = b.take 31 ∧
    (paired01 (after_ab st ea ca eb cb) ↔ a.take 31 = b.take 31) ∧
    (a.take 31 ≠ b.take 31 →
      ((after_ab st ea ca eb cb).epts 0).peer = none ∧
      ((after_ab st ea ca eb cb).epts 1).peer = none) ∧
    (a.length ≤ 31 → b.length ≤ 31 → (paired01 (after_ab st ea ca eb cb) ↔ a = b)) := by
  have h31 : EAI_IPC_EPT_NAME_MAX - 1 = 31 := rfl
  obtain ⟨t1, t2, t3, t4, t5, t6⟩ := register_two st hempty ea eb ca cb a b ha hb hane hbne
  rw [h31] at t3 t4 t5 t6
  have hiff : paired01 (after_ab st ea ca eb cb) ↔ a.take 31 = b.take 31 := by
    constructor
    · intro hp
      by_contra hne
      have := (t6 hne).1
      rw [hp.1] at this
      cases this
    · exact t5
  refine ⟨h31, ?_, t1, t2, t3, t4, hiff, t6, ?_⟩
  · intro st0 e c nm s hname hne hs
    obtain ⟨r1, r2, _⟩ := register_stores_prefix st0 e c nm s hname hne hs
    exact ⟨r1, r2⟩
  · intro hla hlb
    rw [hiff, List.take_of_length_le hla, List.take_of_length_le hlb]

/-- Witness for C37: after `eai_ipc_init`, endpoints registered under a
40-byte and a 33-byte name that share their first 31 bytes are paired, and
both are stored under these 31 bytes. -/
theorem C37_names_compared_on_31_bytes_witness :
    name40x ≠ name33y ∧
    paired01 (after_ab st_ipc_init 1 (mk_cfg name40x (some 10) (some 11) 100)
      2 (mk_cfg name33y (some 20) (some 21) 200)) ∧
    ((after_ab st_ipc_init 1 (mk_cfg name40x (some 10) (some 11) 100)
      2 (mk_cfg name33y (some 20) (some 21) 200)).epts 0).name = name31 :=
  ⟨by decide,
   (C37_names_compared_on_31_bytes st_ipc_init (fun _ _ => rfl) 1 2
      (mk_cfg name40x (some 10) (some 11) 100) (mk_cfg name33y (some 20) (some 21) 200)
      name40x name33y rfl rfl (by decide) (by decide)).2.2.2.2.2.2.1.mpr (by decide),
   (C37_names_compared_on_31_bytes st_ipc_init (fun _ _ => rfl) 1 2
      (mk_cfg name40x (some 10) (some 11) 100) (mk_cfg name33y (some 20) (some 21) 200)
      name40x name33y rfl rfl (by decide) (by decide)).2.2.2.2.1.trans (by decide)⟩

end Ipc

namespace Sensor

/-! ## The queue of injected readings -/

/-- The number of queued readings. -/
theorem pending_length (st : SensorState) : (pending st).length = st.test_data_count := by
  simp [pending]

/-- The queued readings before and after the oldest one is taken off the ring. -/
theorem pending_take (st : SensorState) (h : st.test_data_count ≠ 0)
    (ht : st.test_data_tail < TEST_DATA_MAX) :
    pending st = st.test_data st.test_data_tail ::
      pending { st with test_data_tail := (st.test_data_tail + 1) % TEST_DATA_MAX,
                        test_data_count := st.test_data_count - 1 } := by
  unfold pending
  obtain ⟨n, hn⟩ : ∃ n, st.test_data_count = n + 1 := ⟨st.test_data_count - 1, by omega⟩
  simp only [hn, Nat.add_sub_cancel]
  rw [List.range_succ_eq_map, List.map_cons, List.map_map]
  congr 1
  · rw [Nat.add_zero, Nat.mod_eq_of_lt ht]
  · apply List.map_congr_left
    intro k _
    simp only [Function.comp, TEST_DATA_MAX]
    congr 1
    omega

/-- Nothing is scanned when no reading is wanted. -/
theorem scanned_zero (dev : Nat) (l : List eai_sensor_data) : scanned dev 0 l = 0 := by
  cases l <;> simp [scanned]

/-- A read scans at most the whole queue. -/
theorem scanned_le (dev : Nat) (l : List eai_sensor_data) (need : Nat) :
    scanned dev need l ≤ l.length := by
  induction l generalizing need with
  | nil => simp [scanned]
  | cons td rest ih =>
    simp only [scanned, List.length_cons]
    split_ifs
    · omega
    · have := ih (need - 1); omega
    · have := ih need; omega

/-- The readings of the device among those scanned are the first `need`
readings of the device in the queue. -/
theorem matching_scanned (dev : Nat) (l : List eai_sensor_data) (need : Nat) :
    matching dev (l.take (scanned dev need l)) = (matching dev l).take need := by
  induction l generalizing need with
  | nil => simp [scanned, matching]
  | cons td rest ih =>
    by_cases h0 : need = 0
    · subst h0; simp [scanned, matching]
    · by_cases hm : td.device_id = dev
      · have := ih (need - 1)
        obtain ⟨n, rfl⟩ : ∃ n, need = n + 1 := ⟨need - 1, by omega⟩
        simp only [scanned, h0, hm, if_true, if_false, Nat.add_sub_cancel] at this ⊢
        rw [Nat.add_comm 1, List.take_succ_cons]
        simp only [matching, List.filter_cons, hm, decide_True, if_true, List.take_succ_cons]
        simp only [matching] at this
        rw [this]
      · have := ih need
        simp only [scanned, h0, hm, if_false]
        rw [Nat.add_comm 1, List.take_succ_cons]
        simp only [matching, List.filter_cons, hm, decide_False, Bool.false_eq_true, if_false]
        simp only [matching] at this
        rw [this]

/-- The loop of `eai_sensor_session_read` in terms of the queue. -/
theorem read_loop_spec (dev count : Nat) (fuel : Nat) (st : SensorState)
    (acc : List eai_sensor_data) (ht : st.test_data_tail < TEST_DATA_MAX)
    (hfuel : st.test_data_count ≤ fuel) :
    read_loop dev count fuel st acc =
      ({ st with
         test_data_tail :=
           (st.test_data_tail + scanned dev (count - acc.length) (pending st)) % TEST_DATA_MAX
         test_data_count :=
           st.test_data_count - scanned dev (count - acc.length) (pending st) },
       acc ++ matching dev ((pending st).take (scanned dev (count - acc.length) (pending st)))) := by
  induction fuel generalizing st acc with
  | zero =>
    have h0 : st.test_data_count = 0 := by omega
    have hp : pending st = [] := by simp [pending, h0]
    simp only [read_loop, hp, scanned, List.take_nil, matching, List.filter_nil, List.append_nil,
      Nat.add_zero, Nat.sub_zero, Nat.mod_eq_of_lt ht]
  | succ fuel ih =>
    by_cases hc : acc.length < count ∧ st.test_data_count > 0
    · have hne : st.test_data_count ≠ 0 := by omega
      have hp := pending_take st hne ht
      have hneed : count - acc.length ≠ 0 := by omega
      have ht1 : (st.test_data_tail + 1) % TEST_DATA_MAX < TEST_DATA_MAX :=
        Nat.mod_lt _ (by decide)
      rw [read_loop, if_pos hc]
      simp only
      rw [ih _ _ ht1 (by simp only; omega)]
      rw [hp]
      by_cases hm : (st.test_data st.test_data_tail).device_id = dev
      · have hl : count - (acc ++ [st.test_data st.test_data_tail]).length =
            count - acc.length - 1 := by
          rw [List.length_append, List.length_singleton]; omega
        simp only [hm, if_true, hl, scanned, hneed, if_false]
        rw [Nat.add_comm 1, List.take_succ_cons]
        simp only [matching, List.filter_cons, hm, decide_True, if_true, List.append_assoc,
          List.singleton_append]
        congr 2
        · unfold TEST_DATA_MAX; omega
        · omega
      · simp only [hm, if_false, scanned, hneed]
        rw [Nat.add_comm 1, List.take_succ_cons]
        simp only [matching, List.filter_cons, hm, decide_False, Bool.false_eq_true, if_false]
        congr 2
        · unfold TEST_DATA_MAX; omega
        · omega
    · rw [read_loop, if_neg hc]
      have hs : scanned dev (count - acc.length) (pending st) = 0 := by
        by_cases h1 : acc.length < count
        · have h0 : st.test_data_count = 0 := by omega
          have hp : pending st = [] := by simp [pending, h0]
          rw [hp]; rfl
        · have : count - acc.length = 0 := by omega
          rw [this]; exact scanned_zero dev _
      simp only [hs, List.take_zero, matching, List.filter_nil, List.append_nil, Nat.add_zero,
        Nat.sub_zero, Nat.mod_eq_of_lt ht]

/-- The queue after some readings were taken off its front. -/
theorem pending_drop (st : SensorState) (k : Nat) :
    pending { st with test_data_tail := (st.test_data_tail + k) % TEST_DATA_MAX,
                      test_data_count := st.test_data_count - k } = (pending st).drop k := by
  unfold pending
  simp only
  apply List.ext_getElem
  · simp
  · intro n h1 h2
    simp only [List.getElem_map, List.getElem_range, List.getElem_drop]
    congr 1
    unfold TEST_DATA_MAX
    omega

/-- The loop of `eai_sensor_session_flush` in terms of the queue. -/
theorem flush_loop_spec (dev callback user_data : Nat) (fuel : Nat) (st : SensorState)
    (ht : st.test_data_tail < TEST_DATA_MAX) (hfuel : st.test_data_count ≤ fuel) :
    flush_loop dev callback user_data fuel st =
      { st with
        delivered := st.delivered ++
          (matching dev (pending st)).map (fun td => (callback, td, user_data))
        test_data_tail := (st.test_data_tail + st.test_data_count) % TEST_DATA_MAX
        test_data_count := 0 } := by
  induction fuel generalizing st with
  | zero =>
    have h0 : st.test_data_count = 0 := by omega
    have hp : pending st = [] := by simp [pending, h0]
    simp only [flush_loop, hp, matching, List.filter_nil, List.map_nil, List.append_nil, h0,
      Nat.add_zero, Nat.mod_eq_of_lt ht]
    rw [← h0]
  | succ fuel ih =>
    by_cases hc : st.test_data_count > 0
    · have hne : st.test_data_count ≠ 0 := by omega
      have hp := pending_take st hne ht
      have ht1 : (st.test_data_tail + 1) % TEST_DATA_MAX < TEST_DATA_MAX :=
        Nat.mod_lt _ (by decide)
      rw [flush_loop, if_pos hc]
      simp only
      rw [ih _ ht1 (by simp only; omega)]
      have hq : pending
          { st with
            delivered :=
              if (st.test_data st.test_data_tail).device_id = dev then
                st.delivered ++ [(callback, st.test_data st.test_data_tail, user_data)]
              else st.delivered
            test_data_tail := (st.test_data_tail + 1) % TEST_DATA_MAX
            test_data_count := st.test_data_count - 1 } =
          pending { st with test_data_tail := (st.test_data_tail + 1) % TEST_DATA_MAX,
                            test_data_count := st.test_data_count - 1 } := rfl
      rw [hq, hp]
      by_cases hm : (st.test_data st.test_data_tail).device_id = dev
      · simp only [hm, if_true, matching, List.filter_cons, decide_True, List.map_cons,
          List.append_assoc, List.singleton_append]
        congr 1
        unfold TEST_DATA_MAX; omega
      · simp only [hm, if_false, matching, List.filter_cons, decide_False, Bool.false_eq_true]
        congr 1
        unfold TEST_DATA_MAX; omega
    · rw [flush_loop, if_neg hc]
      have h0 : st.test_data_count = 0 := by omega
      have hp : pending st = [] := by simp [pending, h0]
      simp only [hp, matching, List.filter_nil, List.map_nil, List.append_nil, h0,
        Nat.add_zero, Nat.mod_eq_of_lt ht]
      rw [← h0]

/-- The state and output of an accepted `eai_sensor_session_read`. -/
theorem read_accepted (st : SensorState) (h count timeout_ms : Nat)
    (hinit : st.initialized = true) (hact : (st.sessions h).active = true) (hcount : 0 < count)
    (ht : st.test_data_tail < TEST_DATA_MAX) :
    eai_sensor_session_read st (some h) true count timeout_ms =
      (to_int (matching (st.sessions h).device_id
          ((pending st).take (scanned (st.sessions h).device_id count (pending st)))).length,
       { st with
         test_data_tail :=
           (st.test_data_tail + scanned (st.sessions h).device_id count (pending st)) %
             TEST_DATA_MAX
         test_data_count :=
           st.test_data_count - scanned (st.sessions h).device_id count (pending st) },
       matching (st.sessions h).device_id
         ((pending st).take (scanned (st.sessions h).device_id count (pending st)))) := by
  have hc : ¬ count = 0 := by omega
  simp only [eai_sensor_session_read, hinit, hact, hc, Bool.not_true, Bool.false_eq_true,
    or_self, if_false]
  rw [read_loop_spec _ _ _ _ _ ht (le_refl _)]
  simp only [List.length_nil, Nat.sub_zero, List.nil_append, hinit]

/-- A rejected `eai_sensor_session_read` changes nothing. -/
theorem read_state_cases (st : SensorState) (session : Option Nat) (data : Bool)
    (count timeout_ms : Nat) (ht : st.test_data_tail < TEST_DATA_MAX) :
    (eai_sensor_session_read st session data count timeout_ms).2.1 = st ∨
    ∃ k, k ≤ st.test_data_count ∧
      (eai_sensor_session_read st session data count timeout_ms).2.1 =
        { st with test_data_tail := (st.test_data_tail + k) % TEST_DATA_MAX,
                  test_data_count := st.test_data_count - k } := by
  cases session with
  | none => left; rfl
  | some h =>
    by_cases hrej : (!st.initialized ∨ !data ∨ count = 0) = True
    · left; simp only [eai_sensor_session_read]; rw [if_pos (by simpa using hrej)]
    · by_cases hact : (st.sessions h).active = true
      · right
        refine ⟨scanned (st.sessions h).device_id count (pending st), ?_, ?_⟩
        · rw [← pending_length]; exact scanned_le _ _ _
        · simp only [eai_sensor_session_read]
          rw [if_neg (by simpa using hrej)]
          simp only [hact, Bool.not_true, Bool.false_eq_true, if_false]
          rw [read_loop_spec _ _ _ _ _ ht (le_refl _)]
          simp only [List.length_nil, Nat.sub_zero]
      · left
        simp only [eai_sensor_session_read]
        rw [if_neg (by simpa using hrej)]
        simp [hact]

/-- The ring invariant is kept when readings are taken off the front. -/
theorem QueueInv_take (st : SensorState) (k : Nat) (hk : k ≤ st.test_data_count)
    (h : QueueInv st) :
    QueueInv { st with test_data_tail := (st.test_data_tail + k) % TEST_DATA_MAX,
                       test_data_count := st.test_data_count - k } := by
  obtain ⟨hc, hh, ht⟩ := h
  refine ⟨?_, ?_, ?_⟩
  · simp only; omega
  · simp only [hh]; unfold TEST_DATA_MAX at *; omega
  · simp only; unfold TEST_DATA_MAX; omega

/-- The ring invariant is kept by `eai_sensor_session_flush`. -/
theorem QueueInv_flush (st : SensorState) (session : Option Nat) (h : QueueInv st) :
    QueueInv (eai_sensor_session_flush st session).2 := by
  cases session with
  | none => exact h
  | some s =>
    unfold eai_sensor_session_flush
    simp only
    split_ifs
    · exact h
    · exact h
    · cases hcb : (st.sessions s).callback with
      | none => simpa [hcb] using h
      | some cb =>
        simp only [hcb]
        rw [flush_loop_spec _ _ _ _ _ h.2.2 (le_refl _)]
        have := QueueInv_take st st.test_data_count (le_refl _) h
        simpa [QueueInv] using this

/-- The ring invariant is kept by `eai_sensor_test_inject_data`. -/
theorem QueueInv_inject (st : SensorState) (data : Option eai_sensor_data) (h : QueueInv st) :
    QueueInv (eai_sensor_test_inject_data st data) := by
  cases data with
  | none => exact h
  | some d =>
    unfold eai_sensor_test_inject_data
    simp only
    split_ifs with hfull
    · exact h
    · obtain ⟨hc, hh, ht⟩ := h
      have hc1 : (st.test_data_count + 1) % 4294967296 = st.test_data_count + 1 := by
        unfold TEST_DATA_MAX at hfull; omega
      refine ⟨?_, ?_, ?_⟩
      · simp only [hc1]; omega
      · simp only [hc1, hh]; unfold TEST_DATA_MAX at *; omega
      · exact ht

/-- The ring invariant holds in every reachable state. -/
theorem QueueInv_of_reachable (st : SensorState) (h : Reachable st) : QueueInv st := by
  induction h with
  | boot => refine ⟨?_, ?_, ?_⟩ <;> simp [sensor_boot, TEST_DATA_MAX]
  | init st _ _ =>
    refine ⟨?_, ?_, ?_⟩ <;> simp [eai_sensor_init, setup_default_devices, TEST_DATA_MAX]
  | deinit st _ ih =>
    unfold eai_sensor_deinit
    repeat' split
    all_goals exact ih
  | session_open st session device_id config _ ih =>
    unfold eai_sensor_session_open
    repeat' split
    all_goals exact ih
  | session_start st session callback user_data _ ih =>
    unfold eai_sensor_session_start
    repeat' split
    all_goals exact ih
  | session_read st session data count timeout_ms _ ih =>
    rcases read_state_cases st session data count timeout_ms ih.2.2 with h | ⟨k, hk, h⟩
    · rw [h]; exact ih
    · rw [h]; exact QueueInv_take st k hk ih
  | session_flush st session _ ih => exact QueueInv_flush st session ih
  | session_stop st session _ ih =>
    unfold eai_sensor_session_stop
    repeat' split
    all_goals exact ih
  | session_close st session _ ih =>
    unfold eai_sensor_session_close eai_sensor_session_stop
    dsimp only
    repeat' split
    all_goals exact ih
  | inject st data _ ih => exact QueueInv_inject st data ih
  | reset st _ _ =>
    refine ⟨?_, ?_, ?_⟩ <;> simp [eai_sensor_test_reset, TEST_DATA_MAX]

/-- An injection with room in the ring appends the reading to the queue. -/
theorem pending_inject (st : SensorState) (d : eai_sensor_data) (hinv : QueueInv st)
    (hlt : st.test_data_count < TEST_DATA_MAX) :
    pending (eai_sensor_test_inject_data st (some d)) = pending st ++ [d] := by
  obtain ⟨_, hh, ht⟩ := hinv
  have hge : ¬ st.test_data_count ≥ TEST_DATA_MAX := by omega
  have hc : (st.test_data_count + 1) % 4294967296 = st.test_data_count + 1 := by
    unfold TEST_DATA_MAX at hlt; omega
  simp only [eai_sensor_test_inject_data, if_neg hge, pending, hc]
  rw [List.range_succ, List.map_append, List.map_singleton]
  congr 1
  · apply List.map_congr_left
    intro k hk
    have hk' : k < st.test_data_count := List.mem_range.mp hk
    have hne : (st.test_data_tail + k) % TEST_DATA_MAX ≠ st.test_data_head := by
      rw [hh]; unfold TEST_DATA_MAX at *; omega
    simp [store, hne]
  · simp [store, hh]

end Sensor

namespace Sensor

/-! ## Scenario states -/

theorem reachable_st_two_sessions : Reachable st_two_sessions :=
  Reachable.session_start _ (some 2) none 0
    (Reachable.session_open _ (some 2) 1 (some test_config)
      (Reachable.session_start _ (some 1) none 0
        (Reachable.session_open _ (some 1) 0 (some test_config)
          (Reachable.init _ Reachable.boot))))

theorem reachable_st_four_queued : Reachable st_four_queued :=
  Reachable.inject _ _ (Reachable.inject _ _ (Reachable.inject _ _
    (Reachable.inject _ _ reachable_st_two_sessions)))

theorem reachable_st_callback_queued : Reachable st_callback_queued :=
  Reachable.inject _ _ (Reachable.inject _ _
    (Reachable.session_start _ (some 1) (some 7) 9 reachable_st_two_sessions))

/-- Conversion to `int` of a count that fits. -/
theorem to_int_small (n : Nat) (h : n < 2147483648) : to_int n = (n : Int) := by
  unfold to_int
  have : n % 4294967296 = n := Nat.mod_eq_of_lt (by omega)
  rw [this, if_pos h]

/-! ## C32: what a read returns -/

/-- C32: in every reachable state with the module initialised,
`eai_sensor_session_read` on a started (active) session with a non-NULL buffer
and `count > 0` returns `r = min(count, m)`, `m` being the number of queued
readings whose `device_id` is the session's device, and leaves in
`data[0..r)` the first `r` such readings in queue order (it returns 0 and
copies nothing when none is queued). The queue order is the injection order:
an injection into a queue of fewer than 64 readings appends the reading. -/
theorem C32_read_returns_matching (st : SensorState) (hr : Reachable st)
    (h count timeout_ms : Nat) (hinit : st.initialized = true)
    (hact : (st.sessions h).active = true) (hcount : 0 < count) :
    (eai_sensor_session_read st (some h) true count timeout_ms).1 =
      ((min count (matching (st.sessions h).device_id (pending st)).length : Nat) : Int) ∧
    (eai_sensor_session_read st (some h) true count timeout_ms).2.2 =
      (matching (st.sessions h).device_id (pending st)).take
        (min count (matching (st.sessions h).device_id (pending st)).length) ∧
    (matching (st.sessions h).device_id (pending st) = [] →
      (eai_sensor_session_read st (some h) true count timeout_ms).1 = 0 ∧
      (eai_sensor_session_read st (some h) true count timeout_ms).2.2 = []) ∧
    (∀ d, st.test_data_count < TEST_DATA_MAX →
      pending (eai_sensor_test_inject_data st (some d)) = pending st ++ [d]) := by
  have hinv := QueueInv_of_reachable st hr
  have hread := read_accepted st h count timeout_ms hinit hact hcount hinv.2.2
  rw [matching_scanned] at hread
  have hlen : ((matching (st.sessions h).device_id (pending st)).take count).length =
      min count (matching (st.sessions h).device_id (pending st)).length := List.length_take _ _
  have hm : (matching (st.sessions h).device_id (pending st)).length ≤ st.test_data_count := by
    rw [← pending_length]; exact List.length_filter_le _ _
  have htake : (matching (st.sessions h).device_id (pending st)).take
        (min count (matching (st.sessions h).device_id (pending st)).length) =
      (matching (st.sessions h).device_id (pending st)).take count := by
    by_cases hle : count ≤ (matching (st.sessions h).device_id (pending st)).length
    · rw [Nat.min_eq_left hle]
    · rw [Nat.min_eq_right (by omega), List.take_length, List.take_of_length_le (by omega)]
  have h1 : (eai_sensor_session_read st (some h) true count timeout_ms).1 =
      ((min count (matching (st.sessions h).device_id (pending st)).length : Nat) : Int) := by
    rw [hread, hlen]
    apply to_int_small
    have := hinv.1
    unfold TEST_DATA_MAX at this
    have := Nat.min_le_right count (matching (st.sessions h).device_id (pending st)).length
    omega
  have h2 : (eai_sensor_session_read st (some h) true count timeout_ms).2.2 =
      (matching (st.sessions h).device_id (pending st)).take
        (min count (matching (st.sessions h).device_id (pending st)).length) := by
    rw [htake, hread]
  refine ⟨h1, h2, ?_, ?_⟩
  · intro hnone
    rw [h1, h2, hnone]
    simp
  · intro d hlt
    exact pending_inject st d hinv hlt

/-- Witness for C32: of the four queued readings (accelerometer, thermometer,
accelerometer, accelerometer) a read of 2 on the accelerometer session returns
2 and the first and the third reading. -/
theorem C32_read_returns_matching_witness :
    (eai_sensor_session_read st_four_queued (some 1) true 2 0).1 = 2 ∧
    (eai_sensor_session_read st_four_queued (some 1) true 2 0).2.2 =
      [accel_reading 1, accel_reading 3] :=
  ⟨(C32_read_returns_matching st_four_queued reachable_st_four_queued 1 2 0 (by decide)
      (by decide) (by decide)).1.trans (by decide),
   (C32_read_returns_matching st_four_queued reachable_st_four_queued 1 2 0 (by decide)
      (by decide) (by decide)).2.1.trans (by decide)⟩

/-! ## C39: scanned readings leave the queue -/

/-- C39: in every reachable state with the module initialised, for an active
session of device `dev`: `eai_sensor_session_read` (non-NULL buffer,
`count > 0`) removes from the front of the shared queue all the readings it
scans, copies to the caller exactly those of them whose `device_id` is `dev`,
and invokes no callback, so the scanned readings of other devices are neither
queued nor delivered afterwards; in callback mode `eai_sensor_session_flush`
returns 0, empties the queue and invokes the callback, in order, on exactly
the queued readings whose `device_id` is `dev`. -/
theorem C39_scanned_readings_removed (st : SensorState) (hr : Reachable st)
    (h count timeout_ms : Nat) (hinit : st.initialized = true)
    (hact : (st.sessions h).active = true) (hcount : 0 < count) :
    pending (eai_sensor_session_read st (some h) true count timeout_ms).2.1 =
      (pending st).drop (scanned (st.sessions h).device_id count (pending st)) ∧
    (eai_sensor_session_read st (some h) true count timeout_ms).2.2 =
      matching (st.sessions h).device_id
        ((pending st).take (scanned (st.sessions h).device_id count (pending st))) ∧
    (∀ d, d ∈ (eai_sensor_session_read st (some h) true count timeout_ms).2.2 →
      d.device_id = (st.sessions h).device_id) ∧
    (∀ d, d ∈ (pending st).take (scanned (st.sessions h).device_id count (pending st)) →
      d.device_id ≠ (st.sessions h).device_id →
      d ∉ (eai_sensor_session_read st (some h) true count timeout_ms).2.2) ∧
    (eai_sensor_session_read st (some h) true count timeout_ms).2.1.delivered = st.delivered ∧
    (∀ cb, (st.sessions h).callback = some cb →
      (eai_sensor_session_flush st (some h)).1 = 0 ∧
      pending (eai_sensor_session_flush st (some h)).2 = [] ∧
      (eai_sensor_session_flush st (some h)).2.delivered =
        st.delivered ++ (matching (st.sessions h).device_id (pending st)).map
          (fun d => (cb, d, (st.sessions h).user_data))) := by
  have hinv := QueueInv_of_reachable st hr
  have hread := read_accepted st h count timeout_ms hinit hact hcount hinv.2.2
  have hmem : ∀ d, d ∈ (eai_sensor_session_read st (some h) true count timeout_ms).2.2 →
      d.device_id = (st.sessions h).device_id := by
    intro d hd
    rw [hread] at hd
    simpa using (List.mem_filter.mp hd).2
  refine ⟨?_, ?_, hmem, ?_, ?_, ?_⟩
  · rw [hread]
    exact pending_drop st _
  · rw [hread]
  · intro d _ hne hd
    exact hne (hmem d hd)
  · rw [hread]
  · intro cb hcb
    have hfl : eai_sensor_session_flush st (some h) =
        (0, flush_loop (st.sessions h).device_id cb (st.sessions h).user_data
              st.test_data_count st) := by
      simp only [eai_sensor_session_flush, hinit, hact, hcb, Bool.not_true, Bool.false_eq_true,
        if_false]
    rw [hfl, flush_loop_spec _ _ _ _ _ hinv.2.2 (le_refl _)]
    refine ⟨rfl, ?_, rfl⟩
    simp [pending]

/-- Witness for C39: with accelerometer, thermometer, accelerometer,
accelerometer queued, a read of 1 on the thermometer session scans two
readings, returns the thermometer reading and leaves only the last two
accelerometer readings queued: the first accelerometer reading is lost. In
callback mode a flush of the accelerometer session drops a queued thermometer
reading and delivers the accelerometer reading. -/
theorem C39_scanned_readings_removed_witness :
    pending st_four_queued =
      [accel_reading 1, temp_reading 2, accel_reading 3, accel_reading 4] ∧
    (eai_sensor_session_read st_four_queued (some 2) true 1 0).2.2 = [temp_reading 2] ∧
    pending (eai_sensor_session_read st_four_queued (some 2) true 1 0).2.1 =
      [accel_reading 3, accel_reading 4] ∧
    pending (eai_sensor_session_flush st_callback_queued (some 1)).2 = [] ∧
    (eai_sensor_session_flush st_callback_queued (some 1)).2.delivered =
      [(7, accel_reading 6, 9)] :=
  ⟨by decide,
   (C39_scanned_readings_removed st_four_queued reachable_st_four_queued 2 1 0 (by decide)
      (by decide) (by decide)).2.1.trans (by decide),
   (C39_scanned_readings_removed st_four_queued reachable_st_four_queued 2 1 0 (by decide)
      (by decide) (by decide)).1.trans (by decide),
   ((C39_scanned_readings_removed st_callback_queued reachable_st_callback_queued 1 1 0
      (by decide) (by decide) (by decide)).2.2.2.2.2 7 (by decide)).2.1,
   ((C39_scanned_readings_removed st_callback_queued reachable_st_callback_queued 1 1 0
      (by decide) (by decide) (by decide)).2.2.2.2.2 7 (by decide)).2.2.trans (by decide)⟩

end Sensor

namespace Audio

/-! ## C38: the region copied by a write -/

/-- The state after an accepted write: the bytes from `copy_start` up to
`copy_end` are taken from the caller's data, all others are kept. -/
theorem write_output_buf (st : AudioState) (h : Nat) (data : Nat → Nat)
    (frames timeout_ms : Nat) (hinit : st.initialized = true) (hframes : frames ≠ 0)
    (hdir : (st.streams h).direction = EAI_AUDIO_OUTPUT)
    (hact : (st.streams h).active = true) (i : Nat) :
    (eai_audio_stream_write st (some h) (some data) frames timeout_ms).2.output_buf i =
      if 0 < to_write_of st frames ∧ copy_start st h ≤ i ∧ i < copy_end st h frames
      then data (i - copy_start st h) else st.output_buf i := by
  simp only [eai_audio_stream_write, hinit, hframes, hdir, hact, Bool.not_true,
    Bool.false_eq_true, or_self, if_false, ne_eq, not_true_eq_false]
  by_cases h0 : 0 < to_write_of st frames
  · have h0' := h0
    unfold to_write_of at h0'
    rw [if_pos h0']
    simp only [memcpy, copy_start, copy_end, to_write_of, h0', true_and]
  · have h0' := h0
    unfold to_write_of at h0'
    rw [if_neg h0']
    simp [h0]

/-- For the 16-bit mono and stereo configurations the copied region lies
inside `output_buf`. -/
theorem copy_end_s16 (st : AudioState) (h : Nat) (frames : Nat)
    (hfmt : (st.streams h).config.format = EAI_AUDIO_FORMAT_PCM_S16_LE)
    (hch : (st.streams h).config.channels = EAI_AUDIO_CHANNEL_MONO ∨
      (st.streams h).config.channels = EAI_AUDIO_CHANNEL_STEREO)
    (hof : st.output_frames ≤ TEST_BUF_MAX_FRAMES) :
    copy_end st h frames ≤ TEST_BUF_BYTES := by
  have hc : channels_from_mask (st.streams h).config.channels = 1 ∨
      channels_from_mask (st.streams h).config.channels = 2 := by
    rcases hch with hm | hm <;> rw [hm]
    · left; decide
    · right; decide
  unfold copy_end copy_start to_write_of frame_size bytes_per_sample
  rw [hfmt]
  simp only [EAI_AUDIO_FORMAT_PCM_S16_LE, if_true]
  unfold TEST_BUF_BYTES TEST_BUF_MAX_SAMPLES TEST_BUF_MAX_FRAMES U32 at *
  rcases hc with hc | hc <;> rw [hc] <;> split_ifs <;> omega

/-- Evaluation for C38: `eai_audio_stream_open` on the speaker port accepts the
configuration with 32-bit stereo samples (frame size 8 bytes, 2 channels);
after `eai_audio_stream_start`, a write of 4096 frames returns 4096 and copies
32768 bytes from offset 0 into the capture buffer of 8192 samples = 16384
bytes: the bytes at the offsets 16384 and 32767, behind the buffer, are
overwritten with the caller's data. -/
theorem C38_write_overruns_capture_buffer :
    (eai_audio_stream_open st_audio_init (some 1) 0 (some s32_stereo_config)).1 = 0 ∧
    ((st_s32_started.streams 1).direction = EAI_AUDIO_OUTPUT ∧
      (st_s32_started.streams 1).active = true) ∧
    frame_size (st_s32_started.streams 1).config = 8 ∧
    channels_from_mask (st_s32_started.streams 1).config.channels = 2 ∧
    (eai_audio_stream_write st_s32_started (some 1) (some ab_bytes) 4096 0).1 = 4096 ∧
    copy_start st_s32_started 1 = 0 ∧
    copy_end st_s32_started 1 4096 = 32768 ∧
    TEST_BUF_BYTES = 16384 ∧
    (st_s32_started.output_buf 16384 = 0 ∧ st_s32_written.output_buf 16384 = 171) ∧
    (st_s32_started.output_buf 32767 = 0 ∧ st_s32_written.output_buf 32767 = 171) ∧
    st_s32_written.output_buf 32768 = 0 := by
  decide

end Audio

namespace Input

/-! ## The event ring -/

/-- The number of pending events. -/
theorem events_length (st : InputState) : (pending st).length = st.eq_count := by
  simp [pending]

/-- The pending events before and after the oldest one is taken off the ring. -/
theorem events_read (st : InputState) (h : st.eq_count ≠ 0)
    (ht : st.eq_tail < EVENT_QUEUE_MAX) :
    pending st = st.event_queue st.eq_tail ::
      pending { st with eq_tail := (st.eq_tail + 1) % EVENT_QUEUE_MAX,
                        eq_count := st.eq_count - 1 } := by
  unfold pending
  obtain ⟨n, hn⟩ : ∃ n, st.eq_count = n + 1 := ⟨st.eq_count - 1, by omega⟩
  simp only [hn, Nat.add_sub_cancel]
  rw [List.range_succ_eq_map, List.map_cons, List.map_map]
  congr 1
  · rw [Nat.add_zero, Nat.mod_eq_of_lt ht]
  · apply List.map_congr_left
    intro k _
    simp only [Function.comp, EVENT_QUEUE_MAX]
    congr 1
    omega

/-- The pending events after an event is written at the head of the ring. -/
theorem events_inject (st : InputState) (e : eai_input_event) (hinv : QueueInv st)
    (hlt : st.eq_count < EVENT_QUEUE_MAX) :
    pending { st with event_queue := store st.event_queue st.eq_head e,
                      eq_head := (st.eq_head + 1) % EVENT_QUEUE_MAX,
                      eq_count := (st.eq_count + 1) % U32 } = pending st ++ [e] := by
  obtain ⟨_, hh, ht⟩ := hinv
  unfold pending
  have hc : (st.eq_count + 1) % U32 = st.eq_count + 1 := by
    unfold EVENT_QUEUE_MAX at hlt; unfold U32; omega
  simp only [hc]
  rw [List.range_succ, List.map_append, List.map_singleton]
  congr 1
  · apply List.map_congr_left
    intro k hk
    have hk' : k < st.eq_count := List.mem_range.mp hk
    have hne : (st.eq_tail + k) % EVENT_QUEUE_MAX ≠ st.eq_head := by
      rw [hh]; unfold EVENT_QUEUE_MAX at *; omega
    simp [store, hne]
  · simp [store, hh]

/-- The ring invariant holds after `eai_input_init`. -/
theorem EventRing_init (st : InputState) (callback : Option Nat) (user_data : Nat) :
    QueueInv (eai_input_init st callback user_data).2 := by
  refine ⟨?_, ?_, ?_⟩ <;> simp [eai_input_init, setup_default_devices, EVENT_QUEUE_MAX]

/-- The ring invariant is kept by `eai_input_deinit`. -/
theorem EventRing_deinit (st : InputState) (h : QueueInv st) :
    QueueInv (eai_input_deinit st).2 := by
  unfold eai_input_deinit
  split_ifs
  · exact h
  · exact h

/-- The ring invariant is kept by `eai_input_read`. -/
theorem EventRing_read (st : InputState) (event : Option eai_input_event) (timeout_ms : Nat)
    (h : QueueInv st) : QueueInv (eai_input_read st event timeout_ms).2.1 := by
  cases event with
  | none => exact h
  | some out =>
    unfold eai_input_read
    simp only
    split_ifs with h1 h2
    · exact h
    · exact h
    · obtain ⟨hc, hh, ht⟩ := h
      refine ⟨?_, ?_, ?_⟩
      · simp only; omega
      · simp only [hh]; unfold EVENT_QUEUE_MAX at *; omega
      · simp only; unfold EVENT_QUEUE_MAX; omega

/-- The ring invariant is kept by `eai_input_test_inject_event`. -/
theorem EventRing_inject (st : InputState) (event : Option eai_input_event) (h : QueueInv st) :
    QueueInv (eai_input_test_inject_event st event) := by
  cases event with
  | none => exact h
  | some e =>
    unfold eai_input_test_inject_event
    simp only
    split
    · exact h
    · split_ifs with hfull
      · exact h
      · obtain ⟨hc, hh, ht⟩ := h
        have hc1 : (st.eq_count + 1) % U32 = st.eq_count + 1 := by
          unfold EVENT_QUEUE_MAX at hfull; unfold U32; omega
        refine ⟨?_, ?_, ?_⟩
        · simp only [hc1]; omega
        · simp only [hc1, hh]; unfold EVENT_QUEUE_MAX at *; omega
        · exact ht

/-- The ring invariant holds after `eai_input_test_reset`. -/
theorem EventRing_reset (st : InputState) : QueueInv (eai_input_test_reset st) := by
  refine ⟨?_, ?_, ?_⟩ <;> simp [eai_input_test_reset, EVENT_QUEUE_MAX]

/-- The ring invariant holds in every reachable state. -/
theorem EventRing_of_reachable (st : InputState) (h : Reachable st) : QueueInv st := by
  induction h with
  | boot => refine ⟨?_, ?_, ?_⟩ <;> simp [input_boot, EVENT_QUEUE_MAX]
  | init st callback user_data _ _ => exact EventRing_init st callback user_data
  | deinit st _ ih => exact EventRing_deinit st ih
  | read st event timeout_ms _ ih => exact EventRing_read st event timeout_ms ih
  | inject st event _ ih => exact EventRing_inject st event ih
  | reset st _ _ => exact EventRing_reset st

/-- An injection in polling mode with room in the ring. -/
theorem inject_polling (st : InputState) (e : eai_input_event) (hinv : QueueInv st)
    (hp : polling st) (hlt : st.eq_count < EVENT_QUEUE_MAX) :
    pending (eai_input_test_inject_event st (some e)) = pending st ++ [e] ∧
    polling (eai_input_test_inject_event st (some e)) ∧
    (eai_input_test_inject_event st (some e)).calls = st.calls := by
  have hge : ¬ st.eq_count ≥ EVENT_QUEUE_MAX := by omega
  have hst : eai_input_test_inject_event st (some e) =
      { st with event_queue := store st.event_queue st.eq_head e,
                eq_head := (st.eq_head + 1) % EVENT_QUEUE_MAX,
                eq_count := (st.eq_count + 1) % U32 } := by
    simp [eai_input_test_inject_event, hp.1, hp.2, hge]
  rw [hst]
  exact ⟨events_inject st e hinv hlt, hp, rfl⟩

/-- An injection in polling mode into a full ring. -/
theorem inject_full (st : InputState) (e : eai_input_event)
    (hcb : st.initialized = false ∨ st.event_callback = none)
    (hfull : st.eq_count ≥ EVENT_QUEUE_MAX) :
    eai_input_test_inject_event st (some e) = st := by
  rcases hcb with h | h <;> simp [eai_input_test_inject_event, h, hfull]

/-- A read in polling mode from an empty ring. -/
theorem read_empty (st : InputState) (out : eai_input_event) (timeout_ms : Nat)
    (hp : polling st) (h : st.eq_count = 0) :
    eai_input_read st (some out) timeout_ms = (-EAGAIN, st, some out) := by
  simp [eai_input_read, hp.1, h]

/-- A read in polling mode from a ring that holds events. -/
theorem read_pending (st : InputState) (out : eai_input_event) (timeout_ms : Nat)
    (hinv : QueueInv st) (hp : polling st) (e : eai_input_event)
    (rest : List eai_input_event) (h : pending st = e :: rest) :
    (eai_input_read st (some out) timeout_ms).1 = 0 ∧
    (eai_input_read st (some out) timeout_ms).2.2 = some e ∧
    pending (eai_input_read st (some out) timeout_ms).2.1 = rest ∧
    polling (eai_input_read st (some out) timeout_ms).2.1 ∧
    (eai_input_read st (some out) timeout_ms).2.1.calls = st.calls := by
  have hc : st.eq_count ≠ 0 := by
    intro h0
    have := events_length st
    rw [h, h0] at this
    simp at this
  have hrd := events_read st hc hinv.2.2
  rw [h] at hrd
  injection hrd with h1 h2
  have hst : eai_input_read st (some out) timeout_ms =
      (0, { st with eq_tail := (st.eq_tail + 1) % EVENT_QUEUE_MAX,
                    eq_count := st.eq_count - 1 }, some (st.event_queue st.eq_tail)) := by
    simp [eai_input_read, hp.1, hc]
  rw [hst]
  exact ⟨rfl, by rw [h1], h2.symm, hp, rfl⟩

/-- Injecting a list of events that fits the ring appends it to the pending
events. -/
theorem inject_all_polling (es : List eai_input_event) (st : InputState) (hinv : QueueInv st)
    (hp : polling st) (hfit : st.eq_count + es.length ≤ EVENT_QUEUE_MAX) :
    pending (inject_all st es) = pending st ++ es ∧ polling (inject_all st es) ∧
    QueueInv (inject_all st es) := by
  induction es generalizing st with
  | nil => simpa [inject_all] using ⟨hp, hinv⟩
  | cons e rest ih =>
    simp only [List.length_cons] at hfit
    obtain ⟨h1, h2, _⟩ := inject_polling st e hinv hp (by omega)
    have hinv1 := EventRing_inject st (some e) hinv
    have hlen : (eai_input_test_inject_event st (some e)).eq_count = st.eq_count + 1 := by
      rw [← events_length, h1, List.length_append, events_length]; rfl
    obtain ⟨g1, g2, g3⟩ := ih _ hinv1 h2 (by rw [hlen]; omega)
    refine ⟨?_, g2, g3⟩
    rw [inject_all, g1, h1, List.append_assoc]; rfl

/-- Reading one more time than events are pending returns them in order,
then `-EAGAIN`. -/
theorem read_n_pending (out : eai_input_event) (l : List eai_input_event) (st : InputState)
    (hinv : QueueInv st) (hp : polling st) (h : pending st = l) :
    (read_n out (l.length + 1) st).1 =
      l.map (fun e => ((0 : Int), some e)) ++ [(-EAGAIN, some out)] := by
  induction l generalizing st with
  | nil =>
    have h0 : st.eq_count = 0 := by rw [← events_length, h]; rfl
    simp [read_n, read_empty st out 0 hp h0]
  | cons e rest ih =>
    obtain ⟨r1, r2, r3, r4, _⟩ := read_pending st out 0 hinv hp e rest h
    have hinv1 := EventRing_read st (some out) 0 hinv
    have := ih _ hinv1 r4 r3
    rw [List.length_cons, read_n]
    simp only [this, r1, r2, List.map_cons, List.cons_append]

/-! ## C31: polling mode is a first-in first-out queue -/

/-- C31: after `eai_input_init` with a NULL callback (from any state) no event
is pending, and in every reachable polling-mode state: an event injected while
fewer than 64 events are pending is appended behind the pending ones and no
callback is invoked; `eai_input_read` on an empty queue returns `-EAGAIN` and
leaves state and output event as they were; `eai_input_read` on a non-empty
queue returns 0, stores the oldest pending event, equal in every field to the
injected one, and removes exactly that event. Hence, after a NULL-callback
init, any list of at most 64 injected events is returned in injection order
by as many reads, each event once, and the next read returns `-EAGAIN`. -/
theorem C31_polling_fifo (st : InputState) (hr : Reachable st) (hp : polling st) :
    (∀ st0 user_data, pending (eai_input_init st0 none user_data).2 = [] ∧
      polling (eai_input_init st0 none user_data).2) ∧
    (∀ e, (pending st).length < EVENT_QUEUE_MAX →
      pending (eai_input_test_inject_event st (some e)) = pending st ++ [e] ∧
      polling (eai_input_test_inject_event st (some e)) ∧
      (eai_input_test_inject_event st (some e)).calls = st.calls) ∧
    (∀ out timeout_ms, pending st = [] →
      eai_input_read st (some out) timeout_ms = (-EAGAIN, st, some out)) ∧
    (∀ out timeout_ms e rest, pending st = e :: rest →
      (eai_input_read st (some out) timeout_ms).1 = 0 ∧
      (eai_input_read st (some out) timeout_ms).2.2 = some e ∧
      pending (eai_input_read st (some out) timeout_ms).2.1 = rest ∧
      polling (eai_input_read st (some out) timeout_ms).2.1) ∧
    (∀ st0 user_data es out, List.length es ≤ EVENT_QUEUE_MAX →
      (read_n out (es.length + 1) (inject_all (eai_input_init st0 none user_data).2 es)).1 =
        es.map (fun e => ((0 : Int), some e)) ++ [(-EAGAIN, some out)]) := by
  have hinv := EventRing_of_reachable st hr
  have hinit : ∀ st0 user_data, pending (eai_input_init st0 none user_data).2 = [] ∧
      polling (eai_input_init st0 none user_data).2 := fun st0 user_data => ⟨rfl, rfl, rfl⟩
  refine ⟨hinit, ?_, ?_, ?_, ?_⟩
  · intro e hlen
    rw [events_length] at hlen
    exact inject_polling st e hinv hp hlen
  · intro out timeout_ms hempty
    have h0 : st.eq_count = 0 := by rw [← events_length, hempty]; rfl
    exact read_empty st out timeout_ms hp h0
  · intro out timeout_ms e rest hpend
    obtain ⟨r1, r2, r3, r4, _⟩ := read_pending st out timeout_ms hinv hp e rest hpend
    exact ⟨r1, r2, r3, r4⟩
  · intro st0 user_data es out hlen
    have hi := EventRing_init st0 none user_data
    obtain ⟨g1, g2, g3⟩ := inject_all_polling es _ hi (hinit st0 user_data).2
      (by
        have : (eai_input_init st0 none user_data).2.eq_count = 0 := rfl
        rw [this]; omega)
    rw [(hinit st0 user_data).1, List.nil_append] at g1
    exact read_n_pending out es _ g3 g2 g1

/-- Witness for C31: `test_read_injected_button`, a press and a release
injected after `eai_input_init(NULL, NULL)` and read back, then `-EAGAIN`. -/
theorem C31_polling_fifo_witness :
    (read_n zero_event 3 (inject_all (eai_input_init input_boot none 0).2
      [ev_press, ev_release])).1 =
      [(0, some ev_press), (0, some ev_release), (-EAGAIN, some zero_event)] :=
  (C31_polling_fifo st_polling (Reachable.init _ none 0 Reachable.boot) ⟨rfl, rfl⟩).2.2.2.2
    input_boot 0 [ev_press, ev_release] zero_event (by decide)

/-! ## C40: the ring invariant -/

/-- The state `st_full` is reachable. -/
theorem reachable_inject_all (es : List eai_input_event) (st : InputState)
    (h : Reachable st) : Reachable (inject_all st es) := by
  induction es generalizing st with
  | nil => exact h
  | cons e rest ih => exact ih _ (Reachable.inject st (some e) h)

/-- C40: in every state of the input backend reachable from program start
through init, deinit, read, inject and reset, the pending-event count is at
most 64, the write index equals (read index + count) mod 64 and the read index
is below 64; when no callback is in use and 64 events are pending, an injected
event is dropped: the state, and so the 64 pending events and their order, are
unchanged. -/
theorem C40_ring_invariant (st : InputState) (hr : Reachable st) :
    st.eq_count ≤ EVENT_QUEUE_MAX ∧
    st.eq_head = (st.eq_tail + st.eq_count) % EVENT_QUEUE_MAX ∧
    st.eq_tail < EVENT_QUEUE_MAX ∧
    (∀ e, polling st → st.eq_count = EVENT_QUEUE_MAX →
      eai_input_test_inject_event st (some e) = st ∧
      pending (eai_input_test_inject_event st (some e)) = pending st ∧
      (pending st).length = EVENT_QUEUE_MAX) := by
  obtain ⟨h1, h2, h3⟩ := EventRing_of_reachable st hr
  refine ⟨h1, h2, h3, ?_⟩
  intro e hp hfull
  have hst := inject_full st e (Or.inr hp.2) (by omega)
  refine ⟨hst, by rw [hst], ?_⟩
  rw [events_length, hfull]

/-- Witness for C40: with the events numbered 0..63 pending in polling mode,
event 64 is dropped and the pending events are still those numbered 0..63. -/
theorem C40_ring_invariant_witness :
    st_full.eq_count = 64 ∧ st_full.eq_head = 0 ∧ st_full.eq_tail = 0 ∧
    eai_input_test_inject_event st_full (some (ev_numbered 64)) = st_full ∧
    pending (eai_input_test_inject_event st_full (some (ev_numbered 64))) = pending st_full :=
  ⟨by decide, by decide, by decide,
   ((C40_ring_invariant st_full
      (reachable_inject_all _ _ (Reachable.init _ none 0 Reachable.boot))).2.2.2
      (ev_numbered 64) ⟨by decide, by decide⟩ (by decide)).1,
   ((C40_ring_invariant st_full
      (reachable_inject_all _ _ (Reachable.init _ none 0 Reachable.boot))).2.2.2
      (ev_numbered 64) ⟨by decide, by decide⟩ (by decide)).2.1⟩

end Input

namespace CrashLog

/-! ## The byte loop -/

/-- The loop over the copy buffer feeds its first bytes in order. -/
theorem emit_bytes_feed (buf : Nat → Nat) (k : Nat) (a : EmitAcc) :
    emit_bytes buf k a = feed a ((List.range k).map buf) := by
  induction k with
  | zero => rfl
  | succ k ih =>
    rw [emit_bytes, ih, List.range_succ, List.map_append, feed, feed, List.foldl_append]
    rfl

/-- Feeding two lists one after the other. -/
theorem feed_append (a : EmitAcc) (l1 l2 : List Nat) :
    feed a (l1 ++ l2) = feed (feed a l1) l2 := by
  simp [feed, List.foldl_append]

/-- The two nibbles of a byte. -/
theorem nibbles (b : Nat) (h : b < 256) :
    (b % 256) >>> 4 = b / 16 ∧ (b % 256) &&& 15 = b % 16 := by
  have : ∀ b, b < 256 → (b % 256) >>> 4 = b / 16 ∧ (b % 256) &&& 15 = b % 16 := by decide
  exact this b h

/-- What the byte loop logs: whole lines of 64 hex characters, which together
with the characters left in `hex_line` are the hex encoding of the bytes. -/
theorem feed_spec (bytes : List Nat) (a : EmitAcc) (hb : ∀ b, b ∈ bytes → b < 256)
    (hlen : a.hex_line.length < HEX_LINE_SZ) (heven : a.hex_line.length % 2 = 0) :
    ∃ lines : List (List Char),
      (feed a bytes).log = a.log ++ lines.map (fun l => LogLine.text (cd_tag ++ l)) ∧
      (∀ l, l ∈ lines → l.length = HEX_LINE_SZ) ∧
      lines.flatten ++ (feed a bytes).hex_line = a.hex_line ++ hex_encode bytes ∧
      (feed a bytes).hex_line.length < HEX_LINE_SZ ∧
      (feed a bytes).hex_line.length % 2 = 0 := by
  induction bytes generalizing a with
  | nil => exact ⟨[], by simp [feed], by simp, by simp [feed, hex_encode], hlen, heven⟩
  | cons b rest ih =>
    have hb256 : b < 256 := hb b (List.mem_cons_self _ _)
    have hrest : ∀ c, c ∈ rest → c < 256 := fun c hc => hb c (List.mem_cons_of_mem _ hc)
    obtain ⟨n1, n2⟩ := nibbles b hb256
    have hfeed : feed a (b :: rest) = feed (emit_byte a b) rest := rfl
    have henc : hex_encode (b :: rest) =
        [hex.getD (b / 16) '?', hex.getD (b % 16) '?'] ++ hex_encode rest := by
      simp [hex_encode]
    rw [hfeed, henc]
    by_cases hfull : (a.hex_line ++ [hex.getD (b / 16) '?', hex.getD (b % 16) '?']).length ≥
        HEX_LINE_SZ
    · have he : emit_byte a b =
          { hex_line := [],
            log := a.log ++ [LogLine.text (cd_tag ++
              (a.hex_line ++ [hex.getD (b / 16) '?', hex.getD (b % 16) '?']))] } := by
        simp only [emit_byte, n1, n2]
        rw [if_pos hfull]
      obtain ⟨lines, h1, h2, h3, h4, h5⟩ := ih (emit_byte a b) hrest
        (by rw [he]; simp [HEX_LINE_SZ]) (by rw [he]; rfl)
      refine ⟨(a.hex_line ++ [hex.getD (b / 16) '?', hex.getD (b % 16) '?']) :: lines,
        ?_, ?_, ?_, h4, h5⟩
      · rw [h1, he]; simp
      · intro l hl
        rcases List.mem_cons.mp hl with rfl | hl
        · simp only [List.length_append, List.length_cons, List.length_nil] at hfull ⊢
          unfold HEX_LINE_SZ at *
          omega
        · exact h2 l hl
      · rw [List.flatten_cons, List.append_assoc, h3, he]
        simp
    · have he : emit_byte a b =
          { hex_line := a.hex_line ++ [hex.getD (b / 16) '?', hex.getD (b % 16) '?'],
            log := a.log } := by
        simp only [emit_byte, n1, n2]
        rw [if_neg hfull]
      obtain ⟨lines, h1, h2, h3, h4, h5⟩ := ih (emit_byte a b) hrest
        (by rw [he]; simpa using hfull)
        (by rw [he]; simp only [List.length_append, List.length_cons, List.length_nil]; omega)
      refine ⟨lines, ?_, h2, ?_, h4, h5⟩
      · rw [h1, he]
      · rw [h3, he]; simp

/-! ## The copy loop -/

/-- With a store that holds `dump`, the copy loop started at `offset` feeds
the rest of the dump and does not fail. -/
theorem emit_loop_spec (s : CoredumpStore) (dump : List Nat) (hs : holds_dump s dump)
    (fuel : Nat) (offset length : Nat) (a : EmitAcc) (hoff : offset ≤ dump.length)
    (hfuel : dump.length - offset ≤ fuel) (hl0 : 0 < length) (hl1 : length ≤ COPY_BUF_SZ)
    (hl2 : length = COPY_BUF_SZ ∨ dump.length - offset ≤ length) :
    emit_loop s.copy fuel ((dump.length : Int) - offset) offset length a =
      (feed a (dump.drop offset), false) := by
  induction fuel generalizing offset length a with
  | zero =>
    have : offset = dump.length := by omega
    subst this
    simp [emit_loop, feed]
  | succ fuel ih =>
    by_cases hdone : offset = dump.length
    · subst hdone
      simp [emit_loop, feed]
    · have hpos : (dump.length : Int) - offset > 0 := by omega
      obtain ⟨_, _, _, hcopy⟩ := hs
      rw [emit_loop, if_pos hpos]
      simp only
      generalize hlen1 : (if (dump.length : Int) - offset < (COPY_BUF_SZ : Int)
        then ((dump.length : Int) - offset).toNat else length) = length1
      have hl1' : 0 < length1 ∧ length1 ≤ COPY_BUF_SZ ∧ offset + length1 ≤ dump.length ∧
          (length1 = COPY_BUF_SZ ∨ dump.length - offset ≤ length1) := by
        rw [← hlen1]
        unfold COPY_BUF_SZ at *
        split_ifs with hlt <;> omega
      obtain ⟨g0, g1, g2, g3⟩ := hl1'
      obtain ⟨c1, c2, c3⟩ := hcopy offset length1 g0 g2
      obtain ⟨r, hr⟩ : ∃ r : Nat, (s.copy offset length1).ret = (r : Int) :=
        ⟨(s.copy offset length1).ret.toNat, (Int.toNat_of_nonneg (by omega)).symm⟩
      rw [hr] at c1 c2 c3
      have hr1 : 1 ≤ r := by omega
      have hr2 : r ≤ length1 := by omega
      rw [if_neg (by rw [hr]; omega), hr]
      have e1 : (dump.length : Int) - offset - r = (dump.length : Int) - ((offset + r : Nat) : Int) := by
        push_cast; ring
      have e2 : (offset : Int) + r = ((offset + r : Nat) : Int) := by push_cast; ring
      rw [e1, e2, Int.toNat_ofNat]
      rw [ih (offset + r) length1 _ (by omega) (by omega) g0 g1 (by omega)]
      rw [emit_bytes_feed, ← feed_append]
      congr 2
      have hmap : (List.range r).map (s.copy offset length1).buf =
          (dump.drop offset).take r := by
        apply List.ext_getElem
        · simp; omega
        · intro i h1 h2
          simp only [List.length_map, List.length_range] at h1
          simp only [List.getElem_map, List.getElem_range, List.getElem_take, List.getElem_drop]
          rw [c3 i (by omega)]
          exact List.getD_eq_getElem _ _ (by omega)
      rw [hmap, ← List.drop_drop, List.take_append_drop]

/-! ## C33: the lines of an emitted dump -/

/-- C33: for every store that holds a dump of `n > 0` bytes and whose copy
command succeeds (returning between 1 and the requested length each time and
leaving that many bytes of the dump in the buffer), `crash_log_emit` returns 0
and logs, in order, the line `#CD:BEGIN#`, then lines made of `#CD:` and hex
characters, then the line `#CD:END#`; the hex characters of these lines, put
together, are the two-characters-per-byte lowercase hex encoding of the dump
bytes in order; there is at least one such line, every line but the last
carries exactly 64 hex characters and the last carries between 2 and 64. -/
theorem C33_emit_lines (s : CoredumpStore) (dump : List Nat) (hs : holds_dump s dump)
    (hn : 0 < dump.length) :
    ∃ lines : List (List Char),
      crash_log_emit s =
        (0, [LogLine.text cd_begin] ++ lines.map (fun l => LogLine.text (cd_tag ++ l)) ++
          [LogLine.text cd_end]) ∧
      lines.flatten = hex_encode dump ∧
      (∀ c, c ∈ hex_encode dump → c ∈ hex) ∧
      lines ≠ [] ∧
      (∀ l, l ∈ lines.dropLast → l.length = HEX_LINE_SZ) ∧
      (∀ l, lines.getLast? = some l → 2 ≤ l.length ∧ l.length ≤ HEX_LINE_SZ) := by
  have hloop := emit_loop_spec s dump hs dump.length 0 COPY_BUF_SZ
    { hex_line := [], log := [LogLine.text cd_begin] } (by omega) (by omega) (by decide)
    (le_refl _) (Or.inl rfl)
  obtain ⟨lines, f1, f2, f3, f4, f5⟩ := feed_spec dump
    { hex_line := [], log := [LogLine.text cd_begin] } hs.2.2.1 (by decide) (by decide)
  simp only [List.nil_append] at f3
  have hhex : ∀ c, c ∈ hex_encode dump → c ∈ hex := by
    intro c hc
    simp only [hex_encode, List.mem_flatMap] at hc
    obtain ⟨b, hb, hc⟩ := hc
    have hb256 := hs.2.2.1 b hb
    have hall : ∀ b, b < 256 → hex.getD (b / 16) '?' ∈ hex ∧ hex.getD (b % 16) '?' ∈ hex := by
      decide
    simp only [List.mem_cons, List.mem_singleton, List.not_mem_nil, or_false] at hc
    rcases hc with rfl | rfl
    · exact (hall b hb256).1
    · exact (hall b hb256).2
  have hne : hex_encode dump ≠ [] := by
    cases hd : dump with
    | nil => rw [hd] at hn; simp at hn
    | cons b rest => simp [hex_encode]
  have hemit : crash_log_emit s =
      (0, (if (feed { hex_line := [], log := [LogLine.text cd_begin] } dump).hex_line.length > 0
            then (feed { hex_line := [], log := [LogLine.text cd_begin] } dump).log ++
              [LogLine.text (cd_tag ++
                (feed { hex_line := [], log := [LogLine.text cd_begin] } dump).hex_line)]
            else (feed { hex_line := [], log := [LogLine.text cd_begin] } dump).log) ++
          [LogLine.text cd_end]) := by
    have hsz : ¬ s.stored_dump_size ≤ 0 := by rw [hs.2.1]; omega
    have hhas : crash_log_has_coredump s = true := by simp [crash_log_has_coredump, hs.1]
    simp only [crash_log_emit, hhas, Bool.not_true, Bool.false_eq_true, if_false, hsz]
    have h0 := hloop
    simp only [Nat.cast_zero, sub_zero, List.drop_zero] at h0
    rw [hs.2.1, Int.toNat_ofNat, h0]
    simp
  by_cases hrem : (feed { hex_line := [], log := [LogLine.text cd_begin] } dump).hex_line.length > 0
  · refine ⟨lines ++ [(feed { hex_line := [], log := [LogLine.text cd_begin] } dump).hex_line],
      ?_, ?_, hhex, by simp, ?_, ?_⟩
    · rw [hemit, if_pos hrem, f1]; simp
    · rw [List.flatten_append, ← f3]; simp
    · intro l hl
      rw [List.dropLast_concat] at hl
      exact f2 l hl
    · intro l hl
      rw [List.getLast?_concat] at hl
      injection hl with hl
      subst hl
      unfold HEX_LINE_SZ at *
      omega
  · have hnil : (feed { hex_line := [], log := [LogLine.text cd_begin] } dump).hex_line = [] :=
      List.length_eq_zero.mp (by omega)
    rw [hnil, List.append_nil] at f3
    refine ⟨lines, ?_, f3, hhex, ?_, ?_, ?_⟩
    · rw [hemit, if_neg hrem, f1]
    · intro h; rw [h] at f3; exact hne f3.symm
    · intro l hl
      exact f2 l (List.mem_of_mem_dropLast hl)
    · intro l hl
      have := f2 l (List.mem_of_getLast?_eq_some hl)
      unfold HEX_LINE_SZ at *
      omega

/-- The store `store_of dump step` holds `dump` when it copies at least one
byte per command. -/
theorem holds_dump_store_of (dump : List Nat) (step : Nat) (hstep : 0 < step)
    (hb : ∀ b, b ∈ dump → b < 256) : holds_dump (store_of dump step) dump := by
  refine ⟨rfl, rfl, hb, ?_⟩
  intro offset length h0 _
  simp only [store_of, Int.toNat_ofNat]
  exact ⟨by omega, by omega, fun _ _ => trivial⟩

/-- Witness for C33: a dump of 33 bytes held by a store that copies 5 bytes
per command is logged as one line of 64 hex characters and one of 2. -/
theorem C33_emit_lines_witness :
    crash_log_emit (store_of demo_dump 5) =
      (0, [LogLine.text cd_begin,
           LogLine.text (cd_tag ++ hex_encode (demo_dump.take 32)),
           LogLine.text (cd_tag ++ ['c', '0']),
           LogLine.text cd_end]) ∧
    ∃ lines : List (List Char),
      crash_log_emit (store_of demo_dump 5) =
        (0, [LogLine.text cd_begin] ++ lines.map (fun l => LogLine.text (cd_tag ++ l)) ++
          [LogLine.text cd_end]) ∧
      lines.flatten = hex_encode demo_dump ∧
      (∀ c, c ∈ hex_encode demo_dump → c ∈ hex) ∧
      lines ≠ [] ∧
      (∀ l, l ∈ lines.dropLast → l.length = HEX_LINE_SZ) ∧
      (∀ l, lines.getLast? = some l → 2 ≤ l.length ∧ l.length ≤ HEX_LINE_SZ) :=
  ⟨by decide,
   C33_emit_lines (store_of demo_dump 5) demo_dump
     (holds_dump_store_of demo_dump 5 (by decide) (by decide)) (by decide)⟩

end CrashLog
